import Mathlib

/-!
# NasalPositioned.cxx: the script binding of the waypoint and flight-plan model

A shallow embedding of `src/Scripting/NasalPositioned.cxx`.  The binding functions are
translated one to one.  What they call but do not contain is kept apart:

* the Nasal interpreter's API (`naIsNil`, `naNumValue`, `naRuntimeError`, ...) is modelled
  on the script values of the type `naRef`;
* the methods of `FlightPlan`, `FlightPlan::Leg`, `Waypt`, `Airway`, `Procedure` and of the
  navigation database, whose bodies live in other files, are taken as parameters (method
  tables), so that a theorem about a binding function holds for every implementation of the
  methods it calls.  "The binding calls `m` once with argument `a`" then reads "the object
  afterwards is `m obj a`", and "the binding calls no method" reads "the object is unchanged".
-/

namespace NasalPositioned

/-! ## Numbers -/

/-- A C `double`: a finite value `mant * 2 ^ exp`, an infinity, or a NaN. -/
inductive Dbl where
  | finite (mant : Int) (exp : Int)
  | inf (negative : Bool)
  | nan
deriving DecidableEq, Repr

/-- The double that an `int` converts to. -/
def Dbl.ofInt (i : Int) : Dbl := .finite i 0

/-- The test `std::isfinite`. -/
def Dbl.isFinite : Dbl → Bool
  | .finite _ _ => true
  | _ => false

def INT_MIN : Int := -2147483648
def INT_MAX : Int := 2147483647

/-- The integral part of a finite double, rounded toward zero. -/
def Dbl.truncate (mant exp : Int) : Int :=
  if 0 ≤ exp then mant * 2 ^ exp.toNat else Int.tdiv mant (2 ^ (-exp).toNat)

/-- The conversion `static_cast<int>(d)` (also written `(int) d`): truncation toward zero.
For a NaN, an infinity or a value outside the range of `int` the conversion is undefined in
C++; the model gives the value the x86 conversion instruction produces, `INT_MIN`. -/
def static_cast_int (d : Dbl) : Int :=
  match d with
  | .finite m e =>
    let t := Dbl.truncate m e
    if INT_MIN ≤ t ∧ t ≤ INT_MAX then t else INT_MIN
  | _ => INT_MIN

/-- The conversion `static_cast<bool>(d)`: every double other than zero is true. -/
def static_cast_bool (d : Dbl) : Bool :=
  match d with
  | .finite m _ => decide (m ≠ 0)
  | _ => true

/-! ## The navigation data the binding hands around -/

/-- A geodetic position (`SGGeod`), kept as the constructor call that made it, with the
arguments in the order of the call: degrees, radians, or radians with an elevation in feet. -/
inductive SGGeod where
  | fromDeg (lon lat : Dbl)
  | fromRad (lon lat : Dbl)
  | fromRadFt (lon lat elevFt : Dbl)
deriving DecidableEq, Repr

/-- The default constructor `SGGeod()`: longitude, latitude and elevation are zero. -/
def SGGeod.zero : SGGeod := .fromDeg (Dbl.ofInt 0) (Dbl.ofInt 0)

/-- The enumerators of `FGPositioned::Type` this file names, and `OTHER` for the rest. -/
inductive PositionedType where
  | INVALID | AIRPORT | RUNWAY | HELIPAD | TAXIWAY | FIX | NDB | VOR | ILS | LOC | DME | TACAN
  | OTHER
deriving DecidableEq, Repr

/-- A directory entity (`FGPositioned` and its subclasses `FGAirport`, `FGRunway`,
`FGNavRecord`, `FGFix`), identified by `guid`. -/
structure FGPositioned where
  guid : Nat := 0
  type : PositionedType := .INVALID
  ident : String := ""
  geod : SGGeod := SGGeod.zero
deriving DecidableEq, Repr

abbrev FGAirport := FGPositioned
abbrev FGRunway := FGPositioned
abbrev FGNavRecord := FGPositioned
abbrev FGFix := FGPositioned

/-- The enumeration `ProcedureType` (procedure.hxx). -/
inductive ProcedureType where
  | PROCEDURE_INVALID
  | PROCEDURE_APPROACH_ILS
  | PROCEDURE_APPROACH_VOR
  | PROCEDURE_APPROACH_NDB
  | PROCEDURE_APPROACH_RNAV
  | PROCEDURE_SID
  | PROCEDURE_STAR
  | PROCEDURE_TRANSITION
  | PROCEDURE_RUNWAY_TRANSITION
deriving DecidableEq, Repr

open ProcedureType

/-- A procedure object (`Procedure` and its subclasses `SID`, `STAR`, `Approach`,
`Transition`); `type` is what `proc->type()` returns. -/
structure Procedure where
  guid : Nat := 0
  type : ProcedureType := PROCEDURE_INVALID
  ident : String := ""
deriving DecidableEq, Repr

/-- Modelled from the spec: `Approach::isApproach` (procedure.cxx is not part of this file);
the spec lists the approach types as `ApproachVOR|ILS|RNAV|NDB`. -/
def Approach.isApproach (ty : ProcedureType) : Bool :=
  match ty with
  | PROCEDURE_APPROACH_ILS | PROCEDURE_APPROACH_VOR
  | PROCEDURE_APPROACH_NDB | PROCEDURE_APPROACH_RNAV => true
  | _ => false

/-- The enumeration `Airway::Level`. -/
inductive AirwayLevel where
  | UnknownLevel | LowLevel | HighLevel | Both
deriving DecidableEq, Repr

/-- An airway object, identified by `guid`. -/
structure Airway where
  guid : Nat := 0
  ident : String := ""
  level : AirwayLevel := .Both
deriving DecidableEq, Repr

/-- The enumeration `RouteRestriction` (route.hxx). -/
inductive RouteRestriction where
  | RESTRICT_NONE
  | RESTRICT_AT
  | RESTRICT_ABOVE
  | RESTRICT_BELOW
  | SPEED_RESTRICT_MACH
  | RESTRICT_DELETE
  | RESTRICT_COMPUTED
  | SPEED_COMPUTED_MACH
deriving DecidableEq, Repr

open RouteRestriction

/-- The enumerators of `WayptFlag` this file names.  Each is a distinct single bit of the
flag word (route.hxx); a flag word is modelled as the list of the bits that are set, and the
value `(WayptFlag) 0` as `none`. -/
inductive WayptFlag where
  | WPT_DEPARTURE | WPT_ARRIVAL | WPT_APPROACH | WPT_MISS | WPT_PSEUDO | WPT_OVERFLIGHT
deriving DecidableEq, Repr

open WayptFlag

/-- What `wpt->owner()` points to: the procedure, airway or flight plan a waypoint was
generated by. -/
inductive RouteBase where
  | procedure (p : Procedure)
  | airway (a : Airway)
  | flightplan (guid : Nat)
deriving DecidableEq, Repr

/-- A waypoint (`Waypt` and its subclasses).  `type` is the string `wpt->type()` returns
("basic", "navaid", "runway", "via", "hold", "discontinuity", ...); the fields after
`source` are those of the `Via` (airway and target node) and `Hold` subclasses;
`convertedFrom` is the variant a Hold was converted from, `position` what
`wpt->position()` returns. -/
structure Waypt where
  type : String := "basic"
  ident : String := ""
  owner : Option RouteBase := none
  flags : List WayptFlag := []
  source : Option FGPositioned := none
  position : SGGeod := SGGeod.zero
  airway : Option Airway := none
  target : Option FGPositioned := none
  convertedFrom : Option String := none
  inboundRadial : Dbl := Dbl.ofInt 0
  isLeftHanded : Bool := false
  isDistance : Bool := false
  timeOrDistance : Dbl := Dbl.ofInt 0
deriving DecidableEq, Repr

/-- A counted reference to a waypoint (`WayptRef`), possibly null. -/
abbrev WayptRef := Option Waypt

/-- A vector of waypoint references (`WayptVec`). -/
abbrev WayptVec := List WayptRef

/-- Modelled from the spec: the constructor `Via(owner, airway, to)` (waypoint.cxx is not part
of this file): a Via holds the airway it is routed along and the target node. -/
def Via.new (owner : Option RouteBase) (awy : Airway) (aTo : Option FGPositioned) : Waypt :=
  { type := "via", owner := owner, airway := some awy, target := aTo }

/-- Modelled from the spec: the constructor `RunwayWaypt(rwy, owner)`: a waypoint that wraps
a directory entity and takes its identifier from it. -/
def RunwayWaypt.new (rwy : FGRunway) (owner : Option RouteBase) : Waypt :=
  { type := "runway", ident := rwy.ident, owner := owner, source := some rwy }

/-- Modelled from the spec: the constructor `NavaidWaypoint(pos, owner)`: a waypoint that
wraps a directory entity and takes its identifier from it. -/
def NavaidWaypoint.new (pos : FGPositioned) (owner : Option RouteBase) : Waypt :=
  { type := "navaid", ident := pos.ident, owner := owner, source := some pos }

/-- A leg of a flight plan (`FlightPlan::Leg`); `owner` is the `guid` of the plan that owns
it and `dirty` the mark `markWaypointDirty` leaves for the plan. -/
structure Leg where
  owner : Nat := 0
  index : Int := 0
  waypoint : Waypt := {}
  altitudeRestriction : RouteRestriction := RESTRICT_NONE
  altitudeFt : Dbl := Dbl.ofInt 0
  speedRestriction : RouteRestriction := RESTRICT_NONE
  speed : Dbl := Dbl.ofInt 0
  holdCount : Int := 0
  dirty : Bool := false
deriving DecidableEq, Repr

/-- A flight plan (`FlightPlan`), identified by `guid`. -/
structure FlightPlan where
  guid : Nat := 0
  ident : String := ""
  legs : List Leg := []
  currentIndex : Int := -1
  departureAirport : Option FGAirport := none
  departureRunway : Option FGRunway := none
  destinationAirport : Option FGAirport := none
  destinationRunway : Option FGRunway := none
  sid : Option Procedure := none
  sidTransition : Option Procedure := none
  star : Option Procedure := none
  starTransition : Option Procedure := none
  approach : Option Procedure := none
  icaoAircraftCategory : String := ""
  followLegTrackToFixes : Bool := false
  cruiseAltitudeFt : Int := 0
  cruiseFlightLevel : Int := 0
  cruiseSpeedKnots : Int := 0
  cruiseSpeedMach : Dbl := Dbl.ofInt 0
  callsign : String := ""
  remarks : String := ""
  estimatedDurationMinutes : Int := 0
deriving DecidableEq, Repr

/-- The call `fp->numLegs()`. -/
def FlightPlan.numLegs (fp : FlightPlan) : Int := fp.legs.length

/-! ## Script values -/

/-- What a ghost (a script handle of a native object) refers to: one constructor for each
`naGhostType` of this file, and `foreign` for the ghosts of other bindings. -/
inductive Ghost where
  | airport (apt : FGAirport)
  | navaid (nav : FGNavRecord)
  | runway (rwy : FGRunway)
  | helipad (pad : FGPositioned)
  | taxiway (taxi : FGPositioned)
  | fix (f : FGFix)
  | waypoint (wpt : Waypt)
  | leg (l : Leg)
  | flightplan (fp : FlightPlan)
  | procedure (proc : Procedure)
  | airway (awy : Airway)
  | foreign (name : String)
deriving DecidableEq, Repr

/-- A script value (`naRef`).  A hash is given by its members with string keys, a function
by a code identifier. -/
inductive naRef where
  | nil
  | number (d : Dbl)
  | string (s : String)
  | vector (elems : List naRef)
  | hash (members : List (String × naRef))
  | func (code : Nat)
  | ghost (g : Ghost)

/-- What a binding function does with a call. `ok` is a normal return.  `error` is
`naRuntimeError`: the interpreter raises a script error and control never comes back to the
statement after the call.  `fault` is undefined behaviour of the C++ code (a member call
through a null pointer, a `std::string` built from a null `char*`). -/
inductive Outcome (α : Type) where
  | ok (value : α)
  | error (msg : String)
  | fault (what : String)

/-- The outcome is a script error. -/
def Outcome.isError {α : Type} : Outcome α → Bool
  | .error _ => true
  | _ => false

/-- The outcome is a normal return. -/
def Outcome.isOk {α : Type} : Outcome α → Bool
  | .ok _ => true
  | _ => false

def naNil : naRef := .nil
def naNum (d : Dbl) : naRef := .number d

/-- The union member `r.num`.  A value that is not a number is a tagged reference, whose
bits read as a NaN. -/
def naRef.num : naRef → Dbl
  | .number d => d
  | _ => .nan

def naIsNil : naRef → Bool
  | .nil => true
  | _ => false

def naIsNum : naRef → Bool
  | .number _ => true
  | _ => false

def naIsString : naRef → Bool
  | .string _ => true
  | _ => false

def naIsVector : naRef → Bool
  | .vector _ => true
  | _ => false

def naIsHash : naRef → Bool
  | .hash _ => true
  | _ => false

def naIsFunc : naRef → Bool
  | .func _ => true
  | _ => false

def naIsGhost : naRef → Bool
  | .ghost _ => true
  | _ => false

/-- The call `naStr_data(r)`: the characters of a string, a null pointer for another value. -/
def naStr_data : naRef → Option String
  | .string s => some s
  | _ => none

def stringToNasal (s : String) : naRef := .string s

/-- The call `naNumValue(v)`: a number is returned as it is, a string that parses as a number
(`naStr_tonum`, a parameter) gives that number, every other value gives nil. -/
def naNumValue (naStr_tonum : String → Option Dbl) (v : naRef) : naRef :=
  match v with
  | .number d => .number d
  | .string s =>
    match naStr_tonum s with
    | some d => naNum d
    | none => naNil
  | _ => naNil

/-- Lines 128-137. `some result` stands for `true` with `result` written, `none` for
`false` with `result` left as it was. -/
def convertToNum (naStr_tonum : String → Option Dbl) (v : naRef) : Option Dbl :=
  let n := naNumValue naStr_tonum v
  if naIsNil n then
    none -- couldn't convert
  else
    some n.num

/-! ## Ghost accessors (lines 160-268) and constructors (lines 284-417) -/

def positionedGhost (r : naRef) : Option FGPositioned :=
  match r with
  | .ghost (.airport p) => some p
  | .ghost (.navaid p) => some p
  | .ghost (.runway p) => some p
  | .ghost (.fix p) => some p
  | _ => none

def airportGhost (r : naRef) : Option FGAirport :=
  match r with
  | .ghost (.airport p) => some p
  | _ => none

def navaidGhost (r : naRef) : Option FGNavRecord :=
  match r with
  | .ghost (.navaid p) => some p
  | _ => none

def runwayGhost (r : naRef) : Option FGRunway :=
  match r with
  | .ghost (.runway p) => some p
  | _ => none

def taxiwayGhost (r : naRef) : Option FGPositioned :=
  match r with
  | .ghost (.taxiway p) => some p
  | _ => none

def fixGhost (r : naRef) : Option FGFix :=
  match r with
  | .ghost (.fix p) => some p
  | _ => none

def wayptGhost (r : naRef) : Option Waypt :=
  match r with
  | .ghost (.waypoint w) => some w
  | .ghost (.leg l) => some l.waypoint
  | _ => none

def fpLegGhost (r : naRef) : Option Leg :=
  match r with
  | .ghost (.leg l) => some l
  | _ => none

def procedureGhost (r : naRef) : Option Procedure :=
  match r with
  | .ghost (.procedure p) => some p
  | _ => none

def flightplanGhost (r : naRef) : Option FlightPlan :=
  match r with
  | .ghost (.flightplan fp) => some fp
  | _ => none

def airwayGhost (r : naRef) : Option Airway :=
  match r with
  | .ghost (.airway a) => some a
  | _ => none

def ghostForAirport (apt : Option FGAirport) : naRef :=
  match apt with
  | none => naNil
  | some a => .ghost (.airport a)

def ghostForRunway (r : Option FGRunway) : naRef :=
  match r with
  | none => naNil
  | some rwy => .ghost (.runway rwy)

def ghostForWaypt (wpt : Option Waypt) : naRef :=
  match wpt with
  | none => naNil
  | some w => .ghost (.waypoint w)

def ghostForLeg (leg : Option Leg) : naRef :=
  match leg with
  | none => naNil
  | some l => .ghost (.leg l)

def ghostForFlightPlan (fp : Option FlightPlan) : naRef :=
  match fp with
  | none => naNil
  | some p => .ghost (.flightplan p)

def ghostForProcedure (proc : Option Procedure) : naRef :=
  match proc with
  | none => naNil
  | some p => .ghost (.procedure p)

def ghostForAirway (awy : Option Airway) : naRef :=
  match awy with
  | none => naNil
  | some a => .ghost (.airway a)

/-! ## The methods the binding calls

Their bodies are in FlightPlan.cxx, route.cxx, waypoint.cxx, airways.cxx, procedure.cxx and
airport.cxx.  A method that changes its object maps the object to the object afterwards; a
pointer argument or result that may be null is an `Option`. -/

/-- The methods of `Waypt` and `Hold` that `waypointCommonSetMember` calls. -/
structure WayptMethods where
  setFlag : Waypt → WayptFlag → Bool → Waypt
  setHoldRadial : Waypt → Dbl → Waypt
  setLeftHanded : Waypt → Waypt
  setRightHanded : Waypt → Waypt

/-- The methods of `FlightPlan::Leg` that change the leg.  `setHoldCount` and
`convertWaypointToHold` return a `bool` next to the leg afterwards. -/
structure LegMethods where
  setHoldCount : Leg → Int → Bool × Leg
  convertWaypointToHold : Leg → Bool × Leg
  markWaypointDirty : Leg → Leg
  setSpeed : Leg → RouteRestriction → Dbl → Leg
  setAltitude : Leg → RouteRestriction → Dbl → Leg

/-- The methods of `FlightPlan` that `flightplanGhostSetMember` calls.  The overloads of
`setDeparture`, `setDestination`, `setSID` and `setSTAR` are told apart by a suffix. -/
structure FlightPlanMethods where
  setIdent : FlightPlan → String → FlightPlan
  setCurrentIndex : FlightPlan → Int → FlightPlan
  setDeparture_airport : FlightPlan → FGAirport → FlightPlan
  setDeparture_runway : FlightPlan → FGRunway → FlightPlan
  clearDeparture : FlightPlan → FlightPlan
  setDestination_airport : FlightPlan → FGAirport → FlightPlan
  setDestination_runway : FlightPlan → Option FGRunway → FlightPlan
  clearDestination : FlightPlan → FlightPlan
  setSID : FlightPlan → Option Procedure → FlightPlan
  setSID_transition : FlightPlan → Procedure → FlightPlan
  clearSID : FlightPlan → FlightPlan
  setSTAR : FlightPlan → Option Procedure → FlightPlan
  setSTAR_transition : FlightPlan → Procedure → FlightPlan
  clearSTAR : FlightPlan → FlightPlan
  setApproach : FlightPlan → Option Procedure → FlightPlan
  setIcaoAircraftCategory : FlightPlan → String → FlightPlan
  setFollowLegTrackToFixes : FlightPlan → Bool → FlightPlan
  setCruiseAltitudeFt : FlightPlan → Int → FlightPlan
  setCruiseFlightLevel : FlightPlan → Int → FlightPlan
  setCruiseSpeedKnots : FlightPlan → Int → FlightPlan
  setCruiseSpeedMach : FlightPlan → Dbl → FlightPlan
  setCallsign : FlightPlan → String → FlightPlan
  setRemarks : FlightPlan → String → FlightPlan
  setEstimatedDurationMinutes : FlightPlan → Int → FlightPlan

/-- The procedure lookups of `FGAirport` that `flightplanGhostSetMember` calls. -/
structure AirportMethods where
  selectSIDByTransition : FGAirport → String → Option Procedure
  findSIDWithIdent : FGAirport → String → Option Procedure
  selectSTARByTransition : FGAirport → String → Option Procedure
  findSTARWithIdent : FGAirport → String → Option Procedure
  findApproachWithIdent : FGAirport → String → Option Procedure

/-! ## Waypoint roles (lines 139-158) -/

def wayptFlagFromString (s : String) : Option WayptFlag :=
  if s = "sid" then some WPT_DEPARTURE
  else if s = "star" then some WPT_ARRIVAL
  else if s = "approach" then some WPT_APPROACH
  else if s = "missed" then some WPT_MISS
  else if s = "pseudo" then some WPT_PSEUDO
  else none

def wayptFlagToNasal (flags : List WayptFlag) : naRef :=
  if WPT_PSEUDO ∈ flags then stringToNasal "pseudo"
  else if WPT_DEPARTURE ∈ flags then stringToNasal "sid"
  else if WPT_ARRIVAL ∈ flags then stringToNasal "star"
  else if WPT_MISS ∈ flags then stringToNasal "missed"
  else if WPT_APPROACH ∈ flags then stringToNasal "approach"
  else naNil

/-! ## Member assignment on waypoints and legs (lines 587-621, 741-772)

`fieldName` is `naStr_data(field)`; the interpreter passes the member name, a string. -/

def waypointCommonSetMember (W : WayptMethods) (wpt : Waypt) (fieldName : String)
    (value : naRef) : Outcome Bool × Waypt :=
  if fieldName = "wp_role" then
    if !naIsString value then (.error "wp_role must be a string", wpt)
    else if wpt.owner ≠ none then
      (.error "cannot override wp_role on waypoint with parent", wpt)
    else
      match naStr_data value with
      | none => (.fault "strcmp on a null pointer", wpt)
      | some s =>
        match wayptFlagFromString s with
        | none => (.error "unrecognized wp_role value %s", wpt)
        | some f => (.ok true, W.setFlag wpt f true)
  else if fieldName = "fly_type" then
    if !naIsString value then (.error "fly_type must be a string", wpt)
    else
      let flyOver := decide (naStr_data value = some "flyOver")
      (.ok true, W.setFlag wpt WPT_OVERFLIGHT flyOver)
  else if wpt.type = "hold" then
    if fieldName = "hold_heading_radial_deg" then
      if !naIsNum value then
        (.error "set hold_heading_radial_deg: invalid hold radial", wpt)
      else (.ok true, W.setHoldRadial wpt value.num)
    else if "hold_is_left_handed" = fieldName then
      let leftHanded := decide (static_cast_int value.num > 0)
      if leftHanded then (.ok true, W.setLeftHanded wpt)
      else (.ok true, W.setRightHanded wpt)
    else (.ok true, wpt)
  else
    -- nothing changed
    (.ok false, wpt)

def waypointGhostSetMember (W : WayptMethods) (g : Waypt) (fieldName : String)
    (value : naRef) : Outcome Unit × Waypt :=
  match waypointCommonSetMember W g fieldName value with
  | (.ok _, wpt) => (.ok (), wpt)
  | (.error msg, wpt) => (.error msg, wpt)
  | (.fault what, wpt) => (.fault what, wpt)

/-- The tail shared by the last two branches of `legGhostSetMember`: the base method on
`leg->waypoint()`, then `markWaypointDirty` if it reported a change. -/
def legSetWaypointMember (L : LegMethods) (W : WayptMethods) (leg : Leg) (fieldName : String)
    (value : naRef) : Outcome Unit × Leg :=
  match waypointCommonSetMember W leg.waypoint fieldName value with
  | (.ok didChange, wpt) =>
    let leg := { leg with waypoint := wpt }
    if didChange then (.ok (), L.markWaypointDirty leg) else (.ok (), leg)
  | (.error msg, wpt) => (.error msg, { leg with waypoint := wpt })
  | (.fault what, wpt) => (.fault what, { leg with waypoint := wpt })

def legGhostSetMember (L : LegMethods) (W : WayptMethods) (g : Leg) (fieldName : String)
    (value : naRef) : Outcome Unit × Leg :=
  let leg := g
  if fieldName = "hold_count" then
    let count := static_cast_int value.num
    -- this may upgrade the waypoint to a hold
    let r := L.setHoldCount leg count
    if !r.1 then
      (.error "unable to set hold on leg waypoint: maybe unsuitable waypt type?", r.2)
    else (.ok (), r.2)
  else if fieldName = "hold_heading_radial_deg" then
    let r := L.convertWaypointToHold leg
    if !r.1 then (.error "couldn't convert leg waypoint into a hold", r.2)
    else
      -- now we can call the base method
      legSetWaypointMember L W r.2 fieldName value
  else
    legSetWaypointMember L W leg fieldName value

/-! ## Member assignment on flight plans (lines 812-986) -/

def flightplanGhostSetMember (M : FlightPlanMethods) (A : AirportMethods) (g : FlightPlan)
    (fieldName : String) (value : naRef) : Outcome Unit × FlightPlan :=
  let fp := g
  if fieldName = "id" then
    match value with
    | .string s => (.ok (), M.setIdent fp s)
    | _ => (.error "flightplan.id must be a string", fp)
  else if fieldName = "current" then
    let index := static_cast_int value.num
    if (index < -1) ∨ (index ≥ fp.numLegs) then
      (.error "flightplan.current must be a valid index or -1", fp)
    else (.ok (), M.setCurrentIndex fp index)
  else if fieldName = "departure" then
    match airportGhost value with
    | some apt => (.ok (), M.setDeparture_airport fp apt)
    | none =>
      match runwayGhost value with
      | some rwy => (.ok (), M.setDeparture_runway fp rwy)
      | none =>
        if naIsNil value then (.ok (), M.clearDeparture fp)
        else (.error "bad argument type setting departure", fp)
  else if fieldName = "destination" then
    match airportGhost value with
    | some apt => (.ok (), M.setDestination_airport fp apt)
    | none =>
      match runwayGhost value with
      | some rwy => (.ok (), M.setDestination_runway fp (some rwy))
      | none =>
        if naIsNil value then (.ok (), M.clearDestination fp)
        else (.error "bad argument type setting destination", fp)
  else if fieldName = "departure_runway" then
    match runwayGhost value with
    | some rwy => (.ok (), M.setDeparture_runway fp rwy)
    | none => (.error "bad argument type setting departure runway", fp)
  else if fieldName = "destination_runway" then
    if naIsNil value then (.ok (), M.setDestination_runway fp none)
    else
      match runwayGhost value with
      | some rwy => (.ok (), M.setDestination_runway fp (some rwy))
      | none => (.error "bad argument type setting destination runway", fp)
  else if fieldName = "sid" then
    let rest : Outcome Unit × FlightPlan :=
      match value with
      | .string s =>
        match fp.departureAirport with
        | none => (.fault "member call through a null FGAirport pointer", fp)
        | some apt =>
          match A.selectSIDByTransition apt s with
          | some tr => (.ok (), M.setSID_transition fp tr)
          | none => (.ok (), M.setSID fp (A.findSIDWithIdent apt s))
      | _ =>
        if naIsNil value then (.ok (), M.clearSID fp)
        else (.error "bad argument type setting SID", fp)
    match procedureGhost value with
    | some proc =>
      if proc.type = PROCEDURE_SID then (.ok (), M.setSID fp (some proc))
      -- allow a SID transition to be set, implicitly include the SID itself
      else if proc.type = PROCEDURE_TRANSITION then (.ok (), M.setSID_transition fp proc)
      else rest
    | none => rest
  else if fieldName = "star" then
    let rest : Outcome Unit × FlightPlan :=
      match value with
      | .string s =>
        match fp.destinationAirport with
        | none => (.fault "member call through a null FGAirport pointer", fp)
        | some apt =>
          match A.selectSTARByTransition apt s with
          | some tr => (.ok (), M.setSTAR_transition fp tr)
          | none => (.ok (), M.setSTAR fp (A.findSTARWithIdent apt s))
      | _ =>
        if naIsNil value then (.ok (), M.clearSTAR fp)
        else (.error "bad argument type setting STAR", fp)
    match procedureGhost value with
    | some proc =>
      if proc.type = PROCEDURE_STAR then (.ok (), M.setSTAR fp (some proc))
      else if proc.type = PROCEDURE_TRANSITION then (.ok (), M.setSTAR_transition fp proc)
      else rest
    | none => rest
  else if fieldName = "approach" then
    let rest : Outcome Unit × FlightPlan :=
      match value with
      | .string s =>
        match fp.destinationAirport with
        | none => (.fault "member call through a null FGAirport pointer", fp)
        | some apt => (.ok (), M.setApproach fp (A.findApproachWithIdent apt s))
      | _ =>
        if naIsNil value then (.ok (), M.setApproach fp none)
        else (.error "bad argument type setting approach", fp)
    match procedureGhost value with
    | some proc =>
      if Approach.isApproach proc.type then (.ok (), M.setApproach fp (some proc))
      else rest
    | none => rest
  else if fieldName = "aircraftCategory" then
    match value with
    | .string s => (.ok (), M.setIcaoAircraftCategory fp s)
    | _ => (.error "aircraftCategory must be a string", fp)
  else if fieldName = "followLegTrackToFix" then
    (.ok (), M.setFollowLegTrackToFixes fp (static_cast_bool value.num))
  else if fieldName = "cruiseAltitudeFt" then
    (.ok (), M.setCruiseAltitudeFt fp (static_cast_int value.num))
  else if fieldName = "cruiseFlightLevel" then
    (.ok (), M.setCruiseFlightLevel fp (static_cast_int value.num))
  else if fieldName = "cruiseSpeedKt" then
    (.ok (), M.setCruiseSpeedKnots fp (static_cast_int value.num))
  else if fieldName = "cruiseSpeedMach" then
    (.ok (), M.setCruiseSpeedMach fp value.num)
  else if fieldName = "callsign" then
    match value with
    | .string s => (.ok (), M.setCallsign fp s)
    | _ => (.error "flightplan.callsign must be a string", fp)
  else if fieldName = "remarks" then
    match value with
    | .string s => (.ok (), M.setRemarks fp s)
    | _ => (.error "flightplan.remarks must be a string", fp)
  else if fieldName = "estimatedDurationMins" then
    (.ok (), M.setEstimatedDurationMinutes fp (static_cast_int value.num))
  else (.ok (), fp)

/-! ## Restriction kinds (lines 630-659) -/

/-- The function `tolower` of the C locale. -/
def tolower (c : Char) : Char :=
  if 'A' ≤ c ∧ c ≤ 'Z' then Char.ofNat (c.toNat + 32) else c

/-- The call `simgear::strutils::lowercase(s)`: `tolower` on every character. -/
def lowercase (s : String) : String := String.mk (s.data.map tolower)

def routeRestrictionFromArg (arg : naRef) : RouteRestriction :=
  match arg with
  | .string data =>
    let u := lowercase data
    if u = "computed" then RESTRICT_COMPUTED
    else if u = "at" then RESTRICT_AT
    else if u = "mach" then SPEED_RESTRICT_MACH
    else if u = "computed-mach" then SPEED_COMPUTED_MACH
    else if u = "delete" then RESTRICT_DELETE
    else RESTRICT_NONE
  | _ => RESTRICT_NONE

def routeRestrictionToNasal (rr : RouteRestriction) : naRef :=
  match rr with
  | RESTRICT_NONE => naNil
  | RESTRICT_AT => stringToNasal "at"
  | RESTRICT_ABOVE => stringToNasal "above"
  | RESTRICT_BELOW => stringToNasal "below"
  | SPEED_RESTRICT_MACH => stringToNasal "mach"
  | RESTRICT_COMPUTED => stringToNasal "computed"
  | SPEED_COMPUTED_MACH => stringToNasal "computed-mach"
  | RESTRICT_DELETE => stringToNasal "delete"

/-! ## Script functions

A script function receives the object it is called on (`me`), the number of arguments
(`argc`) and the argument array (`args`).  The array is a window of the interpreter's operand
stack: `args i` for `i ≥ argc` is whatever the stack holds there. -/

/-- Lines 3075-3102.  The second component is the leg `me` refers to, after the call. -/
def f_leg_setSpeed (L : LegMethods) (naStr_tonum : String → Option Dbl) (me : naRef)
    (argc : Nat) (args : Nat → naRef) : Outcome naRef × Option Leg :=
  match fpLegGhost me with
  | none => (.error "leg.setSpeed called on non-flightplan-leg object", none)
  | some leg =>
    let speed : Dbl := Dbl.ofInt 0
    let rr := RESTRICT_AT
    if argc > 0 then
      if naIsNil (args 0) then
        -- clear the restriction to NONE
        (.ok naNil, some (L.setSpeed leg RESTRICT_NONE speed))
      else
        match convertToNum naStr_tonum (args 0) with
        | some converted =>
          if (argc > 1) ∧ naIsString (args 1) then
            (.ok naNil, some (L.setSpeed leg (routeRestrictionFromArg (args 1)) converted))
          else (.error "bad arguments to setSpeed", some leg)
        | none => (.ok naNil, some (L.setSpeed leg rr speed))
    else (.error "bad arguments to setSpeed", some leg)

/-- Lines 3104-3131.  The second component is the leg `me` refers to, after the call. -/
def f_leg_setAltitude (L : LegMethods) (naStr_tonum : String → Option Dbl) (me : naRef)
    (argc : Nat) (args : Nat → naRef) : Outcome naRef × Option Leg :=
  match fpLegGhost me with
  | none => (.error "leg.setAltitude called on non-flightplan-leg object", none)
  | some leg =>
    let altitude : Dbl := Dbl.ofInt 0
    let rr := RESTRICT_AT
    if argc > 0 then
      if naIsNil (args 0) then
        -- clear the restriction to NONE
        (.ok naNil, some (L.setAltitude leg RESTRICT_NONE altitude))
      else
        match convertToNum naStr_tonum (args 0) with
        | some converted =>
          if argc > 1 then
            (.ok naNil, some (L.setAltitude leg (routeRestrictionFromArg (args 1)) converted))
          else (.error "bad arguments to leg.setAltitude", some leg)
        | none => (.ok naNil, some (L.setAltitude leg rr altitude))
    else (.error "bad arguments to setleg.setAltitude", some leg)

/-- Lines 2493-2514. -/
def wayptFromArg (arg : naRef) : WayptRef :=
  match wayptGhost arg with
  | some r => some r
  | none =>
    match positionedGhost arg with
    | none => none
    | some pos =>
      -- special-case for runways
      if pos.type = .RUNWAY then some (RunwayWaypt.new pos none)
      else some (NavaidWaypoint.new pos none)

/-- Lines 2516-2523. -/
def convertWayptVecToNasal (wps : WayptVec) : naRef :=
  .vector (wps.map ghostForWaypt)

/-- The two airway networks, `Airway::highLevel()` and `Airway::lowLevel()`, with their
search `route(from, to, path)`: the result is the returned `bool` and the vector `path`
after the call. -/
structure AirwayNetworks where
  highLevel_route : WayptRef → WayptRef → WayptVec → Bool × WayptVec
  lowLevel_route : WayptRef → WayptRef → WayptVec → Bool × WayptVec

/-- Lines 2525-2554. -/
def f_airwaySearch (N : AirwayNetworks) (argc : Nat) (args : Nat → naRef) : Outcome naRef :=
  if argc < 2 then .error "airwaysSearch needs at least two arguments"
  else
    let start := wayptFromArg (args 0)
    let end_ := wayptFromArg (args 1)
    if start.isNone ∨ end_.isNone then .ok naNil
    else
      let highLevel : Bool :=
        if (argc > 2) ∧ naIsString (args 2) then
          if naStr_data (args 2) = some "lowlevel" then false else true
        else true
      let route : WayptVec := []
      let route :=
        if highLevel then (N.highLevel_route start end_ route).2
        else (N.lowLevel_route start end_ route).2
      .ok (convertWayptVecToNasal route)

/-- Lines 2556-2581. -/
def positionedFromArg (ref : naRef) : Option FGPositioned :=
  match ref with
  | .ghost (.airport _) => airportGhost ref
  | .ghost (.navaid _) => navaidGhost ref
  | .ghost (.runway _) => runwayGhost ref
  | .ghost (.taxiway _) => taxiwayGhost ref
  | .ghost (.fix _) => fixGhost ref
  | .ghost (.waypoint w) => w.source
  | .ghost (.leg l) => l.waypoint.source
  | _ => none

/-- The lookups and queries of `Airway` that the Via constructors of the binding call. -/
structure AirwayMethods where
  findByIdent : String → AirwayLevel → Option Airway
  findByIdentAndNavaid : String → FGPositioned → Option Airway
  findEnroute : Airway → String → WayptRef
  containsNavaid : Airway → Option FGPositioned → Bool

/-- Lines 2669-2704.  The arguments of the message formats are not modelled. -/
def f_createViaTo (AW : AirwayMethods) (argc : Nat) (args : Nat → naRef) : Outcome naRef :=
  if argc ≠ 2 then .error "createViaTo: needs exactly two arguments"
  else
    match naStr_data (args 0) with
    | none => .fault "std::string built from a null pointer"
    | some airwayName =>
      match AW.findByIdent airwayName .Both with
      | none => .error "createViaTo: couldn't find airway with provided name: %s"
      | some airway =>
        let resolved : Outcome (Option FGPositioned) :=
          match args 1 with
          | .string data =>
            match AW.findEnroute airway data with
            | none => .error "unknown waypoint on airway %s: %s"
            | some enroute => .ok enroute.source
          | _ =>
            match positionedGhost (args 1) with
            | none => .error "createViaTo: arg[1] is not a navaid"
            | some nav => .ok (some nav)
        match resolved with
        | .error msg => .error msg
        | .fault what => .fault what
        | .ok nav =>
          if !AW.containsNavaid airway nav then .error "createViaTo: navaid not on airway"
          else
            let via := Via.new none airway nav
            .ok (ghostForWaypt (some via))

/-- Lines 2706-2747.  The arguments of the message formats are not modelled (the first one
of the second message is `naStr_data(args[0])`, the null pointer of a value that is not a
string). -/
def f_createViaFromTo (AW : AirwayMethods) (argc : Nat) (args : Nat → naRef) :
    Outcome naRef :=
  if argc ≠ 3 then .error "createViaFromTo: needs exactly three arguments"
  else
    match positionedFromArg (args 0) with
    | none => .error "createViaFromTo: from wp not found"
    | some from_ =>
      match naStr_data (args 1) with
      | none => .fault "std::string built from a null pointer"
      | some airwayName =>
        match AW.findByIdentAndNavaid airwayName from_ with
        | none =>
          .error "createViaFromTo: couldn't find airway with provided name: %s from wp %s"
        | some airway =>
          let resolved : Outcome (Option FGPositioned) :=
            match args 2 with
            | .string data =>
              match AW.findEnroute airway data with
              | none => .error "unknown waypoint on airway %s: %s"
              | some enroute => .ok enroute.source
            | _ =>
              match positionedFromArg (args 2) with
              | none => .error "createViaFromTo: arg[2] is not a navaid"
              | some nav => .ok (some nav)
          match resolved with
          | .error msg => .error msg
          | .fault what => .fault what
          | .ok nav =>
            if !AW.containsNavaid airway nav then
              .error "createViaFromTo: navaid not on airway"
            else
              let via := Via.new none airway nav
              .ok (ghostForWaypt (some via))

/-- Modelled from the spec: the constructor `FlightPlan()` (FlightPlan.cxx is not part of
this file): a flight plan is created empty. -/
def FlightPlan.new : FlightPlan := {}

/-- The file system and the loader, as `f_createFlightplan` uses them: `SGPath::exists` and
`FlightPlan::load`, which returns a `bool` next to the plan afterwards. -/
structure FileMethods where
  exists_ : String → Bool
  load : FlightPlan → String → Bool × FlightPlan

/-- Lines 2315-2334. -/
def f_createFlightplan (F : FileMethods) (argc : Nat) (args : Nat → naRef) : Outcome naRef :=
  let fp := FlightPlan.new
  if (argc > 0) ∧ naIsString (args 0) then
    match naStr_data (args 0) with
    | none => .fault "SGPath built from a null pointer"
    | some path =>
      if !F.exists_ path then .error "createFlightplan, no file at path %s"
      else
        let r := F.load fp path
        if !r.1 then .ok naNil
        else .ok (ghostForFlightPlan (some r.2))
  else .ok (ghostForFlightPlan (some fp))

/-! ## The script delegate of a flight plan (lines 2351-2428) -/

/-- The members of `NasalFPDelegate` that the notifications use. -/
structure NasalFPDelegate where
  _plan : FlightPlan
  _instance : naRef

/-- The interpreter as the delegate uses it, over its state `σ`: the member lookup
`naMember_cget(ctx, obj, name, &f)`, which gives `some f` where the C function returns
non-zero, and `FGNasalSys::callMethod(f, obj, argc, args, locals)`. -/
structure NasalSys (σ : Type) where
  naMember_cget : naRef → String → Option naRef
  callMethod : σ → naRef → naRef → List naRef → naRef → σ

def NasalFPDelegate.callDelegateMethod {σ : Type} (sys : NasalSys σ) (d : NasalFPDelegate)
    (st : σ) (method : String) : σ :=
  match sys.naMember_cget d._instance method with
  | some f =>
    let arg := [ghostForFlightPlan (some d._plan)]
    sys.callMethod st f d._instance arg naNil
  | none => st

def NasalFPDelegate.departureChanged {σ : Type} (sys : NasalSys σ) (d : NasalFPDelegate)
    (st : σ) : σ :=
  d.callDelegateMethod sys st "departureChanged"

def NasalFPDelegate.arrivalChanged {σ : Type} (sys : NasalSys σ) (d : NasalFPDelegate)
    (st : σ) : σ :=
  d.callDelegateMethod sys st "arrivalChanged"

def NasalFPDelegate.waypointsChanged {σ : Type} (sys : NasalSys σ) (d : NasalFPDelegate)
    (st : σ) : σ :=
  d.callDelegateMethod sys st "waypointsChanged"

def NasalFPDelegate.currentWaypointChanged {σ : Type} (sys : NasalSys σ)
    (d : NasalFPDelegate) (st : σ) : σ :=
  d.callDelegateMethod sys st "currentWaypointChanged"

def NasalFPDelegate.cleared {σ : Type} (sys : NasalSys σ) (d : NasalFPDelegate)
    (st : σ) : σ :=
  d.callDelegateMethod sys st "cleared"

def NasalFPDelegate.endOfFlightPlan {σ : Type} (sys : NasalSys σ) (d : NasalFPDelegate)
    (st : σ) : σ :=
  d.callDelegateMethod sys st "endOfFlightPlan"

def NasalFPDelegate.activated {σ : Type} (sys : NasalSys σ) (d : NasalFPDelegate)
    (st : σ) : σ :=
  d.callDelegateMethod sys st "activated"

def NasalFPDelegate.sequence {σ : Type} (sys : NasalSys σ) (d : NasalFPDelegate)
    (st : σ) : σ :=
  d.callDelegateMethod sys st "sequence"

/-! ## Procedures (lines 3193-3238) -/

/-- The route computations of `Approach` and `ArrivalDeparture`, `route(..., path)`: the
result is the returned `bool` and the vector `path` after the call. -/
structure ProcedureMethods where
  Approach_route : Procedure → WayptRef → WayptVec → Bool × WayptVec
  ArrivalDeparture_route :
    Procedure → Option FGRunway → Option Procedure → WayptVec → Bool × WayptVec

def f_procedure_route (P : ProcedureMethods) (me : naRef) (argc : Nat) (args : Nat → naRef) :
    Outcome naRef :=
  match procedureGhost me with
  | none => .error "procedure.route called on non-procedure object"
  | some proc =>
    if Approach.isApproach proc.type then
      let iaf : WayptRef := if argc > 0 then wayptFromArg (args 0) else none
      let r := P.Approach_route proc iaf []
      if !r.1 then .ok naNil
      else .ok (convertWayptVecToNasal r.2)
    else if (proc.type ≠ PROCEDURE_SID) ∧ (proc.type ≠ PROCEDURE_STAR) then
      .error "procedure.route called on unsuitable procedure type"
    else
      let rwy := runwayGhost (args 0)
      let argOffset : Nat := if rwy.isSome then 1 else 0
      let tr : Option Procedure :=
        if argOffset < argc then procedureGhost (args argOffset) else none
      -- note either runway or trans may be NULL - that's ok
      let r := P.ArrivalDeparture_route proc rwy tr []
      if !r.1 then .ok naNil
      else .ok (convertWayptVecToNasal r.2)

/-! ## Script functions on the legs of a flight plan (lines 2754-3016) -/

/-- The methods of `FlightPlan` that insert, delete and find legs.  The two overloads of
`findWayptIndex` are told apart by a suffix. -/
structure FlightPlanRouteMethods where
  insertWayptAtIndex : FlightPlan → WayptRef → Int → Option Leg × FlightPlan
  insertWayptsAtIndex : FlightPlan → WayptVec → Int → FlightPlan
  deleteIndex : FlightPlan → Int → FlightPlan
  findWayptIndex_entity : FlightPlan → FGPositioned → Int
  findWayptIndex_position : FlightPlan → SGGeod → Int

/-- Lines 2815-2830.  The second component is the plan `me` refers to, after the call. -/
def f_flightplan_insertWP (R : FlightPlanRouteMethods) (me : naRef) (argc : Nat)
    (args : Nat → naRef) : Outcome naRef × Option FlightPlan :=
  match flightplanGhost me with
  | none => (.error "flightplan.insertWP called on non-flightplan object", none)
  | some fp =>
    let wp := wayptGhost (args 0)
    let index : Int :=
      if (argc > 1) ∧ naIsNum (args 1) then static_cast_int (args 1).num
      else -1 -- append
    let r := R.insertWayptAtIndex fp wp index
    (.ok (ghostForLeg r.1), some r.2)

/-- Lines 2832-2847.  The second component is the plan `me` refers to, after the call. -/
def f_flightplan_insertWPAfter (R : FlightPlanRouteMethods) (me : naRef) (argc : Nat)
    (args : Nat → naRef) : Outcome naRef × Option FlightPlan :=
  match flightplanGhost me with
  | none => (.error "flightplan.insertWPAfter called on non-flightplan object", none)
  | some fp =>
    let wp := wayptGhost (args 0)
    let index : Int :=
      if (argc > 1) ∧ naIsNum (args 1) then static_cast_int (args 1).num
      else -1 -- append
    let r := R.insertWayptAtIndex fp wp (index + 1)
    (.ok (ghostForLeg r.1), some r.2)

/-- The loop of lines 2867-2873: the elements of the vector that are waypoint or leg ghosts
are pushed onto `wps`, in order. -/
def collectWaypts (elems : List naRef) : WayptVec :=
  elems.foldl (fun wps e =>
    match wayptGhost e with
    | some wp => wps ++ [some wp]
    | none => wps) []

/-- Lines 2849-2882.  The second component is the plan `me` refers to, after the call. -/
def f_flightplan_insertWaypoints (R : FlightPlanRouteMethods) (me : naRef) (argc : Nat)
    (args : Nat → naRef) : Outcome naRef × Option FlightPlan :=
  match flightplanGhost me with
  | none => (.error "flightplan.insertWaypoints called on non-flightplan object", none)
  | some fp =>
    -- don't warn when passing a nil to this, which can happen in certain
    -- procedure construction situations
    if naIsNil (args 0) then (.ok naNil, some fp)
    else
      match args 0 with
      | .vector elems =>
        let wps := collectWaypts elems
        let index : Int :=
          if (argc > 1) ∧ naIsNum (args 1) then static_cast_int (args 1).num
          else -1 -- append
        (.ok naNil, some (R.insertWayptsAtIndex fp wps index))
      | _ => (.error "flightplan.insertWaypoints expects vector as first arg", some fp)

/-- Lines 2884-2898.  The second component is the plan `me` refers to, after the call. -/
def f_flightplan_deleteWP (R : FlightPlanRouteMethods) (me : naRef) (argc : Nat)
    (args : Nat → naRef) : Outcome naRef × Option FlightPlan :=
  match flightplanGhost me with
  | none => (.error "flightplan.deleteWP called on non-flightplan object", none)
  | some fp =>
    if (argc < 1) ∨ !naIsNum (args 0) then
      (.error "bad argument to flightplan.deleteWP", some fp)
    else
      let index := static_cast_int (args 0).num
      (.ok naNil, some (R.deleteIndex fp index))

/-! ## Member reads on waypoints and legs (lines 284-367, 466-585, 700-739) -/

def ghostForNavaid (n : Option FGNavRecord) : naRef :=
  match n with
  | none => naNil
  | some nav => .ghost (.navaid nav)

def ghostForHelipad (r : Option FGPositioned) : naRef :=
  match r with
  | none => naNil
  | some pad => .ghost (.helipad pad)

def ghostForTaxiway (r : Option FGPositioned) : naRef :=
  match r with
  | none => naNil
  | some taxi => .ghost (.taxiway taxi)

def ghostForFix (r : Option FGFix) : naRef :=
  match r with
  | none => naNil
  | some f => .ghost (.fix f)

/-- Lines 344-367. -/
def ghostForPositioned (pos : Option FGPositioned) : naRef :=
  match pos with
  | none => naNil
  | some p =>
    match p.type with
    | .VOR | .NDB | .TACAN | .DME | .ILS => ghostForNavaid (some p)
    | .FIX => ghostForFix (some p)
    | .HELIPAD => ghostForHelipad (some p)
    | .RUNWAY => ghostForRunway (some p)
    | _ => naNil

/-- What the member reads ask of a waypoint and of the directory beyond the stored fields:
`wpt->headingRadialDeg()`, the degrees of a position, `owner()->ident()`, the type tests
`FGNavRecord::isNavaidType`, `fgpositioned_cast<FGFix>` (true for a non-null result),
`FGPositioned::isRunwayType` and `isAirportType` (which take a possibly null pointer), and
`FGRunway::airport`. -/
structure WayptQueries where
  headingRadialDeg : Waypt → Dbl
  getLatitudeDeg : SGGeod → Dbl
  getLongitudeDeg : SGGeod → Dbl
  ownerIdent : RouteBase → String
  isNavaidType : FGPositioned → Bool
  isFix : FGPositioned → Bool
  isRunwayType : Option FGPositioned → Bool
  isAirportType : Option FGPositioned → Bool
  runwayAirport : FGRunway → Option FGAirport

/-- The values of a leg that the flight plan computes: `speedMach()`, `speedKts()`,
`distanceNm()`, `courseDeg()` and `distanceAlongRoute()`. -/
structure LegQueries where
  speedMach : Leg → Dbl
  speedKts : Leg → Dbl
  distanceNm : Leg → Dbl
  courseDeg : Leg → Dbl
  distanceAlongRoute : Leg → Dbl

/-- Modelled from the spec: `isMachRestrict` (route.cxx is not part of this file): speed
restrictions use knots unless the kind is Mach or ComputedMach. -/
def isMachRestrict (rr : RouteRestriction) : Bool :=
  match rr with
  | SPEED_RESTRICT_MACH | SPEED_COMPUTED_MACH => true
  | _ => false

/-- The number `naNum(b)` of a `bool`. -/
def naNumBool (b : Bool) : naRef := naNum (Dbl.ofInt (if b then 1 else 0))

/-- Lines 466-475: the navaid ghost associated with a waypoint of navaid type. -/
def waypointNavaid (Q : WayptQueries) (wpt : Waypt) : naRef :=
  match wpt.source with
  | none => naNil
  | some pos =>
    if !Q.isNavaidType pos && !Q.isFix pos then naNil
    else ghostForPositioned wpt.source

/-- Lines 479-490: the airport ghost associated with a waypoint of airport or runway
type. -/
def waypointAirport (Q : WayptQueries) (wpt : Waypt) : naRef :=
  let pos := wpt.source
  if Q.isRunwayType pos then
    match pos with
    | some rwy => ghostForAirport (Q.runwayAirport rwy)
    | none => naNil
  else if !Q.isAirportType pos then naNil
  else ghostForAirport pos

/-- Lines 493-502: the runway ghost associated with a waypoint of runway type. -/
def waypointRunway (Q : WayptQueries) (wpt : Waypt) : naRef :=
  let pos := wpt.source
  if !Q.isRunwayType pos then naNil
  else ghostForRunway pos

/-- Lines 504-585.  `some out` stands for the return value "" with `out` written, `none`
for the null pointer (member not found). -/
def waypointCommonGetMember (Q : WayptQueries) (wpt : Waypt) (fieldName : String) :
    Option naRef :=
  if fieldName = "wp_name" ∨ fieldName = "id" then some (stringToNasal wpt.ident)
  else if fieldName = "wp_type" then some (stringToNasal wpt.type)
  else if fieldName = "wp_role" then some (wayptFlagToNasal wpt.flags)
  else if fieldName = "wp_lat" ∨ fieldName = "lat" then
    some (naNum (Q.getLatitudeDeg wpt.position))
  else if fieldName = "wp_lon" ∨ fieldName = "lon" then
    some (naNum (Q.getLongitudeDeg wpt.position))
  else if fieldName = "wp_parent_name" then
    match wpt.owner with
    | some o => some (stringToNasal (Q.ownerIdent o))
    | none => some naNil
  else if fieldName = "wp_parent" then
    match wpt.owner with
    | some (.procedure proc) => some (ghostForProcedure (some proc))
    | some (.airway airway) => some (ghostForAirway (some airway))
    | _ => some naNil
  else if fieldName = "fly_type" then
    if wpt.type = "hold" then some (stringToNasal "Hold")
    else some (stringToNasal (if WPT_OVERFLIGHT ∈ wpt.flags then "flyOver" else "flyBy"))
  else if fieldName = "heading_course" then some (naNum (Q.headingRadialDeg wpt))
  else if fieldName = "navaid" then some (waypointNavaid Q wpt)
  else if fieldName = "airport" then some (waypointAirport Q wpt)
  else if fieldName = "runway" then some (waypointRunway Q wpt)
  else if fieldName = "airway" then
    if wpt.type = "via" then some (ghostForAirway wpt.airway)
    else some naNil
  else if wpt.type = "hold" then
    -- hold-specific properties
    if fieldName = "hold_is_left_handed" then some (naNumBool wpt.isLeftHanded)
    else if fieldName = "hold_is_distance" then some (naNumBool wpt.isDistance)
    else if fieldName = "hold_is_time" then some (naNumBool (!wpt.isDistance))
    else if fieldName = "hold_inbound_radial" then some (naNum wpt.inboundRadial)
    else if fieldName = "hold_heading_radial_deg" then some (naNum wpt.inboundRadial)
    else if fieldName = "hold_time_or_distance" then some (naNum wpt.timeOrDistance)
    else none -- member not found
  else none -- member not found

/-- Lines 623-628. -/
def wayptGhostGetMember (Q : WayptQueries) (g : Waypt) (fieldName : String) : Option naRef :=
  waypointCommonGetMember Q g fieldName

/-- The C functions `f_fpLeg_airport`, `f_fpLeg_navaid` and `f_fpLeg_runway`, as the code
identifiers of the script functions made of them. -/
def code_f_fpLeg_airport : Nat := 1
def code_f_fpLeg_navaid : Nat := 2
def code_f_fpLeg_runway : Nat := 3

/-- Lines 700-739.  `fpLegPrototype` is the global of that name. -/
def legGhostGetMember (LQ : LegQueries) (Q : WayptQueries) (fpLegPrototype : naRef)
    (g : Leg) (fieldName : String) : Option naRef :=
  let leg := g
  let wpt := leg.waypoint
  if fieldName = "parents" then some (.vector [fpLegPrototype])
  else if fieldName = "index" then some (naNum (Dbl.ofInt leg.index))
  else if fieldName = "alt_cstr" then some (naNum leg.altitudeFt)
  else if fieldName = "alt_cstr_type" then
    some (routeRestrictionToNasal leg.altitudeRestriction)
  else if fieldName = "speed_cstr" then
    let s := if isMachRestrict leg.speedRestriction then LQ.speedMach leg else LQ.speedKts leg
    some (naNum s)
  else if fieldName = "speed_cstr_type" then
    some (routeRestrictionToNasal leg.speedRestriction)
  else if fieldName = "leg_distance" then some (naNum (LQ.distanceNm leg))
  else if fieldName = "leg_bearing" then some (naNum (LQ.courseDeg leg))
  else if fieldName = "distance_along_route" then some (naNum (LQ.distanceAlongRoute leg))
  else if fieldName = "airport" then some (.func code_f_fpLeg_airport)
  else if fieldName = "navaid" then some (.func code_f_fpLeg_navaid)
  else if fieldName = "runway" then some (.func code_f_fpLeg_runway)
  else if fieldName = "hold_count" then some (naNum (Dbl.ofInt leg.holdCount))
  else -- check for fields defined on the underlying waypoint
    waypointCommonGetMember Q wpt fieldName

/-! ## Positions from arguments (lines 1178-1278) -/

/-- The call `naHash_cget(hash, key)`: the member of that name, nil if there is none or if
the value is no hash. -/
def naHash_cget (h : naRef) (key : String) : naRef :=
  match h with
  | .hash members => (members.lookup key).getD naNil
  | _ => naNil

/-- The call `naVec_get(v, i)`: the element, nil if there is none. -/
def naVec_get (v : naRef) (i : Nat) : naRef :=
  match v with
  | .vector elems => elems.getD i naNil
  | _ => naNil

/-- Lines 1178-1186.  `isGeoCoordClass x` stands for `naEqual(x, geoCoordClass) != 0`, the
comparison with the global that holds the script class `geo.Coord`. -/
def hashIsCoord (isGeoCoordClass : naRef → Bool) (h : naRef) : Bool :=
  let parents := naHash_cget h "parents"
  if !naIsVector parents then false
  else isGeoCoordClass (naVec_get parents 0)

/-- Lines 1188-1220.  `some result` stands for `true` with `result` written, `none` for
`false` with `result` left as it was. -/
def geodFromHash (naStr_tonum : String → Option Dbl) (isGeoCoordClass : naRef → Bool)
    (ref : naRef) : Option SGGeod :=
  if !naIsHash ref then none
  else
    -- check for manual latitude / longitude names
    let lat := naHash_cget ref "lat"
    let lon := naHash_cget ref "lon"
    if naIsNum lat && naIsNum lon then
      some (SGGeod.fromDeg (naNumValue naStr_tonum lon).num (naNumValue naStr_tonum lat).num)
    else if hashIsCoord isGeoCoordClass ref then
      let lat := naHash_cget ref "_lat"
      let lon := naHash_cget ref "_lon"
      let alt_feet := naHash_cget ref "_alt"
      if naIsNum lat && naIsNum lon && naIsNil alt_feet then
        some (SGGeod.fromRad (naNumValue naStr_tonum lon).num (naNumValue naStr_tonum lat).num)
      else if naIsNum lat && naIsNum lon && naIsNum alt_feet then
        some (SGGeod.fromRadFt (naNumValue naStr_tonum lon).num
          (naNumValue naStr_tonum lat).num (naNumValue naStr_tonum alt_feet).num)
      else none
    else none

/-- Lines 1222-1278.  The result is the returned `int` and `result` after the call. -/
def geodFromArgs (naStr_tonum : String → Option Dbl) (isGeoCoordClass : naRef → Bool)
    (args : Nat → naRef) (offset : Nat) (argc : Nat) (result : SGGeod) : Nat × SGGeod :=
  if offset ≥ argc then (0, result)
  else
    match args offset with
    | .ghost (.airport apt) => (1, apt.geod)
    | .ghost (.navaid nav) => (1, nav.geod)
    | .ghost (.runway rwy) => (1, rwy.geod)
    | .ghost (.taxiway taxi) => (1, taxi.geod)
    | .ghost (.fix f) => (1, f.geod)
    | .ghost (.waypoint wpt) => (1, wpt.position)
    | .ghost (.leg l) => (1, l.waypoint.position)
    | _ =>
      match geodFromHash naStr_tonum isGeoCoordClass (args offset) with
      | some g => (1, g)
      | none =>
        if (((argc : Int) - offset) ≥ 2) ∧ naIsNum (args offset) ∧ naIsNum (args (offset + 1))
        then
          let lat := (naNumValue naStr_tonum (args 0)).num
          let lon := (naNumValue naStr_tonum (args 1)).num
          (2, SGGeod.fromDeg lon lat)
        else (0, result)

/-! ## Finding and reading legs (lines 2754-2773, 2988-3016) -/

/-- Modelled from the spec: `FlightPlan::legAtIndex` (FlightPlan.cxx is not part of this
file): the leg at that position of the ordered sequence of legs. -/
def FlightPlan.legAtIndex (fp : FlightPlan) (index : Int) : Option Leg :=
  if index < 0 then none else fp.legs[index.toNat]?

/-- Lines 2754-2773. -/
def f_flightplan_getWP (naStr_tonum : String → Option Dbl) (me : naRef) (argc : Nat)
    (args : Nat → naRef) : Outcome naRef :=
  match flightplanGhost me with
  | none => .error "flightplan.getWP called on non-flightplan object"
  | some fp =>
    let index : Int :=
      if argc = 0 then fp.currentIndex
      else static_cast_int (naNumValue naStr_tonum (args 0)).num
    if (index < 0) ∨ (index ≥ fp.numLegs) then .ok naNil
    else .ok (ghostForLeg (fp.legAtIndex index))

/-- Lines 2988-3016.  `leg->owner() == fp` compares the identity of the plans. -/
def f_flightplan_indexOfWp (R : FlightPlanRouteMethods) (naStr_tonum : String → Option Dbl)
    (isGeoCoordClass : naRef → Bool) (me : naRef) (argc : Nat) (args : Nat → naRef) :
    Outcome naRef :=
  match flightplanGhost me with
  | none => .error "flightplan.indexOfWP called on non-flightplan object"
  | some fp =>
    match positionedGhost (args 0) with
    | some positioned => .ok (naNum (Dbl.ofInt (R.findWayptIndex_entity fp positioned)))
    | none =>
      let rest : Outcome naRef :=
        let pos := SGGeod.zero
        let r := geodFromArgs naStr_tonum isGeoCoordClass args 0 argc pos
        let argOffset := r.1
        if argOffset > 0 then .ok (naNum (Dbl.ofInt (R.findWayptIndex_position fp r.2)))
        else .ok (naNum (Dbl.ofInt (-1)))
      match fpLegGhost (args 0) with
      | some leg =>
        if leg.owner = fp.guid then .ok (naNum (Dbl.ofInt leg.index))
        else .error "flightplan.indexOfWP called on leg from different flightplan"
      | none => rest

/-! ## Member reads on procedures (lines 988-1048) -/

/-- Lines 988-1001. -/
def procedureTpType (ty : ProcedureType) : naRef :=
  match ty with
  | PROCEDURE_SID => stringToNasal "sid"
  | PROCEDURE_STAR => stringToNasal "star"
  | PROCEDURE_APPROACH_VOR
  | PROCEDURE_APPROACH_ILS
  | PROCEDURE_APPROACH_RNAV
  | PROCEDURE_APPROACH_NDB => stringToNasal "IAP"
  | _ => naNil

/-- Lines 1003-1013. -/
def procedureRadioType (ty : ProcedureType) : naRef :=
  match ty with
  | PROCEDURE_APPROACH_VOR => stringToNasal "VOR"
  | PROCEDURE_APPROACH_ILS => stringToNasal "ILS"
  | PROCEDURE_APPROACH_RNAV => stringToNasal "RNAV"
  | PROCEDURE_APPROACH_NDB => stringToNasal "NDB"
  | _ => naNil

/-- What the member reads ask of a procedure beyond the stored fields: `proc->airport()`,
`proc->runways()` and `ArrivalDeparture::transitionIdents()`. -/
structure ProcedureQueries where
  airport : Procedure → Option FGAirport
  runways : Procedure → List FGRunway
  transitionIdents : Procedure → List String

/-- Lines 1015-1048.  `procedurePrototype` is the global of that name; `some out` stands for
the return value "" with `out` written, `none` for the null pointer (member not found). -/
def procedureGhostGetMember (PQ : ProcedureQueries) (procedurePrototype : naRef)
    (g : Procedure) (fieldName : String) : Option naRef :=
  let proc := g
  if fieldName = "parents" then some (.vector [procedurePrototype])
  else if fieldName = "id" then some (stringToNasal proc.ident)
  else if fieldName = "airport" then some (ghostForAirport (PQ.airport proc))
  else if fieldName = "tp_type" then some (procedureTpType proc.type)
  else if fieldName = "radio" then some (procedureRadioType proc.type)
  else if fieldName = "runways" then
    some (.vector ((PQ.runways proc).map (fun rwy => stringToNasal rwy.ident)))
  else if fieldName = "transitions" then
    if (proc.type ≠ PROCEDURE_SID) ∧ (proc.type ≠ PROCEDURE_STAR) then some naNil
    else some (.vector ((PQ.transitionIdents proc).map stringToNasal))
  else none

/-! ## Course and distance (lines 2208-2229) -/

/-- The geodesy the binding calls: `SGGeodesy::inverse(from, to, course, course2, d)`, as the
three values it writes, and the product `d * SG_METER_TO_NM`. -/
structure GeodesyMethods where
  inverse : SGGeod → SGGeod → Dbl × Dbl × Dbl
  metersToNm : Dbl → Dbl

/-- Lines 2208-2229.  `aircraft` is `globals->get_aircraft_position()`. -/
def f_courseAndDistance (G : GeodesyMethods) (naStr_tonum : String → Option Dbl)
    (isGeoCoordClass : naRef → Bool) (aircraft : SGGeod) (argc : Nat) (args : Nat → naRef) :
    Outcome naRef :=
  let r1 := geodFromArgs naStr_tonum isGeoCoordClass args 0 argc SGGeod.zero
  let argOffset := r1.1
  let p := r1.2
  let r2 := geodFromArgs naStr_tonum isGeoCoordClass args argOffset argc SGGeod.zero
  let ends : SGGeod × SGGeod :=
    if r2.1 ≠ 0 then (p, r2.2) -- we parsed both FROM and TO args, so first was from
    else (aircraft, p) -- only parsed one arg, so FROM is current
  if argOffset = 0 then .error "invalid arguments to courseAndDistance"
  else
    let r := G.inverse ends.1 ends.2
    .ok (.vector [naNum r.1, naNum (G.metersToNm r.2.2)])

/-! ## Approaches of an airport (lines 1735-1808) -/

/-- The function `toupper` of the C locale. -/
def toupper (c : Char) : Char :=
  if 'a' ≤ c ∧ c ≤ 'z' then Char.ofNat (c.toNat - 32) else c

/-- The call `simgear::strutils::uppercase(s)`: `toupper` on every character. -/
def uppercase (s : String) : String := String.mk (s.data.map toupper)

/-- The order of `std::string`: lexicographic on the characters. -/
def lexLess : List Char → List Char → Bool
  | [], [] => false
  | [], _ :: _ => true
  | _ :: _, [] => false
  | x :: xs, y :: ys =>
    if x.toNat < y.toNat then true
    else if y.toNat < x.toNat then false
    else lexLess xs ys

/-- The call `set.insert(x)` on a `std::set<std::string>`, given by its elements in
order. -/
def setInsert (x : String) : List String → List String
  | [] => [x]
  | y :: ys =>
    if lexLess x.data y.data then x :: y :: ys
    else if lexLess y.data x.data then y :: setInsert x ys
    else y :: ys

/-- What `f_airport_approaches` asks of the airport and its runways:
`apt->hasRunwayWithIdent`, `apt->getRunwayByIdent`, the approaches
`apt->getApproachByIndex(0 .. numApproaches() - 1)` and `rwy->getApproaches()`. -/
structure AirportQueries where
  hasRunwayWithIdent : FGAirport → String → Bool
  getRunwayByIdent : FGAirport → String → Option FGRunway
  approaches : FGAirport → List Procedure
  runwayApproaches : FGRunway → List Procedure

/-- Lines 1744-1751: the approach type that the second argument names. -/
def approachTypeArg (argc : Nat) (args : Nat → naRef) : ProcedureType :=
  match (if argc > 1 then naStr_data (args 1) else none) with
  | some data =>
    let u := uppercase data
    let ty := PROCEDURE_INVALID
    let ty := if u = "NDB" then PROCEDURE_APPROACH_NDB else ty
    let ty := if u = "VOR" then PROCEDURE_APPROACH_VOR else ty
    let ty := if u = "ILS" then PROCEDURE_APPROACH_ILS else ty
    let ty := if u = "RNAV" then PROCEDURE_APPROACH_RNAV else ty
    ty
  | none => PROCEDURE_INVALID

/-- Lines 1735-1808.  `star->runways()` is `PQ.runways`. -/
def f_airport_approaches (AQ : AirportQueries) (PQ : ProcedureQueries) (me : naRef)
    (argc : Nat) (args : Nat → naRef) : Outcome naRef :=
  match airportGhost me with
  | none => .error "airport.getApproachList called on non-airport object"
  | some apt =>
    let ty := approachTypeArg argc args
    -- the selector: `none` stands for the early `return naNil()`
    let sel : Option (Option FGRunway × Option Procedure) :=
      if argc > 0 ∧ (runwayGhost (args 0)).isSome then some (runwayGhost (args 0), none)
      else if argc > 0 ∧ (procedureGhost (args 0)).isSome then
        match procedureGhost (args 0) with
        | some proc => if proc.type ≠ PROCEDURE_STAR then none else some (none, some proc)
        | none => some (none, none)
      else
        match (if argc > 0 then naStr_data (args 0) else none) with
        | some ident =>
          if !AQ.hasRunwayWithIdent apt ident then none
          else some (AQ.getRunwayByIdent apt ident, none)
        | none => some (none, none)
    match sel with
    | none => .ok naNil
    | some (some rwy, _) =>
      .ok (.vector (((AQ.runwayApproaches rwy).filter
        (fun s => !(decide (ty ≠ PROCEDURE_INVALID) && decide (s.type ≠ ty)))).map
        (fun s => stringToNasal s.ident)))
    | some (none, some star) =>
      let appIds : List String :=
        (PQ.runways star).foldl (fun ids rwy =>
          (AQ.runwayApproaches rwy).foldl (fun ids app => setInsert app.ident ids) ids) []
      .ok (.vector (appIds.map stringToNasal))
    | some (none, none) =>
      -- no runway specified, report them all
      .ok (.vector (((AQ.approaches apt).filter
        (fun app => !(decide (ty ≠ PROCEDURE_INVALID) && decide (app.type ≠ ty)))).map
        (fun app => stringToNasal app.ident)))

/-! ## Searches around a position (lines 1526-1552, 1983-2162) -/

/-- The navigation database as the search functions use it.  `aircraftPosition` is
`globals->get_aircraft_position()`.  A filter is given by what it was made of: the airport
filter by the string passed to `fromTypeString`, if any, a `TypeFilter` by its type.
`findByIdentAndFreq` is called with the frequency 0.0 throughout. -/
structure NavDatabase where
  aircraftPosition : SGGeod
  findWithinRange_airports : SGGeod → Dbl → Option String → List FGPositioned
  findWithinRange : SGGeod → Dbl → PositionedType → List FGPositioned
  sortByRange : List FGPositioned → SGGeod → List FGPositioned
  castAirport : FGPositioned → Option FGAirport
  typeFromName : String → PositionedType
  findAllByFreq : Dbl → SGGeod → PositionedType → List FGNavRecord
  findByIdentAndFreq : SGGeod → String → PositionedType → List FGNavRecord
  findAllWithIdent : String → PositionedType → List FGPositioned

/-- The optional type argument of the navaid searches:
`if (argOffset < argc) type = FGPositioned::typeFromName(naStr_data(args[argOffset]))`, with
`FGPositioned::INVALID` as the initial value. -/
def optionalTypeArg (D : NavDatabase) (argc : Nat) (args : Nat → naRef) (argOffset : Nat) :
    Outcome PositionedType :=
  if argOffset < argc then
    match naStr_data (args argOffset) with
    | none => .fault "std::string built from a null pointer"
    | some name => .ok (D.typeFromName name)
  else .ok .INVALID

/-- Lines 1526-1552. -/
def f_findAirportsWithinRange (D : NavDatabase) (naStr_tonum : String → Option Dbl)
    (isGeoCoordClass : naRef → Bool) (argc : Nat) (args : Nat → naRef) : Outcome naRef :=
  let r := geodFromArgs naStr_tonum isGeoCoordClass args 0 argc D.aircraftPosition
  let argOffset := 0 + r.1
  let pos := r.2
  if !naIsNum (args argOffset) then
    .error "findAirportsWithinRange expected range (in nm) as arg %d"
  else
    let rangeNm := (args argOffset).num
    let argOffset := argOffset + 1
    let filter : Outcome (Option String) :=
      if argOffset < argc then
        match naStr_data (args argOffset) with
        | none => .fault "std::string built from a null pointer"
        | some name => .ok (some name)
      else .ok none
    match filter with
    | .error msg => .error msg
    | .fault what => .fault what
    | .ok f =>
      let apts := D.sortByRange (D.findWithinRange_airports pos rangeNm f) pos
      .ok (.vector (apts.map (fun a => ghostForAirport (D.castAirport a))))

/-- Lines 1983-2010. -/
def f_findNavaidsWithinRange (D : NavDatabase) (naStr_tonum : String → Option Dbl)
    (isGeoCoordClass : naRef → Bool) (argc : Nat) (args : Nat → naRef) : Outcome naRef :=
  let r := geodFromArgs naStr_tonum isGeoCoordClass args 0 argc D.aircraftPosition
  let argOffset := 0 + r.1
  let pos := r.2
  if !naIsNum (args argOffset) then
    .error "findNavaidsWithinRange expected range (in nm) as arg %d"
  else
    let rangeNm := (args argOffset).num
    let argOffset := argOffset + 1
    match optionalTypeArg D argc args argOffset with
    | .error msg => .error msg
    | .fault what => .fault what
    | .ok type =>
      let navs := D.sortByRange (D.findWithinRange pos rangeNm type) pos
      .ok (.vector (navs.map (fun a => ghostForNavaid (some a))))

/-- Lines 2012-2030. -/
def f_findNDBByFrequency (D : NavDatabase) (naStr_tonum : String → Option Dbl)
    (isGeoCoordClass : naRef → Bool) (argc : Nat) (args : Nat → naRef) : Outcome naRef :=
  let r := geodFromArgs naStr_tonum isGeoCoordClass args 0 argc D.aircraftPosition
  let argOffset := 0 + r.1
  let pos := r.2
  if !naIsNum (args argOffset) then
    .error "findNDBByFrquency expectes frequency (in kHz) as arg %d"
  else
    let dbFreq := (args argOffset).num
    let navs := D.findAllByFreq dbFreq pos .NDB
    match navs with
    | [] => .ok naNil
    | front :: _ => .ok (ghostForNavaid (some front))

/-- Lines 2032-2054. -/
def f_findNDBsByFrequency (D : NavDatabase) (naStr_tonum : String → Option Dbl)
    (isGeoCoordClass : naRef → Bool) (argc : Nat) (args : Nat → naRef) : Outcome naRef :=
  let r := geodFromArgs naStr_tonum isGeoCoordClass args 0 argc D.aircraftPosition
  let argOffset := 0 + r.1
  let pos := r.2
  if !naIsNum (args argOffset) then
    .error "findNDBsByFrquency expectes frequency (in kHz) as arg %d"
  else
    let dbFreq := (args argOffset).num
    let navs := D.findAllByFreq dbFreq pos .NDB
    if navs.isEmpty then .ok naNil
    else .ok (.vector (navs.map (fun a => ghostForNavaid (some a))))

/-- Lines 2056-2082. -/
def f_findNavaidByFrequency (D : NavDatabase) (naStr_tonum : String → Option Dbl)
    (isGeoCoordClass : naRef → Bool) (argc : Nat) (args : Nat → naRef) : Outcome naRef :=
  let r := geodFromArgs naStr_tonum isGeoCoordClass args 0 argc D.aircraftPosition
  let argOffset := 0 + r.1
  let pos := r.2
  if !naIsNum (args argOffset) then
    .error "findNavaidByFrequency expectes frequency (in Mhz) as arg %d"
  else
    let freqMhz := (args argOffset).num
    let argOffset := argOffset + 1
    match optionalTypeArg D argc args argOffset with
    | .error msg => .error msg
    | .fault what => .fault what
    | .ok type =>
      if argOffset < argc ∧ type = .NDB then .error "Use findNDBByFrquency to seach NDBs"
      else
        let navs := D.findAllByFreq freqMhz pos type
        match navs with
        | [] => .ok naNil
        | front :: _ => .ok (ghostForNavaid (some front))

/-- Lines 2084-2111. -/
def f_findNavaidsByFrequency (D : NavDatabase) (naStr_tonum : String → Option Dbl)
    (isGeoCoordClass : naRef → Bool) (argc : Nat) (args : Nat → naRef) : Outcome naRef :=
  let r := geodFromArgs naStr_tonum isGeoCoordClass args 0 argc D.aircraftPosition
  let argOffset := 0 + r.1
  let pos := r.2
  if !naIsNum (args argOffset) then
    .error "findNavaidsByFrequency expectes frequency (in Mhz) as arg %d"
  else
    let freqMhz := (args argOffset).num
    let argOffset := argOffset + 1
    match optionalTypeArg D argc args argOffset with
    | .error msg => .error msg
    | .fault what => .fault what
    | .ok type =>
      if argOffset < argc ∧ type = .NDB then .error "Use findNDBsByFrquency to seach NDBs"
      else
        let navs := D.findAllByFreq freqMhz pos type
        .ok (.vector (navs.map (fun a => ghostForNavaid (some a))))

/-- Lines 2113-2138. -/
def f_findNavaidsByIdent (D : NavDatabase) (naStr_tonum : String → Option Dbl)
    (isGeoCoordClass : naRef → Bool) (argc : Nat) (args : Nat → naRef) : Outcome naRef :=
  let r := geodFromArgs naStr_tonum isGeoCoordClass args 0 argc D.aircraftPosition
  let argOffset := 0 + r.1
  let pos := r.2
  match args argOffset with
  | .string ident =>
    let argOffset := argOffset + 1
    match optionalTypeArg D argc args argOffset with
    | .error msg => .error msg
    | .fault what => .fault what
    | .ok type =>
      let navs := D.findByIdentAndFreq pos ident type
      .ok (.vector (navs.map (fun a => ghostForNavaid (some a))))
  | _ => .error "findNavaidsByIdent expectes ident string as arg %d"

/-- Lines 2140-2162. -/
def f_findFixesByIdent (D : NavDatabase) (naStr_tonum : String → Option Dbl)
    (isGeoCoordClass : naRef → Bool) (argc : Nat) (args : Nat → naRef) : Outcome naRef :=
  let r := geodFromArgs naStr_tonum isGeoCoordClass args 0 argc D.aircraftPosition
  let argOffset := 0 + r.1
  let pos := r.2
  match args argOffset with
  | .string ident =>
    let fixes := D.sortByRange (D.findAllWithIdent ident .FIX) pos
    .ok (.vector (fixes.map (fun f => ghostForFix (some f))))
  | _ => .error "findFixesByIdent expectes ident string as arg %d"

/-! ## The methods as the specification describes them

One implementation of each method table, used where a statement needs a concrete one. -/

/-- The four role flags Departure, Arrival, Approach and Missed. -/
def WayptFlag.isRole (f : WayptFlag) : Bool :=
  match f with
  | WPT_DEPARTURE | WPT_ARRIVAL | WPT_APPROACH | WPT_MISS => true
  | _ => false

/-- Modelled from the spec: the `Waypt` and `Hold` setters (route.cxx and waypoint.cxx are not
part of this file).  `setFlag(flag, bool)` mutates the flag set: it sets or clears the named
flag and leaves every other flag as it was.  That setting one of Departure, Arrival,
Approach, Missed clears the others is a policy the specification leaves open; it is not
assumed here.  The Hold setters write the inbound radial and the handedness. -/
def specWayptMethods : WayptMethods where
  setFlag := fun w f v =>
    if v then { w with flags := f :: w.flags.filter (fun g => g ≠ f) }
    else { w with flags := w.flags.filter (fun g => g ≠ f) }
  setHoldRadial := fun w d => { w with inboundRadial := d }
  setLeftHanded := fun w => { w with isLeftHanded := true }
  setRightHanded := fun w => { w with isLeftHanded := false }

/-- Modelled from the spec: `Leg::convertWaypointToHold` (FlightPlan.cxx is not part of this
file).  The conversion keeps identifier and position, is supported for every variant but a
Discontinuity, and fails, leaving the leg as it was, if the waypoint has an owning
procedure. -/
def specConvertWaypointToHold (leg : Leg) : Bool × Leg :=
  if leg.waypoint.type = "hold" then (true, leg)
  else
    match leg.waypoint.owner with
    | some (.procedure _) => (false, leg)
    | _ =>
      if leg.waypoint.type = "discontinuity" then (false, leg)
      else
        (true, { leg with
          waypoint := { leg.waypoint with type := "hold",
                                          convertedFrom := some leg.waypoint.type },
          dirty := true })

/-- Modelled from the spec: the setters of `FlightPlan::Leg` (FlightPlan.cxx is not part of
this file).  `setHoldCount(0)` removes the hold behaviour of a Hold, which reverts to its
prior variant; `setHoldCount(n)` for another `n` converts to a Hold first and returns false
if that fails.  `setSpeed` and `setAltitude` clear the restriction for the kind None and
otherwise take a finite value and reject any other.  A mutation sets the dirty mark. -/
def specLegMethods : LegMethods where
  setHoldCount := fun leg n =>
    if n = 0 then
      if leg.waypoint.type = "hold" then
        (true, { leg with
          waypoint := { leg.waypoint with type := leg.waypoint.convertedFrom.getD "basic",
                                          convertedFrom := none },
          holdCount := 0, dirty := true })
      else (true, { leg with holdCount := 0 })
    else
      let r := specConvertWaypointToHold leg
      if r.1 then (true, { r.2 with holdCount := n, dirty := true }) else (false, r.2)
  convertWaypointToHold := specConvertWaypointToHold
  markWaypointDirty := fun leg => { leg with dirty := true }
  setSpeed := fun leg rr v =>
    if rr = RESTRICT_NONE then { leg with speedRestriction := RESTRICT_NONE, dirty := true }
    else if v.isFinite then { leg with speedRestriction := rr, speed := v, dirty := true }
    else leg
  setAltitude := fun leg rr v =>
    if rr = RESTRICT_NONE then { leg with altitudeRestriction := RESTRICT_NONE, dirty := true }
    else if v.isFinite then
      { leg with altitudeRestriction := rr, altitudeFt := v, dirty := true }
    else leg

/-- Modelled from the spec: the setters of `FlightPlan` (FlightPlan.cxx is not part of this
file).  Each one stores its argument; `setCurrentIndex` stores the index it is given (the
spec requires of the caller that it is -1 or a valid index); setting a runway sets its
airport's runway slot, and setting a transition stores it as the transition. -/
def specFlightPlanMethods : FlightPlanMethods where
  setIdent := fun fp s => { fp with ident := s }
  setCurrentIndex := fun fp i => { fp with currentIndex := i }
  setDeparture_airport := fun fp a => { fp with departureAirport := some a }
  setDeparture_runway := fun fp r => { fp with departureRunway := some r }
  clearDeparture := fun fp => { fp with departureAirport := none, departureRunway := none }
  setDestination_airport := fun fp a => { fp with destinationAirport := some a }
  setDestination_runway := fun fp r => { fp with destinationRunway := r }
  clearDestination := fun fp =>
    { fp with destinationAirport := none, destinationRunway := none }
  setSID := fun fp p => { fp with sid := p }
  setSID_transition := fun fp t => { fp with sidTransition := some t }
  clearSID := fun fp => { fp with sid := none, sidTransition := none }
  setSTAR := fun fp p => { fp with star := p }
  setSTAR_transition := fun fp t => { fp with starTransition := some t }
  clearSTAR := fun fp => { fp with star := none, starTransition := none }
  setApproach := fun fp p => { fp with approach := p }
  setIcaoAircraftCategory := fun fp s => { fp with icaoAircraftCategory := s }
  setFollowLegTrackToFixes := fun fp b => { fp with followLegTrackToFixes := b }
  setCruiseAltitudeFt := fun fp v => { fp with cruiseAltitudeFt := v }
  setCruiseFlightLevel := fun fp v => { fp with cruiseFlightLevel := v }
  setCruiseSpeedKnots := fun fp v => { fp with cruiseSpeedKnots := v }
  setCruiseSpeedMach := fun fp v => { fp with cruiseSpeedMach := v }
  setCallsign := fun fp s => { fp with callsign := s }
  setRemarks := fun fp s => { fp with remarks := s }
  setEstimatedDurationMinutes := fun fp v => { fp with estimatedDurationMinutes := v }

/-- An airport directory without procedures. -/
def emptyAirportMethods : AirportMethods where
  selectSIDByTransition := fun _ _ => none
  findSIDWithIdent := fun _ _ => none
  selectSTARByTransition := fun _ _ => none
  findSTARWithIdent := fun _ _ => none
  findApproachWithIdent := fun _ _ => none

/-- The invariant of a flight plan's cursor: `-1 ≤ currentIndex < numLegs`. -/
def FlightPlan.currentIndexValid (fp : FlightPlan) : Prop :=
  -1 ≤ fp.currentIndex ∧ fp.currentIndex < fp.numLegs

/-- A leg whose setters store what they are given, without any check of their own: with
it the leg afterwards shows which setter a binding function invoked, and with what. -/
def recordingLegMethods : LegMethods where
  setHoldCount := fun leg n => (true, { leg with holdCount := n })
  convertWaypointToHold := fun leg =>
    (true, { leg with waypoint := { leg.waypoint with type := "hold" } })
  markWaypointDirty := fun leg => { leg with dirty := true }
  setSpeed := fun leg rr v => { leg with speedRestriction := rr, speed := v }
  setAltitude := fun leg rr v => { leg with altitudeRestriction := rr, altitudeFt := v }

/-- The argument array of a call with the arguments `l`; the stack slots after them hold
nil. -/
def argsOf (l : List naRef) : Nat → naRef := fun i => l.getD i naNil

/-- A number parser for the examples: it knows the string "250". -/
def sampleTonum (s : String) : Option Dbl :=
  if s = "250" then some (Dbl.ofInt 250) else none

/-- A flight plan with two legs, the cursor on the first. -/
def planOfTwo : FlightPlan :=
  { guid := 1, legs := [{ owner := 1, index := 0 }, { owner := 1, index := 1 }],
    currentIndex := 0 }

/-- A leg whose waypoint was generated by a procedure. -/
def procedureLeg : Leg :=
  { waypoint := { type := "navaid", ident := "TULIP",
                  owner := some (.procedure { guid := 7, type := PROCEDURE_STAR }) } }

/-- A leg with a plain waypoint, without owner. -/
def plainLeg : Leg := { waypoint := { type := "navaid", ident := "SPY" } }

/-- An interpreter that keeps the list of the calls made: its state is the calls so far,
each with the function, the object and the arguments, and `naMember_cget` reads the members
of a hash. -/
def recordingNasalSys : NasalSys (List (naRef × naRef × List naRef)) where
  naMember_cget := fun obj name =>
    match obj with
    | .hash members => members.lookup name
    | _ => none
  callMethod := fun st f obj args _ => st ++ [(f, obj, args)]

/-- A delegate whose script object has the single handler `cleared`. -/
def clearedOnlyDelegate : NasalFPDelegate :=
  { _plan := planOfTwo, _instance := .hash [("cleared", .func 1)] }

/-- A file system with the two files "good.fgfp", which loads as a plan of two legs, and
"bad.fgfp", which does not load. -/
def sampleFiles : FileMethods where
  exists_ := fun path => path = "good.fgfp" || path = "bad.fgfp"
  load := fun fp path => if path = "good.fgfp" then (true, planOfTwo) else (false, fp)

/-- Two navaids and a fix of the examples. -/
def navSPY : FGPositioned := { guid := 11, type := .VOR, ident := "SPY" }
def navPAM : FGPositioned := { guid := 12, type := .VOR, ident := "PAM" }
def fixTULIP : FGPositioned := { guid := 13, type := .FIX, ident := "TULIP" }

/-- Two networks for the examples: the high-level search finds the path over TULIP, the
low-level search finds no path and leaves the vector empty. -/
def sampleNetworks : AirwayNetworks where
  highLevel_route := fun from_ aTo path =>
    (true, path ++ [from_, some (NavaidWaypoint.new fixTULIP none), aTo])
  lowLevel_route := fun _ _ path => (false, path)

/-- Route computations for the examples: the approach has no route from the given fix, the
arrival or departure has the route over TULIP to the runway's airport fix. -/
def sampleProcedures : ProcedureMethods where
  Approach_route := fun _ _ path => (false, path)
  ArrivalDeparture_route := fun _ _ _ path =>
    (true, path ++ [some (NavaidWaypoint.new fixTULIP none),
                    some (NavaidWaypoint.new navSPY none)])

/-- The airway of the examples, UL620, with the nodes SPY and TULIP. -/
def airwayUL620 : Airway := { guid := 21, ident := "UL620" }

/-- An airway directory for the examples: it has the airway UL620 alone, whose nodes are SPY
and TULIP, and TULIP is the one enroute waypoint found by name. -/
def sampleAirways : AirwayMethods where
  findByIdent := fun name _ => if name = "UL620" then some airwayUL620 else none
  findByIdentAndNavaid := fun name nav =>
    if name = "UL620" ∧ (nav = navSPY ∨ nav = fixTULIP) then some airwayUL620 else none
  findEnroute := fun _ name =>
    if name = "TULIP" then some (NavaidWaypoint.new fixTULIP none) else none
  containsNavaid := fun _ nav => nav = some navSPY || nav = some fixTULIP

/-- A transition, a SID and an ILS approach of the examples. -/
def transRIVER : Procedure := { guid := 31, type := PROCEDURE_TRANSITION, ident := "RIVER" }
def sidBERGI : Procedure := { guid := 32, type := PROCEDURE_SID, ident := "BERGI1S" }
def approachILS06 : Procedure := { guid := 33, type := PROCEDURE_APPROACH_ILS, ident := "ILS06" }

/-- An airport and one of its runways, for the examples. -/
def aptEHAM : FGAirport := { guid := 41, type := .AIRPORT, ident := "EHAM" }
def rwy06 : FGRunway := { guid := 42, type := .RUNWAY, ident := "06" }

/-- Renumbering of a leg sequence: every leg gets its position as index. -/
def renumberLegs (legs : List Leg) : List Leg :=
  legs.enum.map (fun p => { p.2 with index := (p.1 : Int) })

/-- The position at which the specification's insertion puts new legs: the given index, and
the end of the sequence for -1.  For the other indices outside `0..numLegs`, of which the
spec says nothing, the model takes the end as well. -/
def insertPosition (fp : FlightPlan) (index : Int) : Nat :=
  if index < 0 ∨ index > fp.numLegs then fp.legs.length else index.toNat

/-- Modelled from the spec: `FlightPlan::insertWayptsAtIndex` (FlightPlan.cxx is not part of
this file): each waypoint is wrapped in a new leg of this plan, the legs are inserted at the
index (-1 means append) and all legs are renumbered. -/
def specInsertWayptsAtIndex (fp : FlightPlan) (wps : WayptVec) (index : Int) : FlightPlan :=
  let pos := insertPosition fp index
  let added : List Leg :=
    (wps.filterMap id).map (fun w => { owner := fp.guid, waypoint := w })
  { fp with legs := renumberLegs (fp.legs.take pos ++ added ++ fp.legs.drop pos) }

/-- Modelled from the spec: `FlightPlan::insertWayptAtIndex`: the insertion of one waypoint,
which returns the new leg; for a null waypoint nothing is inserted and no leg returned. -/
def specInsertWayptAtIndex (fp : FlightPlan) (wpt : WayptRef) (index : Int) :
    Option Leg × FlightPlan :=
  match wpt with
  | none => (none, fp)
  | some w =>
    let after := specInsertWayptsAtIndex fp [some w] index
    (after.legs[insertPosition fp index]?, after)

/-- Modelled from the spec: `FlightPlan::deleteIndex`: it fails silently if the index is out
of range, and otherwise removes the leg, renumbers, and adjusts `currentIndex` if it pointed
at or after the removed index. -/
def specDeleteIndex (fp : FlightPlan) (index : Int) : FlightPlan :=
  if index < 0 ∨ index ≥ fp.numLegs then fp
  else
    { fp with
      legs := renumberLegs (fp.legs.eraseIdx index.toNat),
      currentIndex := if fp.currentIndex ≥ index then fp.currentIndex - 1
                      else fp.currentIndex }

/-- The first position of a leg sequence at which `p` holds, or -1. -/
def firstIndexWhere (p : Leg → Bool) (legs : List Leg) : Int :=
  match legs.findIdx? p with
  | some i => (i : Int)
  | none => -1

/-- Modelled from the spec: the methods of `FlightPlan` on its leg sequence (FlightPlan.cxx
is not part of this file).  `findWayptIndex` is a linear scan that returns the first
matching index or -1; a directory entity matches by identity, a position by equality with
the waypoint's position. -/
def specRouteMethods : FlightPlanRouteMethods where
  insertWayptAtIndex := specInsertWayptAtIndex
  insertWayptsAtIndex := specInsertWayptsAtIndex
  deleteIndex := specDeleteIndex
  findWayptIndex_entity := fun fp pos =>
    firstIndexWhere (fun l => decide (l.waypoint.source = some pos)) fp.legs
  findWayptIndex_position := fun fp g =>
    firstIndexWhere (fun l => decide (l.waypoint.position = g)) fp.legs

/-- Two waypoints on the navaids SPY and PAM, and a third on the fix TULIP. -/
def wptSPY : Waypt := NavaidWaypoint.new navSPY none
def wptPAM : Waypt := NavaidWaypoint.new navPAM none
def wptTULIP : Waypt := NavaidWaypoint.new fixTULIP none

/-- The flight plan with the legs SPY, PAM. -/
def planSpyPam : FlightPlan :=
  { guid := 2, legs := [{ owner := 2, index := 0, waypoint := wptSPY },
                        { owner := 2, index := 1, waypoint := wptPAM }] }

/-- The invariant of a leg sequence: the index of a leg is its position. -/
def FlightPlan.legsIndexed (fp : FlightPlan) : Prop :=
  ∀ (k : Nat) (leg : Leg), fp.legs[k]? = some leg → leg.index = (k : Int)

/-- Waypoint queries for the examples: positions made from degrees give their degrees back,
and the type tests read the type of the entity. -/
def sampleWayptQueries : WayptQueries where
  headingRadialDeg := fun w => w.inboundRadial
  getLatitudeDeg := fun g =>
    match g with
    | .fromDeg _ lat => lat
    | _ => Dbl.ofInt 0
  getLongitudeDeg := fun g =>
    match g with
    | .fromDeg lon _ => lon
    | _ => Dbl.ofInt 0
  ownerIdent := fun o =>
    match o with
    | .procedure p => p.ident
    | .airway a => a.ident
    | .flightplan _ => ""
  isNavaidType := fun p => decide (p.type ∈ [.VOR, .NDB, .ILS, .LOC, .DME, .TACAN])
  isFix := fun p => decide (p.type = .FIX)
  isRunwayType := fun p => p.any (fun q => decide (q.type = .RUNWAY))
  isAirportType := fun p => p.any (fun q => decide (q.type = .AIRPORT))
  runwayAirport := fun _ => none

/-- Leg queries for the examples: every leg has the Mach value 3/4 (3 · 2^-2) and the value
250 in knots. -/
def sampleLegQueries : LegQueries where
  speedMach := fun _ => .finite 3 (-2)
  speedKts := fun _ => Dbl.ofInt 250
  distanceNm := fun _ => Dbl.ofInt 0
  courseDeg := fun _ => Dbl.ofInt 0
  distanceAlongRoute := fun _ => Dbl.ofInt 0

/-- The flag word that holds the one flag `wayptFlagFromString` returned, and no flag for
the value 0. -/
def flagWord (f : Option WayptFlag) : List WayptFlag :=
  match f with
  | none => []
  | some x => [x]

/-- The five role names that `wayptFlagFromString` recognises. -/
def roleNames : List String := ["sid", "star", "approach", "missed", "pseudo"]

/-- A leg whose waypoint is a Hold on the navaid SPY, with the inbound radial 90. -/
def holdLeg : Leg :=
  { waypoint := { type := "hold", ident := "SPY", convertedFrom := some "navaid",
                  inboundRadial := Dbl.ofInt 90 } }

/-- Procedure queries for the examples: no airport, runways or transitions. -/
def sampleProcedureQueries : ProcedureQueries where
  airport := fun _ => none
  runways := fun _ => []
  transitionIdents := fun _ => []

/-- The ghosts that `geodFromArgs` takes a position from: airport, navaid, runway, taxiway,
fix, waypoint and leg. -/
def isPositionGhost (r : naRef) : Bool :=
  match r with
  | .ghost (.airport _) | .ghost (.navaid _) | .ghost (.runway _) | .ghost (.taxiway _)
  | .ghost (.fix _) | .ghost (.waypoint _) | .ghost (.leg _) => true
  | _ => false

/-- A probe in place of the geodesy: it reports, as course and as distance, the latitude and
the longitude of the TO position it is given. -/
def probeGeodesy : GeodesyMethods where
  inverse := fun _ aTo =>
    match aTo with
    | .fromDeg lon lat => (lat, Dbl.ofInt 0, lon)
    | .fromRad lon lat => (lat, Dbl.ofInt 0, lon)
    | .fromRadFt lon lat _ => (lat, Dbl.ofInt 0, lon)
  metersToNm := fun d => d

/-- A VOR approach and a STAR of the examples. -/
def approachVOR06 : Procedure := { guid := 34, type := PROCEDURE_APPROACH_VOR, ident := "VOR06" }
def starEEL : Procedure := { guid := 35, type := PROCEDURE_STAR, ident := "EEL1A" }

/-- The airport of the examples: the runway 06 has the approaches VOR06 and ILS06, which are
the approaches of the airport. -/
def sampleAirportQueries : AirportQueries where
  hasRunwayWithIdent := fun _ ident => ident = "06"
  getRunwayByIdent := fun _ ident => if ident = "06" then some rwy06 else none
  approaches := fun _ => [approachVOR06, approachILS06]
  runwayApproaches := fun rwy => if rwy = rwy06 then [approachVOR06, approachILS06] else []

/-- The procedures of the examples: the STAR EEL1A serves the runway 06. -/
def starProcedureQueries : ProcedureQueries where
  airport := fun _ => some aptEHAM
  runways := fun p => if p = starEEL then [rwy06] else []
  transitionIdents := fun _ => []

/-- The argument array of a call with the arguments `l`, on a stack whose slots after them
hold `stale`. -/
def argsOnStack (l : List naRef) (stale : naRef) : Nat → naRef := fun i => l.getD i stale

/-- A navigation database for the examples: every search finds nothing. -/
def emptyNavDatabase : NavDatabase where
  aircraftPosition := SGGeod.zero
  findWithinRange_airports := fun _ _ _ => []
  findWithinRange := fun _ _ _ => []
  sortByRange := fun l _ => l
  castAirport := fun p => some p
  typeFromName := fun _ => .INVALID
  findAllByFreq := fun _ _ _ => []
  findByIdentAndFreq := fun _ _ _ => []
  findAllWithIdent := fun _ _ => []

/-- A waypoint at 52 degrees north, 4 degrees east, and the flight plan with the legs SPY and
this waypoint. -/
def wptN52E4 : Waypt :=
  { ident := "N52E004", position := SGGeod.fromDeg (Dbl.ofInt 4) (Dbl.ofInt 52) }
def planSpyN52E4 : FlightPlan :=
  { guid := 3, legs := [{ owner := 3, index := 0, waypoint := wptSPY },
                        { owner := 3, index := 1, waypoint := wptN52E4 }] }

/-- A mutation of the leg sequence of a flight plan: a call of `insertWayptsAtIndex`, of
`insertWayptAtIndex` or of `deleteIndex`. -/
inductive RouteEdit where
  | insertWaypts (wps : WayptVec) (index : Int)
  | insertWaypt (wpt : WayptRef) (index : Int)
  | deleteIndex (index : Int)
deriving DecidableEq, Repr

/-- The plan after one mutation, made with the methods of `R`. -/
def RouteEdit.apply (R : FlightPlanRouteMethods) (fp : FlightPlan) (e : RouteEdit) :
    FlightPlan :=
  match e with
  | .insertWaypts wps index => R.insertWayptsAtIndex fp wps index
  | .insertWaypt wpt index => (R.insertWayptAtIndex fp wpt index).2
  | .deleteIndex index => R.deleteIndex fp index

/-- The plan after a sequence of mutations, made first to last. -/
def applyEdits (R : FlightPlanRouteMethods) (fp : FlightPlan) (edits : List RouteEdit) :
    FlightPlan :=
  edits.foldl (RouteEdit.apply R) fp

/-! ## Theorems -/

/-- Every `int` is the index that some script number converts to. -/
theorem static_cast_int_naNum (j : Int) (h1 : INT_MIN ≤ j) (h2 : j ≤ INT_MAX) :
    static_cast_int (naNum (Dbl.ofInt j)).num = j := by
  simp [static_cast_int, naNum, naRef.num, Dbl.ofInt, Dbl.truncate, h1, h2]

/-- C1. Assigning the member `current` of a flight plan with N legs: with `i` the integer
the value converts to, the assignment raises a script error and calls no method of the plan
exactly when `i < -1` or `i ≥ N`; otherwise it calls `setCurrentIndex(i)` and nothing else.
Hence, for every `setCurrentIndex` that keeps `-1 ≤ currentIndex < numLegs` when it is given
-1 or a valid index, every such assignment keeps that invariant. -/
theorem current_assignment_guarded (M : FlightPlanMethods) (A : AirportMethods)
    (fp : FlightPlan) (value : naRef) :
    let i := static_cast_int value.num
    let r := flightplanGhostSetMember M A fp "current" value
    ((i < -1 ∨ i ≥ fp.numLegs) →
        r = (.error "flightplan.current must be a valid index or -1", fp)) ∧
    (¬ (i < -1 ∨ i ≥ fp.numLegs) → r = (.ok (), M.setCurrentIndex fp i)) ∧
    (r.1.isError = true ↔ (i < -1 ∨ i ≥ fp.numLegs)) ∧
    ((∀ (p : FlightPlan) (j : Int), -1 ≤ j → j < p.numLegs →
        (M.setCurrentIndex p j).currentIndexValid) →
      fp.currentIndexValid → r.2.currentIndexValid) := by
  intro i r
  have hr : r = if (i < -1) ∨ (i ≥ fp.numLegs) then
      (.error "flightplan.current must be a valid index or -1", fp)
      else (.ok (), M.setCurrentIndex fp i) := by
    simp [r, i, flightplanGhostSetMember]
  by_cases h : (i < -1) ∨ (i ≥ fp.numLegs)
  · rw [if_pos h] at hr
    refine ⟨fun _ => hr, fun h' => absurd h h', ?_, ?_⟩
    · rw [hr]; simp [Outcome.isError, h]
    · intro _ hinv; rw [hr]; exact hinv
  · rw [if_neg h] at hr
    refine ⟨fun h' => absurd h' h, fun _ => hr, ?_, ?_⟩
    · rw [hr]; simp [Outcome.isError, h]
    · intro hset _
      rw [hr]
      have h1 : -1 ≤ i := by
        by_contra hc; exact h (Or.inl (by omega))
      have h2 : i < fp.numLegs := by
        by_contra hc; exact h (Or.inr (by omega))
      exact hset fp i h1 h2

/-- Witness of C1: on a plan with two legs, with setters that store what they are given,
assigning `current = 1` keeps the cursor invariant. -/
theorem current_assignment_guarded_witness :
    (flightplanGhostSetMember specFlightPlanMethods emptyAirportMethods planOfTwo "current"
      (naNum (Dbl.ofInt 1))).2.currentIndexValid :=
  (current_assignment_guarded specFlightPlanMethods emptyAirportMethods planOfTwo
      (naNum (Dbl.ofInt 1))).2.2.2
    (fun _ _ h1 h2 => ⟨h1, h2⟩)
    (by simp [FlightPlan.currentIndexValid, FlightPlan.numLegs, planOfTwo])

/-- A value that converts to a number is not nil. -/
theorem naIsNil_of_convertToNum {tonum : String → Option Dbl} {v : naRef} {d : Dbl}
    (h : convertToNum tonum v = some d) : naIsNil v = false := by
  cases v <;> simp_all [convertToNum, naNumValue, naIsNil, naNil]

/-- C2, counterexample. An infinite number is not nil and not a finite number, and yet
`leg.setSpeed(inf, "at")` and `leg.setAltitude(inf, "at")` are not rejected: the leg's
setter is invoked with the kind At and the infinite value. -/
theorem set_restriction_passes_infinite_value :
    naIsNil (naNum (.inf false)) = false ∧ (Dbl.inf false).isFinite = false ∧
    f_leg_setSpeed recordingLegMethods sampleTonum (.ghost (.leg {})) 2
        (argsOf [naNum (.inf false), .string "at"])
      = (.ok naNil, some { speedRestriction := RESTRICT_AT, speed := .inf false }) ∧
    f_leg_setAltitude recordingLegMethods sampleTonum (.ghost (.leg {})) 2
        (argsOf [naNum (.inf false), .string "at"])
      = (.ok naNil, some { altitudeRestriction := RESTRICT_AT, altitudeFt := .inf false }) := by
  refine ⟨rfl, rfl, ?_, ?_⟩ <;>
    simp [f_leg_setSpeed, f_leg_setAltitude, fpLegGhost, argsOf, naIsNil, naNum, convertToNum,
      naNumValue, naRef.num, naIsString, routeRestrictionFromArg, recordingLegMethods] <;>
    decide

/-- C2, amended. For `leg.setSpeed(value, kind)` and `leg.setAltitude(value, kind)`:
a nil value clears the restriction (the leg's setter is invoked once, with the kind None and
the value 0); a value that converts to a number `d`, finite or not, is passed to the leg's
setter with the kind read from the second argument if that argument is present (for
`setSpeed`: present and a string), and otherwise a script error is raised and the leg is
left as it was; a call without arguments raises a script error and leaves the leg as it
was. -/
theorem set_restriction_dispatch (L : LegMethods) (tonum : String → Option Dbl) (leg : Leg)
    (argc : Nat) (args : Nat → naRef) :
    let me : naRef := .ghost (.leg leg)
    let sp := f_leg_setSpeed L tonum me argc args
    let al := f_leg_setAltitude L tonum me argc args
    (argc > 0 → naIsNil (args 0) = true →
      sp = (.ok naNil, some (L.setSpeed leg RESTRICT_NONE (Dbl.ofInt 0))) ∧
      al = (.ok naNil, some (L.setAltitude leg RESTRICT_NONE (Dbl.ofInt 0)))) ∧
    (∀ d, argc > 0 → convertToNum tonum (args 0) = some d →
      ((argc > 1 ∧ naIsString (args 1) = true) →
        sp = (.ok naNil, some (L.setSpeed leg (routeRestrictionFromArg (args 1)) d))) ∧
      (¬ (argc > 1 ∧ naIsString (args 1) = true) →
        sp = (.error "bad arguments to setSpeed", some leg)) ∧
      (argc > 1 →
        al = (.ok naNil, some (L.setAltitude leg (routeRestrictionFromArg (args 1)) d))) ∧
      (¬ argc > 1 → al = (.error "bad arguments to leg.setAltitude", some leg))) ∧
    (argc = 0 →
      sp = (.error "bad arguments to setSpeed", some leg) ∧
      al = (.error "bad arguments to setleg.setAltitude", some leg)) := by
  intro me sp al
  refine ⟨?_, ?_, ?_⟩
  · intro hc hnil
    simp [sp, al, me, f_leg_setSpeed, f_leg_setAltitude, fpLegGhost, hc, hnil]
  · intro d hc hd
    have hnil : naIsNil (args 0) = false := naIsNil_of_convertToNum hd
    refine ⟨?_, ?_, ?_, ?_⟩
    · intro h
      simp [sp, me, f_leg_setSpeed, fpLegGhost, hc, hnil, hd, h.1, h.2]
    · intro h
      simp only [sp, me, f_leg_setSpeed, fpLegGhost, hc, hnil, hd]
      simp [h]
    · intro h
      simp [al, me, f_leg_setAltitude, fpLegGhost, hc, hnil, hd, h]
    · intro h
      simp only [al, me, f_leg_setAltitude, fpLegGhost, hc, hnil, hd]
      simp [h]
  · intro hc
    simp [sp, al, me, f_leg_setSpeed, f_leg_setAltitude, fpLegGhost, hc]

/-- Witness of C2, amended: `leg.setSpeed("250", "Mach")` on a leg whose setters store what
they are given: the string converts to 250 and the kind is read from the second argument. -/
theorem set_restriction_dispatch_witness :
    f_leg_setSpeed recordingLegMethods sampleTonum (.ghost (.leg {})) 2
        (argsOf [.string "250", .string "Mach"])
      = (.ok naNil, some { speedRestriction := SPEED_RESTRICT_MACH, speed := Dbl.ofInt 250 }) :=
  ((set_restriction_dispatch recordingLegMethods sampleTonum {} 2
      (argsOf [.string "250", .string "Mach"])).2.1 (Dbl.ofInt 250) (by decide) (by rfl)).1
    ⟨by decide, by rfl⟩

/-- The case the amended statement on the restriction setters leaves out: a first argument that is neither nil nor convertible to a number
(here a hash) is not rejected either; the leg's setter is invoked with the initial values of
the local variables, the kind At and the value 0. -/
theorem set_restriction_unconvertible_value :
    convertToNum sampleTonum (.hash []) = none ∧
    f_leg_setSpeed recordingLegMethods sampleTonum (.ghost (.leg {})) 2
        (argsOf [.hash [], .string "at"])
      = (.ok naNil, some { speedRestriction := RESTRICT_AT, speed := Dbl.ofInt 0 }) ∧
    f_leg_setAltitude recordingLegMethods sampleTonum (.ghost (.leg {})) 2
        (argsOf [.hash [], .string "at"])
      = (.ok naNil, some { altitudeRestriction := RESTRICT_AT, altitudeFt := Dbl.ofInt 0 }) := by
  refine ⟨rfl, ?_, ?_⟩ <;>
    simp [f_leg_setSpeed, f_leg_setAltitude, fpLegGhost, argsOf, naIsNil, convertToNum,
      naNumValue, naNil, recordingLegMethods]

/-- C4. Assigning the member `hold_count` of a leg, with `n` the integer the value
converts to: the leg afterwards is the leg after one call `setHoldCount(n)` (no other
method of the leg is called), and a script error is raised if and only if that call returned
false. -/
theorem hold_count_assignment (L : LegMethods) (W : WayptMethods) (leg : Leg)
    (value : naRef) :
    let n := static_cast_int value.num
    let r := legGhostSetMember L W leg "hold_count" value
    r.2 = (L.setHoldCount leg n).2 ∧
    (r.1.isError = true ↔ (L.setHoldCount leg n).1 = false) ∧
    ((L.setHoldCount leg n).1 = true → r.1 = .ok ()) := by
  intro n r
  cases h : (L.setHoldCount leg n).1 <;>
    simp [r, n, legGhostSetMember, h, Outcome.isError]

/-- C5. Assigning the member `hold_heading_radial_deg` of a leg first calls
`convertWaypointToHold`.  If that returns false, a script error is raised and the leg is
what the failed conversion left: the hold radial is not written and `markWaypointDirty` is
not called.  If it returns true, leaving a waypoint of the type "hold", and the value is a
number, the hold radial of the waypoint is set to that number and then the leg is marked
dirty. -/
theorem hold_radial_assignment (L : LegMethods) (W : WayptMethods) (leg : Leg)
    (value : naRef) :
    let c := L.convertWaypointToHold leg
    let r := legGhostSetMember L W leg "hold_heading_radial_deg" value
    (c.1 = false → r = (.error "couldn't convert leg waypoint into a hold", c.2)) ∧
    (c.1 = true → c.2.waypoint.type = "hold" → ∀ d, value = .number d →
      r = (.ok (),
        L.markWaypointDirty { c.2 with waypoint := W.setHoldRadial c.2.waypoint d })) := by
  intro c r
  refine ⟨?_, ?_⟩
  · intro h
    simp [r, c, legGhostSetMember] at h ⊢
    simp [h]
  · intro h hty d hv
    simp only [c] at h hty
    simp [r, c, legGhostSetMember, h, legSetWaypointMember, waypointCommonSetMember, hty, hv,
      naIsNum, naRef.num]

/-- Witness of C5: with the methods as the specification describes them, a leg whose waypoint
has an owning procedure is refused with a script error and is left exactly as it was, and on
a plain leg the assignment of 90 converts the waypoint, writes the radial and marks the leg
dirty. -/
theorem hold_radial_assignment_witness :
    legGhostSetMember specLegMethods specWayptMethods procedureLeg "hold_heading_radial_deg"
        (naNum (Dbl.ofInt 90))
      = (.error "couldn't convert leg waypoint into a hold", procedureLeg) ∧
    legGhostSetMember specLegMethods specWayptMethods plainLeg "hold_heading_radial_deg"
        (naNum (Dbl.ofInt 90))
      = (.ok (), { waypoint := { type := "hold", ident := "SPY", convertedFrom := some "navaid",
                                 inboundRadial := Dbl.ofInt 90 },
                   dirty := true }) :=
  ⟨(hold_radial_assignment specLegMethods specWayptMethods procedureLeg
      (naNum (Dbl.ofInt 90))).1 (by decide),
   (hold_radial_assignment specLegMethods specWayptMethods plainLeg
      (naNum (Dbl.ofInt 90))).2 (by decide) (by decide) (Dbl.ofInt 90) rfl⟩

/-- C6. A notification of `NasalFPDelegate` looks the member of that name up in the script
object; if there is one, it calls it once on the object with the flight plan as the single
argument, and if there is none, it calls nothing.  Each of the eight notifications uses its
own name. -/
theorem delegate_notifications {σ : Type} (sys : NasalSys σ) (d : NasalFPDelegate) (st : σ) :
    (∀ method : String,
      (∀ f, sys.naMember_cget d._instance method = some f →
        d.callDelegateMethod sys st method
          = sys.callMethod st f d._instance [ghostForFlightPlan (some d._plan)] naNil) ∧
      (sys.naMember_cget d._instance method = none →
        d.callDelegateMethod sys st method = st)) ∧
    d.departureChanged sys st = d.callDelegateMethod sys st "departureChanged" ∧
    d.arrivalChanged sys st = d.callDelegateMethod sys st "arrivalChanged" ∧
    d.waypointsChanged sys st = d.callDelegateMethod sys st "waypointsChanged" ∧
    d.currentWaypointChanged sys st = d.callDelegateMethod sys st "currentWaypointChanged" ∧
    d.cleared sys st = d.callDelegateMethod sys st "cleared" ∧
    d.endOfFlightPlan sys st = d.callDelegateMethod sys st "endOfFlightPlan" ∧
    d.activated sys st = d.callDelegateMethod sys st "activated" ∧
    d.sequence sys st = d.callDelegateMethod sys st "sequence" := by
  refine ⟨fun method => ⟨fun f hf => ?_, fun hn => ?_⟩, rfl, rfl, rfl, rfl, rfl, rfl, rfl, rfl⟩
  · simp [NasalFPDelegate.callDelegateMethod, hf]
  · simp [NasalFPDelegate.callDelegateMethod, hn]

/-- Witness of C6: a script object with the single handler `cleared` is called once, on
itself and with the flight plan, by the notification `cleared`, and not at all by the
notification `sequence`. -/
theorem delegate_notifications_witness :
    clearedOnlyDelegate.callDelegateMethod recordingNasalSys [] "cleared"
      = [(.func 1, clearedOnlyDelegate._instance, [.ghost (.flightplan planOfTwo)])] ∧
    clearedOnlyDelegate.callDelegateMethod recordingNasalSys [] "sequence" = [] :=
  ⟨((delegate_notifications recordingNasalSys clearedOnlyDelegate []).1 "cleared").1
      (.func 1) rfl,
   ((delegate_notifications recordingNasalSys clearedOnlyDelegate []).1 "sequence").2 rfl⟩

/-- C7. `createFlightplan(path)` with a path string: if no file exists at the path a script
error is raised; if the file exists and `load` fails the result is nil; if `load` succeeds
the result is the loaded plan.  Without a path string the result is a newly created, empty
plan.  So a flight-plan object is returned only when `load` succeeded or no path string was
given. -/
theorem createFlightplan_outcomes (F : FileMethods) (argc : Nat) (args : Nat → naRef) :
    let r := f_createFlightplan F argc args
    (∀ path, argc > 0 → args 0 = .string path →
      (F.exists_ path = false → r = .error "createFlightplan, no file at path %s") ∧
      (F.exists_ path = true → (F.load FlightPlan.new path).1 = false → r = .ok naNil) ∧
      (F.exists_ path = true → (F.load FlightPlan.new path).1 = true →
        r = .ok (.ghost (.flightplan (F.load FlightPlan.new path).2)))) ∧
    (¬ (argc > 0 ∧ naIsString (args 0) = true) →
      r = .ok (.ghost (.flightplan FlightPlan.new))) ∧
    (∀ fp, r = .ok (.ghost (.flightplan fp)) →
      (¬ (argc > 0 ∧ naIsString (args 0) = true) ∧ fp = FlightPlan.new) ∨
      (∃ path, argc > 0 ∧ args 0 = .string path ∧ F.exists_ path = true ∧
        F.load FlightPlan.new path = (true, fp))) := by
  intro r
  refine ⟨?_, ?_, ?_⟩
  · intro path hc ha
    refine ⟨?_, ?_, ?_⟩
    · intro he
      simp [r, f_createFlightplan, hc, ha, naIsString, naStr_data, he]
    · intro he hl
      simp [r, f_createFlightplan, hc, ha, naIsString, naStr_data, he, hl]
    · intro he hl
      simp [r, f_createFlightplan, hc, ha, naIsString, naStr_data, he, hl,
        ghostForFlightPlan]
  · intro h
    simp only [r, f_createFlightplan]
    rw [if_neg h]
    rfl
  · intro fp hfp
    by_cases h : argc > 0 ∧ naIsString (args 0) = true
    · right
      obtain ⟨hc, hs⟩ := h
      cases ha : args 0 <;> simp [ha, naIsString] at hs
      rename_i path
      refine ⟨path, hc, rfl, ?_⟩
      simp only [r, f_createFlightplan, hc, ha, naIsString, naStr_data] at hfp
      cases he : F.exists_ path
      · simp [he] at hfp
      · cases hl : (F.load FlightPlan.new path).1
        · simp [he, hl, naNil] at hfp
        · simp [he, hl, ghostForFlightPlan] at hfp
          refine ⟨rfl, ?_⟩
          rw [← hfp, ← hl]
    · left
      refine ⟨h, ?_⟩
      simp only [r, f_createFlightplan] at hfp
      rw [if_neg h] at hfp
      simp [ghostForFlightPlan] at hfp
      exact hfp.symm

/-- Witness of C7: a missing file raises the script error, a file that does not load gives
nil, and a file that loads gives its plan. -/
theorem createFlightplan_outcomes_witness :
    f_createFlightplan sampleFiles 1 (argsOf [.string "none.fgfp"])
      = .error "createFlightplan, no file at path %s" ∧
    f_createFlightplan sampleFiles 1 (argsOf [.string "bad.fgfp"]) = .ok naNil ∧
    f_createFlightplan sampleFiles 1 (argsOf [.string "good.fgfp"])
      = .ok (.ghost (.flightplan planOfTwo)) :=
  ⟨((createFlightplan_outcomes sampleFiles 1 (argsOf [.string "none.fgfp"])).1
      "none.fgfp" (by decide) rfl).1 (by decide),
   ((createFlightplan_outcomes sampleFiles 1 (argsOf [.string "bad.fgfp"])).1
      "bad.fgfp" (by decide) rfl).2.1 (by decide) (by decide),
   ((createFlightplan_outcomes sampleFiles 1 (argsOf [.string "good.fgfp"])).1
      "good.fgfp" (by decide) rfl).2.2 (by decide) (by decide)⟩

/-- The level selection of `f_airwaySearch`: the third argument is present and is the
string "lowlevel". -/
theorem airwaySearch_eq (N : AirwayNetworks) (argc : Nat) (args : Nat → naRef) (s e : Waypt)
    (hc : argc ≥ 2) (hs : wayptFromArg (args 0) = some s)
    (he : wayptFromArg (args 1) = some e) :
    f_airwaySearch N argc args =
      if argc > 2 ∧ naStr_data (args 2) = some "lowlevel" then
        .ok (convertWayptVecToNasal (N.lowLevel_route (some s) (some e) []).2)
      else .ok (convertWayptVecToNasal (N.highLevel_route (some s) (some e) []).2) := by
  have hc' : ¬ argc < 2 := by omega
  simp only [f_airwaySearch, hc', hs, he, if_false]
  by_cases h2 : argc > 2
  · cases ha : args 2 <;> simp [h2, naIsString, naStr_data]
    rename_i str
    by_cases hl : str = "lowlevel" <;> simp [hl]
  · simp [h2]

/-- C8. For start and end arguments that convert to waypoints, `airwaysRoute` returns a
vector that holds, element for element and in the same order, the ghosts of the waypoints
that the search of the selected network left in its path vector (nil for a null reference
in it): for a path of the waypoints w1, ..., wn the result is the vector of the waypoint
ghosts of w1, ..., wn.  When the search left none the result is an empty vector.  The
result is never nil and never a script error. -/
theorem airwaySearch_returns_route (N : AirwayNetworks) (argc : Nat) (args : Nat → naRef)
    (s e : Waypt) (hc : argc ≥ 2) (hs : wayptFromArg (args 0) = some s)
    (he : wayptFromArg (args 1) = some e) :
    let route : WayptVec :=
      if argc > 2 ∧ naStr_data (args 2) = some "lowlevel" then
        (N.lowLevel_route (some s) (some e) []).2
      else (N.highLevel_route (some s) (some e) []).2
    f_airwaySearch N argc args
        = .ok (.vector (route.map (fun r =>
            match r with
            | some w => naRef.ghost (Ghost.waypoint w)
            | none => naRef.nil))) ∧
      (∀ wps : List Waypt, route = wps.map some →
        f_airwaySearch N argc args
          = .ok (.vector (wps.map (fun w => naRef.ghost (Ghost.waypoint w))))) ∧
      (route = [] → f_airwaySearch N argc args = .ok (.vector [])) ∧
      f_airwaySearch N argc args ≠ .ok naNil ∧
      (f_airwaySearch N argc args).isError = false := by
  intro route
  have hmap : ∀ l : WayptVec, l.map ghostForWaypt = l.map (fun r =>
      match r with
      | some w => naRef.ghost (Ghost.waypoint w)
      | none => naRef.nil) := by
    intro l
    apply List.map_congr_left
    intro r _
    cases r <;> rfl
  have hr : f_airwaySearch N argc args = .ok (.vector (route.map (fun r =>
      match r with
      | some w => naRef.ghost (Ghost.waypoint w)
      | none => naRef.nil))) := by
    rw [airwaySearch_eq N argc args s e hc hs he, ← hmap]
    by_cases h : argc > 2 ∧ naStr_data (args 2) = some "lowlevel"
    · simp only [route, if_pos h, convertWayptVecToNasal]
    · simp only [route, if_neg h, convertWayptVecToNasal]
  refine ⟨hr, ?_, ?_, ?_, ?_⟩
  · intro wps hw
    rw [hr, hw, List.map_map]
    rfl
  · intro h0
    rw [hr, h0]
    rfl
  · rw [hr]
    simp [naNil]
  · rw [hr]
    rfl

/-- Witness of C8: between the navaids SPY and PAM the high-level search of the example
leaves the path SPY, TULIP, PAM, and the result is the vector of these three waypoints in
this order; the low-level search leaves nothing, and the result is the empty vector. -/
theorem airwaySearch_returns_route_witness :
    f_airwaySearch sampleNetworks 2
        (argsOf [.ghost (.navaid navSPY), .ghost (.navaid navPAM)])
      = .ok (.vector [.ghost (.waypoint (NavaidWaypoint.new navSPY none)),
          .ghost (.waypoint (NavaidWaypoint.new fixTULIP none)),
          .ghost (.waypoint (NavaidWaypoint.new navPAM none))]) ∧
    f_airwaySearch sampleNetworks 3
        (argsOf [.ghost (.navaid navSPY), .ghost (.navaid navPAM), .string "lowlevel"])
      = .ok (.vector []) :=
  ⟨(airwaySearch_returns_route sampleNetworks 2
      (argsOf [.ghost (.navaid navSPY), .ghost (.navaid navPAM)])
      (NavaidWaypoint.new navSPY none) (NavaidWaypoint.new navPAM none)
      (by decide) (by decide) (by decide)).2.1
      [NavaidWaypoint.new navSPY none, NavaidWaypoint.new fixTULIP none,
        NavaidWaypoint.new navPAM none] rfl,
   (airwaySearch_returns_route sampleNetworks 3
      (argsOf [.ghost (.navaid navSPY), .ghost (.navaid navPAM), .string "lowlevel"])
      (NavaidWaypoint.new navSPY none) (NavaidWaypoint.new navPAM none)
      (by decide) (by decide) (by decide)).2.2.1 rfl⟩

/-- C9. For start and end arguments that convert to waypoints, `airwaysRoute` takes its
result from one network: from the low-level one if and only if the third argument is present
and is the string "lowlevel", from the high-level one in every other case.  The other
network has no part in the result: replacing it changes nothing. -/
theorem airwaySearch_level (N : AirwayNetworks) (argc : Nat) (args : Nat → naRef)
    (s e : Waypt) (hc : argc ≥ 2) (hs : wayptFromArg (args 0) = some s)
    (he : wayptFromArg (args 1) = some e) :
    ((argc > 2 ∧ naStr_data (args 2) = some "lowlevel") →
      f_airwaySearch N argc args
        = .ok (convertWayptVecToNasal (N.lowLevel_route (some s) (some e) []).2) ∧
      ∀ N' : AirwayNetworks, N'.lowLevel_route = N.lowLevel_route →
        f_airwaySearch N' argc args = f_airwaySearch N argc args) ∧
    (¬ (argc > 2 ∧ naStr_data (args 2) = some "lowlevel") →
      f_airwaySearch N argc args
        = .ok (convertWayptVecToNasal (N.highLevel_route (some s) (some e) []).2) ∧
      ∀ N' : AirwayNetworks, N'.highLevel_route = N.highLevel_route →
        f_airwaySearch N' argc args = f_airwaySearch N argc args) := by
  refine ⟨fun h => ⟨?_, fun N' hN => ?_⟩, fun h => ⟨?_, fun N' hN => ?_⟩⟩
  · rw [airwaySearch_eq N argc args s e hc hs he, if_pos h]
  · rw [airwaySearch_eq N argc args s e hc hs he, airwaySearch_eq N' argc args s e hc hs he,
      if_pos h, if_pos h, hN]
  · rw [airwaySearch_eq N argc args s e hc hs he, if_neg h]
  · rw [airwaySearch_eq N argc args s e hc hs he, airwaySearch_eq N' argc args s e hc hs he,
      if_neg h, if_neg h, hN]

/-- Witness of C9: with a third argument that is another string than "lowlevel", the result
is the path of the high-level search. -/
theorem airwaySearch_level_witness :
    f_airwaySearch sampleNetworks 3
        (argsOf [.ghost (.navaid navSPY), .ghost (.navaid navPAM), .string "highlevel"])
      = .ok (.vector [.ghost (.waypoint (NavaidWaypoint.new navSPY none)),
                      .ghost (.waypoint (NavaidWaypoint.new fixTULIP none)),
                      .ghost (.waypoint (NavaidWaypoint.new navPAM none))]) :=
  ((airwaySearch_level sampleNetworks 3
      (argsOf [.ghost (.navaid navSPY), .ghost (.navaid navPAM), .string "highlevel"])
      (NavaidWaypoint.new navSPY none) (NavaidWaypoint.new navPAM none)
      (by decide) (by decide) (by decide)).2
    (by decide)).1

/-- C10. `procedure.route(...)` on an approach takes the initial fix from the first argument,
if there is one, and calls `Approach::route`; on a SID or STAR it takes an optional runway and
an optional transition from the arguments and calls `ArrivalDeparture::route`.  In both cases
the result is nil exactly when the route computation returned false, and otherwise the vector
with one element for each element of the computed route, in route order.  On a procedure of
any other type a script error is raised. -/
theorem procedure_route_outcomes (P : ProcedureMethods) (me : naRef) (argc : Nat)
    (args : Nat → naRef) (proc : Procedure) (hp : procedureGhost me = some proc) :
    let r := f_procedure_route P me argc args
    (Approach.isApproach proc.type = true →
      let iaf : WayptRef := if argc > 0 then wayptFromArg (args 0) else none
      let c := P.Approach_route proc iaf []
      (r = .ok naNil ↔ c.1 = false) ∧
      (c.1 = true → r = .ok (.vector (c.2.map ghostForWaypt)))) ∧
    (Approach.isApproach proc.type = false →
      (proc.type = PROCEDURE_SID ∨ proc.type = PROCEDURE_STAR) →
      let rwy := runwayGhost (args 0)
      let argOffset : Nat := if rwy.isSome then 1 else 0
      let tr : Option Procedure :=
        if argOffset < argc then procedureGhost (args argOffset) else none
      let c := P.ArrivalDeparture_route proc rwy tr []
      (r = .ok naNil ↔ c.1 = false) ∧
      (c.1 = true → r = .ok (.vector (c.2.map ghostForWaypt)))) ∧
    (Approach.isApproach proc.type = false →
      proc.type ≠ PROCEDURE_SID → proc.type ≠ PROCEDURE_STAR →
      r = .error "procedure.route called on unsuitable procedure type") := by
  intro r
  refine ⟨?_, ?_, ?_⟩
  · intro ha iaf c
    have hr : r = if !c.1 then .ok naNil else .ok (convertWayptVecToNasal c.2) := by
      simp [r, c, iaf, f_procedure_route, hp, ha]
    cases hc : c.1 <;> simp [hr, hc, convertWayptVecToNasal, naNil]
  · intro ha hty rwy argOffset tr c
    have hne : ¬ ((proc.type ≠ PROCEDURE_SID) ∧ (proc.type ≠ PROCEDURE_STAR)) := by
      rcases hty with h | h <;> simp [h]
    have hr : r = if !c.1 then .ok naNil else .ok (convertWayptVecToNasal c.2) := by
      simp only [r, c, tr, argOffset, rwy, f_procedure_route, hp, ha]
      simp only [Bool.false_eq_true, if_false]
      rw [if_neg hne]
    cases hc : c.1 <;> simp [hr, hc, convertWayptVecToNasal, naNil]
  · intro ha h1 h2
    simp [r, f_procedure_route, hp, ha, h1, h2]

/-- Witness of C10: for the route computations of the example, an approach without a route
gives nil, a STAR gives the vector of its two route waypoints, and a transition raises the
script error. -/
theorem procedure_route_outcomes_witness :
    f_procedure_route sampleProcedures
        (.ghost (.procedure { guid := 1, type := PROCEDURE_APPROACH_ILS })) 0 (argsOf [])
      = .ok naNil ∧
    f_procedure_route sampleProcedures
        (.ghost (.procedure { guid := 2, type := PROCEDURE_STAR })) 0 (argsOf [])
      = .ok (.vector [.ghost (.waypoint (NavaidWaypoint.new fixTULIP none)),
                      .ghost (.waypoint (NavaidWaypoint.new navSPY none))]) ∧
    f_procedure_route sampleProcedures
        (.ghost (.procedure { guid := 3, type := PROCEDURE_TRANSITION })) 0 (argsOf [])
      = .error "procedure.route called on unsuitable procedure type" :=
  ⟨((procedure_route_outcomes sampleProcedures
        (.ghost (.procedure { guid := 1, type := PROCEDURE_APPROACH_ILS })) 0 (argsOf [])
        { guid := 1, type := PROCEDURE_APPROACH_ILS } rfl).1 (by decide)).1.2 (by decide),
   ((procedure_route_outcomes sampleProcedures
        (.ghost (.procedure { guid := 2, type := PROCEDURE_STAR })) 0 (argsOf [])
        { guid := 2, type := PROCEDURE_STAR } rfl).2.1 (by decide)
        (Or.inr rfl)).2 (by decide),
   (procedure_route_outcomes sampleProcedures
        (.ghost (.procedure { guid := 3, type := PROCEDURE_TRANSITION })) 0 (argsOf [])
        { guid := 3, type := PROCEDURE_TRANSITION } rfl).2.2 (by decide) (by decide)
        (by decide)⟩

/-- The last step of the two Via constructors: a value is returned only for a target that
was resolved and for which `containsNavaid` holds. -/
theorem via_last_step {AW : AirwayMethods} {awy : Airway} {msg : String}
    {res : Outcome (Option FGPositioned)} {v : naRef}
    (h : (match res with
          | .error m => Outcome.error m
          | .fault what => Outcome.fault what
          | .ok nav =>
            if !AW.containsNavaid awy nav then Outcome.error msg
            else Outcome.ok (ghostForWaypt (some (Via.new none awy nav)))) = .ok v) :
    ∃ nav, AW.containsNavaid awy nav = true ∧ v = .ghost (.waypoint (Via.new none awy nav)) := by
  cases res with
  | error m => simp at h
  | fault w => simp at h
  | ok nav =>
    cases hc : AW.containsNavaid awy nav
    · simp [hc] at h
    · simp [hc, ghostForWaypt] at h
      exact ⟨nav, hc, h.symm⟩

/-- C3. `createViaTo(airwayName, target)` and `createViaFromTo(from, airwayName, target)`
return a value only as a Via built on an airway that the lookup found and a target for which
`containsNavaid` holds on that airway.  With an airway name given: if the airway is not
found, if the target is a name that is not on the airway or a value that is no directory
entity, or if `containsNavaid` fails for the target, a script error is raised. -/
theorem via_construction_checked (AW : AirwayMethods) (argc : Nat) (args : Nat → naRef) :
    (∀ v, f_createViaTo AW argc args = .ok v →
      ∃ name awy nav, naStr_data (args 0) = some name ∧
        AW.findByIdent name .Both = some awy ∧ AW.containsNavaid awy nav = true ∧
        v = .ghost (.waypoint (Via.new none awy nav))) ∧
    (∀ v, f_createViaFromTo AW argc args = .ok v →
      ∃ from_ name awy nav, positionedFromArg (args 0) = some from_ ∧
        naStr_data (args 1) = some name ∧
        AW.findByIdentAndNavaid name from_ = some awy ∧ AW.containsNavaid awy nav = true ∧
        v = .ghost (.waypoint (Via.new none awy nav))) ∧
    (∀ name, argc = 2 → args 0 = .string name →
      (AW.findByIdent name .Both = none →
        f_createViaTo AW argc args
          = .error "createViaTo: couldn't find airway with provided name: %s") ∧
      (∀ awy, AW.findByIdent name .Both = some awy →
        (∀ t, args 1 = .string t → AW.findEnroute awy t = none →
          f_createViaTo AW argc args = .error "unknown waypoint on airway %s: %s") ∧
        (naIsString (args 1) = false → positionedGhost (args 1) = none →
          f_createViaTo AW argc args = .error "createViaTo: arg[1] is not a navaid") ∧
        (∀ t wp, args 1 = .string t → AW.findEnroute awy t = some wp →
          AW.containsNavaid awy wp.source = false →
          f_createViaTo AW argc args = .error "createViaTo: navaid not on airway") ∧
        (∀ nav, naIsString (args 1) = false → positionedGhost (args 1) = some nav →
          AW.containsNavaid awy (some nav) = false →
          f_createViaTo AW argc args = .error "createViaTo: navaid not on airway"))) ∧
    (∀ from_ name, argc = 3 → positionedFromArg (args 0) = some from_ →
      args 1 = .string name →
      (AW.findByIdentAndNavaid name from_ = none →
        f_createViaFromTo AW argc args = .error
          "createViaFromTo: couldn't find airway with provided name: %s from wp %s") ∧
      (∀ awy, AW.findByIdentAndNavaid name from_ = some awy →
        (∀ t, args 2 = .string t → AW.findEnroute awy t = none →
          f_createViaFromTo AW argc args = .error "unknown waypoint on airway %s: %s") ∧
        (naIsString (args 2) = false → positionedFromArg (args 2) = none →
          f_createViaFromTo AW argc args
            = .error "createViaFromTo: arg[2] is not a navaid") ∧
        (∀ t wp, args 2 = .string t → AW.findEnroute awy t = some wp →
          AW.containsNavaid awy wp.source = false →
          f_createViaFromTo AW argc args = .error "createViaFromTo: navaid not on airway") ∧
        (∀ nav, naIsString (args 2) = false → positionedFromArg (args 2) = some nav →
          AW.containsNavaid awy (some nav) = false →
          f_createViaFromTo AW argc args
            = .error "createViaFromTo: navaid not on airway"))) := by
  refine ⟨?_, ?_, ?_, ?_⟩
  · intro v hv
    unfold f_createViaTo at hv
    split at hv
    · simp at hv
    · split at hv
      · simp at hv
      · rename_i name hname
        split at hv
        · simp at hv
        · rename_i awy hawy
          obtain ⟨nav, hcont, hv'⟩ := via_last_step hv
          exact ⟨name, awy, nav, hname, hawy, hcont, hv'⟩
  · intro v hv
    unfold f_createViaFromTo at hv
    split at hv
    · simp at hv
    · split at hv
      · simp at hv
      · rename_i from_ hfrom
        split at hv
        · simp at hv
        · rename_i name hname
          split at hv
          · simp at hv
          · rename_i awy hawy
            obtain ⟨nav, hcont, hv'⟩ := via_last_step hv
            exact ⟨from_, name, awy, nav, hfrom, hname, hawy, hcont, hv'⟩
  · intro name hc h0
    refine ⟨?_, ?_⟩
    · intro hf
      simp [f_createViaTo, hc, h0, naStr_data, hf]
    · intro awy hf
      refine ⟨?_, ?_, ?_, ?_⟩
      · intro t h1 he
        simp [f_createViaTo, hc, h0, naStr_data, hf, h1, he]
      · intro h1 hg
        cases ha : args 1 <;>
          simp_all [f_createViaTo, naStr_data, naIsString]
      · intro t wp h1 he hcn
        simp [f_createViaTo, hc, h0, naStr_data, hf, h1, he, hcn]
      · intro nav h1 hg hcn
        cases ha : args 1 <;>
          simp_all [f_createViaTo, naStr_data, naIsString]
  · intro from_ name hc h0 h1
    refine ⟨?_, ?_⟩
    · intro hf
      simp [f_createViaFromTo, hc, h0, h1, naStr_data, hf]
    · intro awy hf
      refine ⟨?_, ?_, ?_, ?_⟩
      · intro t h2 he
        simp [f_createViaFromTo, hc, h0, h1, naStr_data, hf, h2, he]
      · intro h2 hg
        cases ha : args 2 <;>
          simp_all [f_createViaFromTo, naStr_data, naIsString]
      · intro t wp h2 he hcn
        simp [f_createViaFromTo, hc, h0, h1, naStr_data, hf, h2, he, hcn]
      · intro nav h2 hg hcn
        cases ha : args 2 <;>
          simp_all [f_createViaFromTo, naStr_data, naIsString]

/-- Witness of C3: in the example directory an unknown airway name and a navaid that is not
on the airway raise their script errors, and the Via that `createViaTo("UL620", "TULIP")`
returns is built on an airway the lookup found and a target `containsNavaid` accepts. -/
theorem via_construction_checked_witness :
    f_createViaTo sampleAirways 2 (argsOf [.string "NOPE", .string "TULIP"])
      = .error "createViaTo: couldn't find airway with provided name: %s" ∧
    f_createViaTo sampleAirways 2 (argsOf [.string "UL620", .ghost (.navaid navPAM)])
      = .error "createViaTo: navaid not on airway" ∧
    ∃ name awy nav,
      naStr_data (argsOf [.string "UL620", .string "TULIP"] 0) = some name ∧
      sampleAirways.findByIdent name .Both = some awy ∧
      sampleAirways.containsNavaid awy nav = true ∧
      naRef.ghost (.waypoint (Via.new none airwayUL620 (some fixTULIP)))
        = .ghost (.waypoint (Via.new none awy nav)) :=
  ⟨((via_construction_checked sampleAirways 2
        (argsOf [.string "NOPE", .string "TULIP"])).2.2.1 "NOPE" rfl rfl).1 (by decide),
   (((via_construction_checked sampleAirways 2
        (argsOf [.string "UL620", .ghost (.navaid navPAM)])).2.2.1 "UL620" rfl rfl).2
        airwayUL620 (by decide)).2.2.2 navPAM rfl rfl (by decide),
   (via_construction_checked sampleAirways 2
        (argsOf [.string "UL620", .string "TULIP"])).1
      (.ghost (.waypoint (Via.new none airwayUL620 (some fixTULIP)))) rfl⟩

/-- C11, counterexample. A Transition assigned to the member `approach` is not forwarded to
`setApproach`: the script error is raised and the plan is as before. -/
theorem approach_rejects_transition :
    transRIVER.type = PROCEDURE_TRANSITION ∧
    flightplanGhostSetMember specFlightPlanMethods emptyAirportMethods planOfTwo "approach"
        (.ghost (.procedure transRIVER))
      = (.error "bad argument type setting approach", planOfTwo) :=
  ⟨rfl, rfl⟩

/-- C11, amended. Assigning `sid` (`star`) accepts a SID (STAR), forwarded to `setSID`
(`setSTAR`), and a Transition, forwarded to the transition overload of `setSID` (`setSTAR`),
in each case without a script error.  Assigning `approach` accepts an approach procedure,
forwarded to `setApproach`; a Transition assigned to `approach` raises a script error and no
setter is called. -/
theorem procedure_assignment (M : FlightPlanMethods) (A : AirportMethods) (fp : FlightPlan)
    (p : Procedure) :
    (p.type = PROCEDURE_TRANSITION →
      flightplanGhostSetMember M A fp "sid" (.ghost (.procedure p))
        = (.ok (), M.setSID_transition fp p) ∧
      flightplanGhostSetMember M A fp "star" (.ghost (.procedure p))
        = (.ok (), M.setSTAR_transition fp p) ∧
      flightplanGhostSetMember M A fp "approach" (.ghost (.procedure p))
        = (.error "bad argument type setting approach", fp)) ∧
    (p.type = PROCEDURE_SID →
      flightplanGhostSetMember M A fp "sid" (.ghost (.procedure p))
        = (.ok (), M.setSID fp (some p))) ∧
    (p.type = PROCEDURE_STAR →
      flightplanGhostSetMember M A fp "star" (.ghost (.procedure p))
        = (.ok (), M.setSTAR fp (some p))) ∧
    (Approach.isApproach p.type = true →
      flightplanGhostSetMember M A fp "approach" (.ghost (.procedure p))
        = (.ok (), M.setApproach fp (some p))) := by
  refine ⟨?_, ?_, ?_, ?_⟩
  · intro h
    simp [flightplanGhostSetMember, procedureGhost, h, Approach.isApproach, naIsNil]
  · intro h
    simp [flightplanGhostSetMember, procedureGhost, h]
  · intro h
    simp [flightplanGhostSetMember, procedureGhost, h]
  · intro h
    simp [flightplanGhostSetMember, procedureGhost, h]

/-- Witness of C11, amended: with setters that store what they are given, the transition
RIVER assigned to `sid` becomes the SID transition of the plan, and the approach ILS06
assigned to `approach` becomes its approach. -/
theorem procedure_assignment_witness :
    flightplanGhostSetMember specFlightPlanMethods emptyAirportMethods planOfTwo "sid"
        (.ghost (.procedure transRIVER))
      = (.ok (), { planOfTwo with sidTransition := some transRIVER }) ∧
    flightplanGhostSetMember specFlightPlanMethods emptyAirportMethods planOfTwo "approach"
        (.ghost (.procedure approachILS06))
      = (.ok (), { planOfTwo with approach := some approachILS06 }) :=
  ⟨((procedure_assignment specFlightPlanMethods emptyAirportMethods planOfTwo
      transRIVER).1 rfl).1,
   (procedure_assignment specFlightPlanMethods emptyAirportMethods planOfTwo
      approachILS06).2.2.2 rfl⟩

/-- C12. Assigning `departure` (`destination`) dispatches on the kind of the value: an
airport ghost calls `setDeparture(airport)`, a runway ghost calls `setDeparture(runway)`,
nil calls `clearDeparture` (`setDestination`, `clearDestination`), and any other value
raises a script error with no setter called: the plan is left as it was.  Every value is of
exactly one of the four kinds: the first three exclude each other, and the fourth is every
remaining value. -/
theorem departure_destination_dispatch (M : FlightPlanMethods) (A : AirportMethods)
    (fp : FlightPlan) (value : naRef) :
    let dep := flightplanGhostSetMember M A fp "departure" value
    let dst := flightplanGhostSetMember M A fp "destination" value
    (∀ apt : FGAirport, value = naRef.ghost (Ghost.airport apt) →
      dep = (.ok (), M.setDeparture_airport fp apt) ∧
      dst = (.ok (), M.setDestination_airport fp apt)) ∧
    (∀ rwy : FGRunway, value = naRef.ghost (Ghost.runway rwy) →
      dep = (.ok (), M.setDeparture_runway fp rwy) ∧
      dst = (.ok (), M.setDestination_runway fp (some rwy))) ∧
    (value = naRef.nil →
      dep = (.ok (), M.clearDeparture fp) ∧ dst = (.ok (), M.clearDestination fp)) ∧
    ((∀ apt : FGAirport, value ≠ naRef.ghost (Ghost.airport apt)) →
      (∀ rwy : FGRunway, value ≠ naRef.ghost (Ghost.runway rwy)) → value ≠ naRef.nil →
      dep = (.error "bad argument type setting departure", fp) ∧
      dst = (.error "bad argument type setting destination", fp)) ∧
    ((∃ apt : FGAirport, value = naRef.ghost (Ghost.airport apt)) ∨
      (∃ rwy : FGRunway, value = naRef.ghost (Ghost.runway rwy)) ∨ value = naRef.nil ∨
      ((∀ apt : FGAirport, value ≠ naRef.ghost (Ghost.airport apt)) ∧
        (∀ rwy : FGRunway, value ≠ naRef.ghost (Ghost.runway rwy)) ∧ value ≠ naRef.nil)) ∧
    ((∃ apt : FGAirport, value = naRef.ghost (Ghost.airport apt)) →
      (∀ rwy : FGRunway, value ≠ naRef.ghost (Ghost.runway rwy)) ∧ value ≠ naRef.nil) ∧
    ((∃ rwy : FGRunway, value = naRef.ghost (Ghost.runway rwy)) → value ≠ naRef.nil) := by
  intro dep dst
  refine ⟨?_, ?_, ?_, ?_, ?_, ?_, ?_⟩
  · intro apt h
    subst h
    exact ⟨rfl, rfl⟩
  · intro rwy h
    subst h
    exact ⟨rfl, rfl⟩
  · intro h
    subst h
    exact ⟨rfl, rfl⟩
  · intro ha hr hn
    have h1 : airportGhost value = none := by
      cases value <;> simp_all [airportGhost]
    have h2 : runwayGhost value = none := by
      cases value <;> simp_all [runwayGhost]
    have h3 : naIsNil value = false := by
      cases value <;> simp_all [naIsNil]
    simp [dep, dst, flightplanGhostSetMember, h1, h2, h3]
  · cases value <;> simp
    rename_i g; cases g <;> simp
  · rintro ⟨apt, h⟩
    subst h
    simp
  · rintro ⟨rwy, h⟩
    subst h
    simp

/-- Witness of C12: with setters that store what they are given, the airport EHAM assigned
to `departure` is stored as departure airport; the runway 06 assigned to `departure` and to
`destination` is stored as departure and as destination runway; nil assigned to `departure`
clears departure airport and runway; and a number assigned to `destination` raises the
script error and leaves the plan as it was. -/
theorem departure_destination_dispatch_witness :
    flightplanGhostSetMember specFlightPlanMethods emptyAirportMethods planOfTwo "departure"
        (.ghost (.airport aptEHAM))
      = (.ok (), { planOfTwo with departureAirport := some aptEHAM }) ∧
    flightplanGhostSetMember specFlightPlanMethods emptyAirportMethods planOfTwo "departure"
        (.ghost (.runway rwy06))
      = (.ok (), { planOfTwo with departureRunway := some rwy06 }) ∧
    flightplanGhostSetMember specFlightPlanMethods emptyAirportMethods planOfTwo
        "destination" (.ghost (.runway rwy06))
      = (.ok (), { planOfTwo with destinationRunway := some rwy06 }) ∧
    flightplanGhostSetMember specFlightPlanMethods emptyAirportMethods
        { planOfTwo with departureAirport := some aptEHAM, departureRunway := some rwy06 }
        "departure" .nil
      = (.ok (), planOfTwo) ∧
    flightplanGhostSetMember specFlightPlanMethods emptyAirportMethods planOfTwo
        "destination" (naNum (Dbl.ofInt 3))
      = (.error "bad argument type setting destination", planOfTwo) :=
  ⟨((departure_destination_dispatch specFlightPlanMethods emptyAirportMethods planOfTwo
      (.ghost (.airport aptEHAM))).1 aptEHAM rfl).1,
   ((departure_destination_dispatch specFlightPlanMethods emptyAirportMethods planOfTwo
      (.ghost (.runway rwy06))).2.1 rwy06 rfl).1,
   ((departure_destination_dispatch specFlightPlanMethods emptyAirportMethods planOfTwo
      (.ghost (.runway rwy06))).2.1 rwy06 rfl).2,
   ((departure_destination_dispatch specFlightPlanMethods emptyAirportMethods
      { planOfTwo with departureAirport := some aptEHAM, departureRunway := some rwy06 }
      .nil).2.2.1 rfl).1,
   ((departure_destination_dispatch specFlightPlanMethods emptyAirportMethods planOfTwo
      (naNum (Dbl.ofInt 3))).2.2.2.1 (fun _ h => naRef.noConfusion h)
      (fun _ h => naRef.noConfusion h) (fun h => naRef.noConfusion h)).2⟩

/-- The loop that collects the waypoints of a vector keeps, in order, the elements that are
waypoint or leg ghosts. -/
theorem collectWaypts_eq (elems : List naRef) :
    collectWaypts elems = (elems.filterMap wayptGhost).map some := by
  have h : ∀ (acc : WayptVec),
      elems.foldl (fun wps e =>
        match wayptGhost e with
        | some wp => wps ++ [some wp]
        | none => wps) acc = acc ++ (elems.filterMap wayptGhost).map some := by
    induction elems with
    | nil => intro acc; simp
    | cons e es ih =>
      intro acc
      simp only [List.foldl_cons, List.filterMap_cons]
      cases hg : wayptGhost e with
      | none => simp [ih]
      | some wp => simp [ih]
  simpa [collectWaypts] using h []

/-- C13. `flightplan.insertWP(wp, i)` makes one call `insertWayptAtIndex(wp, index)`, with
`index` the integer of `i` when a second argument is present and is a number, and -1 when it
is absent or not a number.  The result is the leg that call returned, and nil when it
returned none. -/
theorem insertWP_dispatch (R : FlightPlanRouteMethods) (fp : FlightPlan) (argc : Nat)
    (args : Nat → naRef) :
    let r := f_flightplan_insertWP R (.ghost (.flightplan fp)) argc args
    let wp := wayptGhost (args 0)
    ((argc > 1 ∧ naIsNum (args 1) = true) →
      let c := R.insertWayptAtIndex fp wp (static_cast_int (args 1).num)
      r.2 = some c.2 ∧ (c.1 = none → r.1 = .ok naNil) ∧
      (∀ leg, c.1 = some leg → r.1 = .ok (.ghost (.leg leg)))) ∧
    (¬ (argc > 1 ∧ naIsNum (args 1) = true) →
      let c := R.insertWayptAtIndex fp wp (-1)
      r.2 = some c.2 ∧ (c.1 = none → r.1 = .ok naNil) ∧
      (∀ leg, c.1 = some leg → r.1 = .ok (.ghost (.leg leg)))) := by
  intro r wp
  refine ⟨?_, ?_⟩
  · intro h c
    have hr : r = (.ok (ghostForLeg c.1), some c.2) := by
      simp [r, c, wp, f_flightplan_insertWP, flightplanGhost, h.1, h.2]
    refine ⟨by rw [hr], ?_, ?_⟩
    · intro hn; rw [hr]; simp [hn, ghostForLeg]
    · intro leg hl; rw [hr]; simp [hl, ghostForLeg]
  · intro h c
    have hr : r = (.ok (ghostForLeg c.1), some c.2) := by
      simp only [r, c, wp, f_flightplan_insertWP, flightplanGhost]
      rw [if_neg h]
    refine ⟨by rw [hr], ?_, ?_⟩
    · intro hn; rw [hr]; simp [hn, ghostForLeg]
    · intro leg hl; rw [hr]; simp [hl, ghostForLeg]

/-- Witness of C13: on the plan SPY, PAM, with the methods as the specification describes
them, `insertWP(TULIP, 1)` returns the new leg, of index 1. -/
theorem insertWP_dispatch_witness :
    (f_flightplan_insertWP specRouteMethods (.ghost (.flightplan planSpyPam)) 2
        (argsOf [.ghost (.waypoint wptTULIP), naNum (Dbl.ofInt 1)])).1
      = .ok (.ghost (.leg { owner := 2, index := 1, waypoint := wptTULIP })) :=
  ((insertWP_dispatch specRouteMethods planSpyPam 2
      (argsOf [.ghost (.waypoint wptTULIP), naNum (Dbl.ofInt 1)])).1
    ⟨by decide, rfl⟩).2.2 _ (by decide)

/-- Without a numeric index, `flightplan.insertWPAfter(wp)` calls
`insertWayptAtIndex(wp, 0)`: the default -1 of `index` is passed on as `index + 1`. -/
theorem insertWPAfter_without_index (R : FlightPlanRouteMethods) (fp : FlightPlan)
    (argc : Nat) (args : Nat → naRef) (h : ¬ (argc > 1 ∧ naIsNum (args 1) = true)) :
    f_flightplan_insertWPAfter R (.ghost (.flightplan fp)) argc args
      = (.ok (ghostForLeg (R.insertWayptAtIndex fp (wayptGhost (args 0)) 0).1),
         some (R.insertWayptAtIndex fp (wayptGhost (args 0)) 0).2) := by
  simp only [f_flightplan_insertWPAfter, flightplanGhost]
  rw [if_neg h]
  rfl

/-- With a numeric index `i`, `flightplan.insertWPAfter(wp, i)` calls
`insertWayptAtIndex(wp, i + 1)`. -/
theorem insertWPAfter_with_index (R : FlightPlanRouteMethods) (fp : FlightPlan)
    (argc : Nat) (args : Nat → naRef) (h : argc > 1 ∧ naIsNum (args 1) = true) :
    f_flightplan_insertWPAfter R (.ghost (.flightplan fp)) argc args
      = (.ok (ghostForLeg (R.insertWayptAtIndex fp (wayptGhost (args 0))
            (static_cast_int (args 1).num + 1)).1),
         some (R.insertWayptAtIndex fp (wayptGhost (args 0))
            (static_cast_int (args 1).num + 1)).2) := by
  simp [f_flightplan_insertWPAfter, flightplanGhost, h.1, h.2]

/-- C14, the code at the failing input. On the plan SPY, PAM, with the methods as the
specification describes them, `insertWPAfter(TULIP)` without index puts TULIP in front of
the plan (TULIP, SPY, PAM, the new leg has the index 0), whereas appending, which is what
`insertWayptAtIndex(TULIP, -1)` does, gives SPY, PAM, TULIP. -/
theorem insertWPAfter_default_is_not_append :
    f_flightplan_insertWPAfter specRouteMethods (.ghost (.flightplan planSpyPam)) 1
        (argsOf [.ghost (.waypoint wptTULIP)])
      = (.ok (.ghost (.leg { owner := 2, index := 0, waypoint := wptTULIP })),
         some { planSpyPam with
           legs := [{ owner := 2, index := 0, waypoint := wptTULIP },
                    { owner := 2, index := 1, waypoint := wptSPY },
                    { owner := 2, index := 2, waypoint := wptPAM }] }) ∧
    (specRouteMethods.insertWayptAtIndex planSpyPam (some wptTULIP) (-1)).2
      = { planSpyPam with
           legs := [{ owner := 2, index := 0, waypoint := wptSPY },
                    { owner := 2, index := 1, waypoint := wptPAM },
                    { owner := 2, index := 2, waypoint := wptTULIP }] } := by
  refine ⟨?_, by decide⟩
  rw [insertWPAfter_without_index _ _ _ _ (by decide)]
  have h : specRouteMethods.insertWayptAtIndex planSpyPam
      (wayptGhost (argsOf [.ghost (.waypoint wptTULIP)] 0)) 0
      = (some { owner := 2, index := 0, waypoint := wptTULIP },
         { planSpyPam with
           legs := [{ owner := 2, index := 0, waypoint := wptTULIP },
                    { owner := 2, index := 1, waypoint := wptSPY },
                    { owner := 2, index := 2, waypoint := wptPAM }] }) := by decide
  rw [h]
  rfl

/-- C15. `flightplan.insertWaypoints(vec, i)` on a vector makes one call
`insertWayptsAtIndex(wps, index)`, where `wps` holds, in their order, the elements of the
vector that are waypoint or leg ghosts, and `index` is the integer of `i` when a second
argument is present and is a number, and -1 otherwise; the result is nil.  On nil no method
is called and the result is nil.  So whatever counts notifications counts at most one more
after the call, if one call of `insertWayptsAtIndex` adds at most one. -/
theorem insertWaypoints_single_call (R : FlightPlanRouteMethods) (fp : FlightPlan)
    (argc : Nat) (args : Nat → naRef) :
    let r := f_flightplan_insertWaypoints R (.ghost (.flightplan fp)) argc args
    let index : Int :=
      if (argc > 1) ∧ naIsNum (args 1) = true then static_cast_int (args 1).num else -1
    (∀ elems, args 0 = .vector elems →
      r = (.ok naNil,
        some (R.insertWayptsAtIndex fp ((elems.filterMap wayptGhost).map some) index))) ∧
    (naIsNil (args 0) = true → r = (.ok naNil, some fp)) ∧
    (∀ count : FlightPlan → Nat,
      (∀ p wps i, count (R.insertWayptsAtIndex p wps i) ≤ count p + 1) →
      (naIsNil (args 0) = true ∨ naIsVector (args 0) = true) →
      ∃ after, r.2 = some after ∧ count after ≤ count fp + 1) := by
  intro r index
  have hv : ∀ elems, args 0 = .vector elems →
      r = (.ok naNil,
        some (R.insertWayptsAtIndex fp ((elems.filterMap wayptGhost).map some) index)) := by
    intro elems h
    simp only [r, index, f_flightplan_insertWaypoints, flightplanGhost, h, naIsNil,
      collectWaypts_eq]
    simp
  have hn : naIsNil (args 0) = true → r = (.ok naNil, some fp) := by
    intro h
    simp [r, f_flightplan_insertWaypoints, flightplanGhost, h]
  refine ⟨hv, hn, ?_⟩
  intro count hc h
  rcases h with h | h
  · exact ⟨fp, by rw [hn h], by omega⟩
  · cases ha : args 0 <;> simp [ha, naIsVector] at h
    rename_i elems
    exact ⟨_, by rw [hv elems ha], hc _ _ _⟩

/-- Witness of C15: on the plan SPY, PAM, with the methods as the specification describes
them, inserting the vector (TULIP, 7, TULIP) at 1 skips the number and gives the plan SPY,
TULIP, TULIP, PAM. -/
theorem insertWaypoints_single_call_witness :
    f_flightplan_insertWaypoints specRouteMethods (.ghost (.flightplan planSpyPam)) 2
        (argsOf [.vector [.ghost (.waypoint wptTULIP), naNum (Dbl.ofInt 7),
                          .ghost (.waypoint wptTULIP)], naNum (Dbl.ofInt 1)])
      = (.ok naNil,
         some (specInsertWayptsAtIndex planSpyPam [some wptTULIP, some wptTULIP] 1)) ∧
    (specInsertWayptsAtIndex planSpyPam [some wptTULIP, some wptTULIP] 1).legs.map
        (fun l => (l.index, l.waypoint.ident))
      = [(0, "SPY"), (1, "TULIP"), (2, "TULIP"), (3, "PAM")] :=
  ⟨(insertWaypoints_single_call specRouteMethods planSpyPam 2
      (argsOf [.vector [.ghost (.waypoint wptTULIP), naNum (Dbl.ofInt 7),
                        .ghost (.waypoint wptTULIP)], naNum (Dbl.ofInt 1)])).1 _ rfl,
   by decide⟩

/-- C16. `flightplan.deleteWP(i)` with a number as first argument calls `deleteIndex` with
the integer of `i`, whatever that integer is, raises no script error and returns nil; every
`int` is forwarded as it is.  A script error is raised if and only if the argument is
missing or not a number, and then no method is called. -/
theorem deleteWP_forwards_index (R : FlightPlanRouteMethods) (fp : FlightPlan) (argc : Nat)
    (args : Nat → naRef) :
    let r := f_flightplan_deleteWP R (.ghost (.flightplan fp)) argc args
    (argc ≥ 1 → naIsNum (args 0) = true →
      r = (.ok naNil, some (R.deleteIndex fp (static_cast_int (args 0).num)))) ∧
    (∀ i : Int, INT_MIN ≤ i → i ≤ INT_MAX → argc ≥ 1 → args 0 = naNum (Dbl.ofInt i) →
      r = (.ok naNil, some (R.deleteIndex fp i))) ∧
    (r.1.isError = true ↔ (argc < 1 ∨ naIsNum (args 0) = false)) ∧
    ((argc < 1 ∨ naIsNum (args 0) = false) →
      r = (.error "bad argument to flightplan.deleteWP", some fp)) := by
  intro r
  have h1 : argc ≥ 1 → naIsNum (args 0) = true →
      r = (.ok naNil, some (R.deleteIndex fp (static_cast_int (args 0).num))) := by
    intro hc hn
    have hc' : ¬ argc < 1 := by omega
    simp [r, f_flightplan_deleteWP, flightplanGhost, hc', hn]
  have h2 : (argc < 1 ∨ naIsNum (args 0) = false) →
      r = (.error "bad argument to flightplan.deleteWP", some fp) := by
    intro h
    have h' : (argc < 1) ∨ (!naIsNum (args 0)) = true := by
      rcases h with h | h
      · exact Or.inl h
      · exact Or.inr (by simp [h])
    simp only [r, f_flightplan_deleteWP, flightplanGhost]
    rw [if_pos h']
  refine ⟨h1, ?_, ?_, h2⟩
  · intro i hlo hhi hc ha
    have hn : naIsNum (args 0) = true := by rw [ha]; rfl
    rw [h1 hc hn, ha, static_cast_int_naNum i hlo hhi]
  · by_cases h : argc < 1 ∨ naIsNum (args 0) = false
    · rw [h2 h]; exact ⟨fun _ => h, fun _ => rfl⟩
    · have hc : argc ≥ 1 := by
        by_contra hc; exact h (Or.inl (by omega))
      have hn : naIsNum (args 0) = true := by
        cases hb : naIsNum (args 0)
        · exact absurd (Or.inr hb) h
        · rfl
      rw [h1 hc hn]
      exact ⟨fun hf => by simp [Outcome.isError] at hf, fun hf => absurd hf h⟩

/-- Witness of C16: on the plan SPY, PAM, with the methods as the specification describes
them, `deleteWP(5)` and `deleteWP(-3)` return nil and leave the plan as it was. -/
theorem deleteWP_forwards_index_witness :
    f_flightplan_deleteWP specRouteMethods (.ghost (.flightplan planSpyPam)) 1
        (argsOf [naNum (Dbl.ofInt 5)]) = (.ok naNil, some planSpyPam) ∧
    f_flightplan_deleteWP specRouteMethods (.ghost (.flightplan planSpyPam)) 1
        (argsOf [naNum (Dbl.ofInt (-3))]) = (.ok naNil, some planSpyPam) :=
  ⟨(deleteWP_forwards_index specRouteMethods planSpyPam 1
      (argsOf [naNum (Dbl.ofInt 5)])).2.1 5 (by decide) (by decide) (by decide) rfl,
   (deleteWP_forwards_index specRouteMethods planSpyPam 1
      (argsOf [naNum (Dbl.ofInt (-3))])).2.1 (-3) (by decide) (by decide) (by decide) rfl⟩

/-- C17. `flightplan.indexOfWP(x)`: for a directory entity (an airport, navaid, runway or
fix ghost) it returns `findWayptIndex(entity)`; for a leg of this plan it returns the leg's
index, and for a leg of another plan it raises a script error; for any other argument it
returns `findWayptIndex(position)` if `geodFromArgs` reads a position from the arguments and
-1 if it does not.  The positions read are: the position of a waypoint ghost, the position
of a taxiway ghost, the degrees of a hash with the numbers `lat` and `lon`, and the degrees
of two numbers, latitude first.  Nil, a string, a function, a vector and a single number are
no position and give -1.  The leg of another plan is the only case of a script error. -/
theorem indexOfWp_cases (R : FlightPlanRouteMethods) (tonum : String → Option Dbl)
    (isGeoCoordClass : naRef → Bool) (fp : FlightPlan) (argc : Nat) (args : Nat → naRef) :
    let r := f_flightplan_indexOfWp R tonum isGeoCoordClass (.ghost (.flightplan fp)) argc args
    (∀ pos, positionedGhost (args 0) = some pos →
      r = .ok (naNum (Dbl.ofInt (R.findWayptIndex_entity fp pos)))) ∧
    (∀ leg, fpLegGhost (args 0) = some leg →
      (leg.owner = fp.guid → r = .ok (naNum (Dbl.ofInt leg.index))) ∧
      (leg.owner ≠ fp.guid →
        r = .error "flightplan.indexOfWP called on leg from different flightplan")) ∧
    (positionedGhost (args 0) = none → fpLegGhost (args 0) = none →
      let g := geodFromArgs tonum isGeoCoordClass args 0 argc SGGeod.zero
      (g.1 > 0 → r = .ok (naNum (Dbl.ofInt (R.findWayptIndex_position fp g.2)))) ∧
      (g.1 = 0 → r = .ok (naNum (Dbl.ofInt (-1))))) ∧
    (r.isError = true ↔ ∃ leg, fpLegGhost (args 0) = some leg ∧ leg.owner ≠ fp.guid) ∧
    (∀ pos : FGPositioned,
      (args 0 = naRef.ghost (Ghost.airport pos) ∨ args 0 = naRef.ghost (Ghost.navaid pos) ∨
        args 0 = naRef.ghost (Ghost.runway pos) ∨ args 0 = naRef.ghost (Ghost.fix pos)) →
      r = .ok (naRef.number (Dbl.ofInt (R.findWayptIndex_entity fp pos)))) ∧
    (∀ leg : Leg, args 0 = naRef.ghost (Ghost.leg leg) →
      (leg.owner = fp.guid → r = .ok (naRef.number (Dbl.ofInt leg.index))) ∧
      (leg.owner ≠ fp.guid →
        r = .error "flightplan.indexOfWP called on leg from different flightplan")) ∧
    (argc ≥ 1 → ∀ w : Waypt, args 0 = naRef.ghost (Ghost.waypoint w) →
      r = .ok (naRef.number (Dbl.ofInt (R.findWayptIndex_position fp w.position)))) ∧
    (argc ≥ 1 → ∀ taxi : FGPositioned, args 0 = naRef.ghost (Ghost.taxiway taxi) →
      r = .ok (naRef.number (Dbl.ofInt (R.findWayptIndex_position fp taxi.geod)))) ∧
    (argc ≥ 1 → ∀ (members : List (String × naRef)) (lat lon : Dbl),
      args 0 = naRef.hash members → members.lookup "lat" = some (naRef.number lat) →
      members.lookup "lon" = some (naRef.number lon) →
      r = .ok (naRef.number
        (Dbl.ofInt (R.findWayptIndex_position fp (SGGeod.fromDeg lon lat))))) ∧
    (argc ≥ 2 → ∀ lat lon : Dbl, args 0 = naRef.number lat → args 1 = naRef.number lon →
      r = .ok (naRef.number
        (Dbl.ofInt (R.findWayptIndex_position fp (SGGeod.fromDeg lon lat))))) ∧
    ((args 0 = naRef.nil ∨ (∃ s, args 0 = naRef.string s) ∨ (∃ code, args 0 = naRef.func code) ∨
        (∃ elems, args 0 = naRef.vector elems) ∨ (argc ≤ 1 ∧ ∃ d, args 0 = naRef.number d)) →
      r = .ok (naRef.number (Dbl.ofInt (-1)))) := by
  intro r
  have hleg : ∀ leg, fpLegGhost (args 0) = some leg → positionedGhost (args 0) = none := by
    intro leg h
    cases ha : args 0 <;> simp_all [fpLegGhost, positionedGhost]
    rename_i g; cases g <;> simp_all
  have h1 : ∀ pos, positionedGhost (args 0) = some pos →
      r = .ok (naNum (Dbl.ofInt (R.findWayptIndex_entity fp pos))) := by
    intro pos h
    simp [r, f_flightplan_indexOfWp, flightplanGhost, h]
  have h2 : ∀ leg, fpLegGhost (args 0) = some leg →
      (leg.owner = fp.guid → r = .ok (naNum (Dbl.ofInt leg.index))) ∧
      (leg.owner ≠ fp.guid →
        r = .error "flightplan.indexOfWP called on leg from different flightplan") := by
    intro leg h
    refine ⟨fun ho => ?_, fun ho => ?_⟩ <;>
      simp [r, f_flightplan_indexOfWp, flightplanGhost, hleg leg h, h, ho]
  have h3 : positionedGhost (args 0) = none → fpLegGhost (args 0) = none →
      let g := geodFromArgs tonum isGeoCoordClass args 0 argc SGGeod.zero
      (g.1 > 0 → r = .ok (naNum (Dbl.ofInt (R.findWayptIndex_position fp g.2)))) ∧
      (g.1 = 0 → r = .ok (naNum (Dbl.ofInt (-1)))) := by
    intro hp hl g
    refine ⟨fun hg => ?_, fun hg => ?_⟩
    · simp only [r, f_flightplan_indexOfWp, flightplanGhost, hp, hl]
      rw [if_pos hg]
    · have hg' : ¬ g.1 > 0 := by omega
      simp only [r, f_flightplan_indexOfWp, flightplanGhost, hp, hl]
      rw [if_neg hg']
  refine ⟨h1, h2, h3, ?_, ?_, ?_, ?_, ?_, ?_, ?_, ?_⟩
  rotate_left
  · intro pos h
    rcases h with h | h | h | h <;> exact h1 pos (by rw [h]; rfl)
  · intro leg h
    exact h2 leg (by rw [h]; rfl)
  · intro hc w h
    have hc' : ¬ argc ≤ 0 := by omega
    simp [r, f_flightplan_indexOfWp, flightplanGhost, positionedGhost, fpLegGhost,
      geodFromArgs, h, hc', naNum]
  · intro hc taxi h
    have hc' : ¬ argc ≤ 0 := by omega
    simp [r, f_flightplan_indexOfWp, flightplanGhost, positionedGhost, fpLegGhost,
      geodFromArgs, h, hc', naNum]
  · intro hc members lat lon h hlat hlon
    have hc' : ¬ argc ≤ 0 := by omega
    simp [r, f_flightplan_indexOfWp, flightplanGhost, positionedGhost, fpLegGhost,
      geodFromArgs, geodFromHash, naIsHash, naHash_cget, naIsNum, naNumValue, naRef.num,
      h, hlat, hlon, hc', naNum]
  · intro hc lat lon h0 h1'
    have hc' : ¬ argc ≤ 0 := by omega
    have hc2 : (2 : Int) ≤ (argc : Int) := by omega
    simp [r, f_flightplan_indexOfWp, flightplanGhost, positionedGhost, fpLegGhost,
      geodFromArgs, geodFromHash, naIsHash, naIsNum, naNumValue, naRef.num,
      h0, h1', hc', hc2, naNum]
  · intro h
    rcases h with h | ⟨s, h⟩ | ⟨code, h⟩ | ⟨elems, h⟩ | ⟨hc, d, h⟩
    · by_cases hc' : argc ≤ 0 <;>
        simp [r, f_flightplan_indexOfWp, flightplanGhost, positionedGhost, fpLegGhost,
          geodFromArgs, geodFromHash, naIsHash, naIsNum, h, hc', naNum]
    · by_cases hc' : argc ≤ 0 <;>
        simp [r, f_flightplan_indexOfWp, flightplanGhost, positionedGhost, fpLegGhost,
          geodFromArgs, geodFromHash, naIsHash, naIsNum, h, hc', naNum]
    · by_cases hc' : argc ≤ 0 <;>
        simp [r, f_flightplan_indexOfWp, flightplanGhost, positionedGhost, fpLegGhost,
          geodFromArgs, geodFromHash, naIsHash, naIsNum, h, hc', naNum]
    · by_cases hc' : argc ≤ 0 <;>
        simp [r, f_flightplan_indexOfWp, flightplanGhost, positionedGhost, fpLegGhost,
          geodFromArgs, geodFromHash, naIsHash, naIsNum, h, hc', naNum]
    · have hc2 : ¬ (2 : Int) ≤ (argc : Int) := by omega
      by_cases hc' : argc ≤ 0 <;>
        simp [r, f_flightplan_indexOfWp, flightplanGhost, positionedGhost, fpLegGhost,
          geodFromArgs, geodFromHash, naIsHash, naIsNum, h, hc', hc2, naNum]
  constructor
  · intro he
    cases hp : positionedGhost (args 0) with
    | some pos => rw [h1 pos hp] at he; simp [Outcome.isError] at he
    | none =>
      cases hl : fpLegGhost (args 0) with
      | some leg =>
        refine ⟨leg, rfl, fun ho => ?_⟩
        rw [(h2 leg hl).1 ho] at he
        simp [Outcome.isError] at he
      | none =>
        have h := h3 hp hl
        by_cases hg : (geodFromArgs tonum isGeoCoordClass args 0 argc SGGeod.zero).1 > 0
        · rw [h.1 hg] at he; simp [Outcome.isError] at he
        · rw [h.2 (by omega)] at he; simp [Outcome.isError] at he
  · rintro ⟨leg, hl, ho⟩
    rw [(h2 leg hl).2 ho]
    rfl

/-- Witness of C17: on the plan SPY, PAM, with the methods as the specification describes
them, the navaid PAM has the index 1, a leg of another plan raises the script error, and a
string gives -1.  On the plan whose second waypoint lies at 52 north, 4 east, the two numbers
52 and 4, the hash with `lat` 52 and `lon` 4, and a ghost of a waypoint at that position
have the index 1, and the numbers 4 and 52, which no waypoint lies at, give -1. -/
theorem indexOfWp_cases_witness :
    f_flightplan_indexOfWp specRouteMethods sampleTonum (fun _ => false)
        (.ghost (.flightplan planSpyPam)) 1 (argsOf [.ghost (.navaid navPAM)])
      = .ok (.number (Dbl.ofInt 1)) ∧
    f_flightplan_indexOfWp specRouteMethods sampleTonum (fun _ => false)
        (.ghost (.flightplan planSpyPam)) 1 (argsOf [.ghost (.leg { owner := 1, index := 0 })])
      = .error "flightplan.indexOfWP called on leg from different flightplan" ∧
    f_flightplan_indexOfWp specRouteMethods sampleTonum (fun _ => false)
        (.ghost (.flightplan planSpyPam)) 1 (argsOf [.string "PAM"])
      = .ok (.number (Dbl.ofInt (-1))) ∧
    f_flightplan_indexOfWp specRouteMethods sampleTonum (fun _ => false)
        (.ghost (.flightplan planSpyN52E4)) 2
        (argsOf [.number (Dbl.ofInt 52), .number (Dbl.ofInt 4)])
      = .ok (.number (Dbl.ofInt 1)) ∧
    f_flightplan_indexOfWp specRouteMethods sampleTonum (fun _ => false)
        (.ghost (.flightplan planSpyN52E4)) 1
        (argsOf [.hash [("lat", .number (Dbl.ofInt 52)), ("lon", .number (Dbl.ofInt 4))]])
      = .ok (.number (Dbl.ofInt 1)) ∧
    f_flightplan_indexOfWp specRouteMethods sampleTonum (fun _ => false)
        (.ghost (.flightplan planSpyN52E4)) 1 (argsOf [.ghost (.waypoint wptN52E4)])
      = .ok (.number (Dbl.ofInt 1)) ∧
    f_flightplan_indexOfWp specRouteMethods sampleTonum (fun _ => false)
        (.ghost (.flightplan planSpyN52E4)) 2
        (argsOf [.number (Dbl.ofInt 4), .number (Dbl.ofInt 52)])
      = .ok (.number (Dbl.ofInt (-1))) :=
  ⟨(indexOfWp_cases specRouteMethods sampleTonum (fun _ => false) planSpyPam 1
      (argsOf [.ghost (.navaid navPAM)])).1 navPAM rfl,
   ((indexOfWp_cases specRouteMethods sampleTonum (fun _ => false) planSpyPam 1
      (argsOf [.ghost (.leg { owner := 1, index := 0 })])).2.1 { owner := 1, index := 0 }
      rfl).2 (by decide),
   ((indexOfWp_cases specRouteMethods sampleTonum (fun _ => false) planSpyPam 1
      (argsOf [.string "PAM"])).2.2.1 rfl rfl).2 (by decide),
   (indexOfWp_cases specRouteMethods sampleTonum (fun _ => false) planSpyN52E4 2
      (argsOf [.number (Dbl.ofInt 52), .number (Dbl.ofInt 4)])).2.2.2.2.2.2.2.2.2.1
      (by decide) (Dbl.ofInt 52) (Dbl.ofInt 4) rfl rfl,
   (indexOfWp_cases specRouteMethods sampleTonum (fun _ => false) planSpyN52E4 1
      (argsOf [.hash [("lat", .number (Dbl.ofInt 52)), ("lon", .number (Dbl.ofInt 4))]])
      ).2.2.2.2.2.2.2.2.1 (by decide) _ (Dbl.ofInt 52) (Dbl.ofInt 4) rfl rfl rfl,
   (indexOfWp_cases specRouteMethods sampleTonum (fun _ => false) planSpyN52E4 1
      (argsOf [.ghost (.waypoint wptN52E4)])).2.2.2.2.2.2.1 (by decide) wptN52E4 rfl,
   (indexOfWp_cases specRouteMethods sampleTonum (fun _ => false) planSpyN52E4 2
      (argsOf [.number (Dbl.ofInt 4), .number (Dbl.ofInt 52)])).2.2.2.2.2.2.2.2.2.1
      (by decide) (Dbl.ofInt 4) (Dbl.ofInt 52) rfl rfl⟩

/-- A renumbered leg sequence carries at every position a leg with that position as
index. -/
theorem renumberLegs_index (legs : List Leg) (k : Nat) (leg : Leg)
    (h : (renumberLegs legs)[k]? = some leg) : leg.index = (k : Int) := by
  simp only [renumberLegs, List.getElem?_map, List.getElem?_enum] at h
  cases hk : legs[k]? with
  | none => simp [hk] at h
  | some l =>
    simp [hk] at h
    rw [← h]

/-- Each mutation of the leg sequence, as the specification describes it, keeps the
invariant that the index of a leg is its position. -/
theorem RouteEdit.apply_legsIndexed (fp : FlightPlan) (e : RouteEdit)
    (h : fp.legsIndexed) : (RouteEdit.apply specRouteMethods fp e).legsIndexed := by
  cases e with
  | insertWaypts wps index =>
    intro k leg hk
    exact renumberLegs_index _ k leg hk
  | insertWaypt wpt index =>
    cases wpt with
    | none => exact h
    | some w =>
      intro k leg hk
      exact renumberLegs_index _ k leg hk
  | deleteIndex index =>
    by_cases hr : index < 0 ∨ index ≥ fp.numLegs
    · simpa [RouteEdit.apply, specRouteMethods, specDeleteIndex, hr] using h
    · intro k leg hk
      simp only [RouteEdit.apply, specRouteMethods, specDeleteIndex, hr, if_false] at hk
      exact renumberLegs_index _ k leg hk

/-- After every sequence of insertions and deletions, as the specification describes them,
on a plan that had no legs, the index of every leg is its position. -/
theorem applyEdits_legsIndexed (fp0 : FlightPlan) (edits : List RouteEdit)
    (h0 : fp0.legs = []) : (applyEdits specRouteMethods fp0 edits).legsIndexed := by
  have hgen : ∀ (es : List RouteEdit) (fp : FlightPlan), fp.legsIndexed →
      (applyEdits specRouteMethods fp es).legsIndexed := by
    intro es
    induction es with
    | nil => intro fp h; exact h
    | cons e es ih =>
      intro fp h
      exact ih _ (RouteEdit.apply_legsIndexed fp e h)
  apply hgen
  intro k leg hk
  simp [h0] at hk

/-- C18. `flightplan.getWP(i)`, with `i` the integer of the argument, or `currentIndex`
when there is no argument: the result is nil if and only if `i < 0` or `i ≥ numLegs`; for a
valid `i` it is the leg at position `i`.  On a plan made from a plan without legs by any
sequence of the insertions and deletions the specification describes, which renumber the
legs, the member `index` of that leg reads `i`.  Without argument and with `currentIndex`
-1 the result is nil. -/
theorem getWP_result (tonum : String → Option Dbl) (LQ : LegQueries) (Q : WayptQueries)
    (fpLegPrototype : naRef) (fp : FlightPlan) (argc : Nat) (args : Nat → naRef) :
    let i : Int :=
      if argc = 0 then fp.currentIndex else static_cast_int (naNumValue tonum (args 0)).num
    let r := f_flightplan_getWP tonum (.ghost (.flightplan fp)) argc args
    (r = .ok naRef.nil ↔ (i < 0 ∨ i ≥ fp.numLegs)) ∧
    (0 ≤ i → i < fp.numLegs →
      ∃ leg, fp.legs[i.toNat]? = some leg ∧ r = .ok (naRef.ghost (Ghost.leg leg)) ∧
        ((∃ (fp0 : FlightPlan) (edits : List RouteEdit),
            fp0.legs = [] ∧ fp = applyEdits specRouteMethods fp0 edits) →
          legGhostGetMember LQ Q fpLegPrototype leg "index"
            = some (naRef.number (Dbl.ofInt i)))) ∧
    (argc = 0 → fp.currentIndex = -1 → r = .ok naRef.nil) := by
  intro i r
  have hr : r = if (i < 0) ∨ (i ≥ fp.numLegs) then .ok naNil
      else .ok (ghostForLeg (fp.legAtIndex i)) := by
    simp [r, i, f_flightplan_getWP, flightplanGhost]
  have hvalid : 0 ≤ i → i < fp.numLegs →
      ∃ leg, fp.legs[i.toNat]? = some leg ∧ r = .ok (.ghost (.leg leg)) := by
    intro h0 h1
    have hlt : i.toNat < fp.legs.length := by
      simp only [FlightPlan.numLegs] at h1
      omega
    refine ⟨fp.legs[i.toNat], List.getElem?_eq_getElem hlt, ?_⟩
    have hn : ¬ ((i < 0) ∨ (i ≥ fp.numLegs)) := by omega
    have h0' : ¬ i < 0 := by omega
    rw [hr, if_neg hn]
    simp [FlightPlan.legAtIndex, h0', List.getElem?_eq_getElem hlt, ghostForLeg]
  refine ⟨?_, ?_, ?_⟩
  · constructor
    · intro hnil
      by_contra hn
      have h0 : 0 ≤ i := by omega
      have h1 : i < fp.numLegs := by omega
      obtain ⟨leg, -, hl⟩ := hvalid h0 h1
      rw [hl] at hnil
      simp at hnil
    · intro h
      rw [hr, if_pos h]
      rfl
  · intro h0 h1
    obtain ⟨leg, hl, hrl⟩ := hvalid h0 h1
    refine ⟨leg, hl, hrl, ?_⟩
    rintro ⟨fp0, edits, hfp0, hfp⟩
    have hidx : fp.legsIndexed := by
      rw [hfp]
      exact applyEdits_legsIndexed fp0 edits hfp0
    have := hidx i.toNat leg hl
    simp only [legGhostGetMember]
    simp [this, Int.toNat_of_nonneg h0, naNum]
  · intro hc hci
    have h : (i < 0) ∨ (i ≥ fp.numLegs) := by
      left
      simp only [i, hc, if_true, hci]
      decide
    rw [hr, if_pos h]
    rfl

/-- Witness of C18: the plan made of an empty plan by appending SPY and PAM, inserting TULIP
at index 1 and deleting index 0 has the legs TULIP, PAM; the leg that `getWP(1)` returns is
the leg PAM, and its member `index` reads 1; `getWP(2)` and `getWP()`, with `currentIndex`
-1, return nil. -/
theorem getWP_result_witness :
    (applyEdits specRouteMethods { guid := 2 }
        [.insertWaypts [some wptSPY, some wptPAM] (-1), .insertWaypt (some wptTULIP) 1,
          .deleteIndex 0]).legs
      = [{ owner := 2, index := 0, waypoint := wptTULIP },
          { owner := 2, index := 1, waypoint := wptPAM }] ∧
    f_flightplan_getWP sampleTonum
        (.ghost (.flightplan (applyEdits specRouteMethods { guid := 2 }
          [.insertWaypts [some wptSPY, some wptPAM] (-1), .insertWaypt (some wptTULIP) 1,
            .deleteIndex 0])))
        1 (argsOf [.number (Dbl.ofInt 1)])
      = .ok (.ghost (.leg { owner := 2, index := 1, waypoint := wptPAM })) ∧
    legGhostGetMember sampleLegQueries sampleWayptQueries naNil
        { owner := 2, index := 1, waypoint := wptPAM } "index"
      = some (.number (Dbl.ofInt 1)) ∧
    f_flightplan_getWP sampleTonum
        (.ghost (.flightplan (applyEdits specRouteMethods { guid := 2 }
          [.insertWaypts [some wptSPY, some wptPAM] (-1), .insertWaypt (some wptTULIP) 1,
            .deleteIndex 0])))
        1 (argsOf [.number (Dbl.ofInt 2)])
      = .ok .nil ∧
    f_flightplan_getWP sampleTonum
        (.ghost (.flightplan (applyEdits specRouteMethods { guid := 2 }
          [.insertWaypts [some wptSPY, some wptPAM] (-1), .insertWaypt (some wptTULIP) 1,
            .deleteIndex 0])))
        0 (argsOf [])
      = .ok .nil := by
  obtain ⟨leg, hl, hr, hi⟩ :=
    (getWP_result sampleTonum sampleLegQueries sampleWayptQueries naNil
      (applyEdits specRouteMethods { guid := 2 }
        [.insertWaypts [some wptSPY, some wptPAM] (-1), .insertWaypt (some wptTULIP) 1,
          .deleteIndex 0])
      1 (argsOf [.number (Dbl.ofInt 1)])).2.1 (by decide) (by decide)
  have hleg : leg = { owner := 2, index := 1, waypoint := wptPAM } := by
    have h2 : (applyEdits specRouteMethods { guid := 2 }
        [.insertWaypts [some wptSPY, some wptPAM] (-1), .insertWaypt (some wptTULIP) 1,
          .deleteIndex 0]).legs[(static_cast_int
        (naNumValue sampleTonum (argsOf [.number (Dbl.ofInt 1)] 0)).num).toNat]?
        = some { owner := 2, index := 1, waypoint := wptPAM } := by decide
    exact (Option.some.inj (h2.symm.trans hl)).symm
  subst hleg
  exact ⟨by decide, hr, hi ⟨{ guid := 2 }, _, rfl, rfl⟩,
    (getWP_result sampleTonum sampleLegQueries sampleWayptQueries naNil
      (applyEdits specRouteMethods { guid := 2 }
        [.insertWaypts [some wptSPY, some wptPAM] (-1), .insertWaypt (some wptTULIP) 1,
          .deleteIndex 0])
      1 (argsOf [.number (Dbl.ofInt 2)])).1.2 (by decide),
    (getWP_result sampleTonum sampleLegQueries sampleWayptQueries naNil
      (applyEdits specRouteMethods { guid := 2 }
        [.insertWaypts [some wptSPY, some wptPAM] (-1), .insertWaypt (some wptTULIP) 1,
          .deleteIndex 0])
      0 (argsOf [])).2.2 rfl (by decide)⟩

/-- C19. Reading `speed_cstr` of a leg gives the leg's Mach value when the kind of its
speed restriction is Mach or ComputedMach and its value in knots for every other kind, None
included; reading `speed_cstr_type` gives the name of that same kind: "mach" and
"computed-mach" for the two kinds read in Mach, nil for None, "at", "above", "below",
"computed" and "delete" for the others.  So `speed_cstr` is the Mach value exactly when
`speed_cstr_type` reads "mach" or "computed-mach". -/
theorem speed_cstr_unit (LQ : LegQueries) (Q : WayptQueries) (fpLegPrototype : naRef)
    (leg : Leg) :
    let value := legGhostGetMember LQ Q fpLegPrototype leg "speed_cstr"
    let kind := legGhostGetMember LQ Q fpLegPrototype leg "speed_cstr_type"
    (leg.speedRestriction = SPEED_RESTRICT_MACH →
      value = some (naRef.number (LQ.speedMach leg)) ∧ kind = some (naRef.string "mach")) ∧
    (leg.speedRestriction = SPEED_COMPUTED_MACH →
      value = some (naRef.number (LQ.speedMach leg)) ∧
        kind = some (naRef.string "computed-mach")) ∧
    (leg.speedRestriction = RESTRICT_NONE →
      value = some (naRef.number (LQ.speedKts leg)) ∧ kind = some naRef.nil) ∧
    (leg.speedRestriction = RESTRICT_AT →
      value = some (naRef.number (LQ.speedKts leg)) ∧ kind = some (naRef.string "at")) ∧
    (leg.speedRestriction = RESTRICT_ABOVE →
      value = some (naRef.number (LQ.speedKts leg)) ∧ kind = some (naRef.string "above")) ∧
    (leg.speedRestriction = RESTRICT_BELOW →
      value = some (naRef.number (LQ.speedKts leg)) ∧ kind = some (naRef.string "below")) ∧
    (leg.speedRestriction = RESTRICT_COMPUTED →
      value = some (naRef.number (LQ.speedKts leg)) ∧
        kind = some (naRef.string "computed")) ∧
    (leg.speedRestriction = RESTRICT_DELETE →
      value = some (naRef.number (LQ.speedKts leg)) ∧ kind = some (naRef.string "delete")) ∧
    ((kind = some (naRef.string "mach") ∨ kind = some (naRef.string "computed-mach")) →
      value = some (naRef.number (LQ.speedMach leg))) ∧
    (¬ (kind = some (naRef.string "mach") ∨ kind = some (naRef.string "computed-mach")) →
      value = some (naRef.number (LQ.speedKts leg))) := by
  intro value kind
  cases hs : leg.speedRestriction <;>
    simp [value, kind, legGhostGetMember, hs, isMachRestrict, routeRestrictionToNasal,
      stringToNasal, naNum, naNil]

/-- Witness of C19: a leg with the restriction kind Mach reads its Mach value 3/4 and the
type "mach"; a leg with the kind At reads its value 250 in knots and the type "at"; and a
leg that reads the type nil reads its value in knots. -/
theorem speed_cstr_unit_witness :
    (legGhostGetMember sampleLegQueries sampleWayptQueries naNil
        { speedRestriction := SPEED_RESTRICT_MACH } "speed_cstr"
      = some (.number (.finite 3 (-2))) ∧
    legGhostGetMember sampleLegQueries sampleWayptQueries naNil
        { speedRestriction := SPEED_RESTRICT_MACH } "speed_cstr_type"
      = some (.string "mach")) ∧
    (legGhostGetMember sampleLegQueries sampleWayptQueries naNil
        { speedRestriction := RESTRICT_AT } "speed_cstr"
      = some (.number (Dbl.ofInt 250)) ∧
    legGhostGetMember sampleLegQueries sampleWayptQueries naNil
        { speedRestriction := RESTRICT_AT } "speed_cstr_type"
      = some (.string "at")) ∧
    legGhostGetMember sampleLegQueries sampleWayptQueries naNil {} "speed_cstr"
      = some (.number (Dbl.ofInt 250)) :=
  ⟨(speed_cstr_unit sampleLegQueries sampleWayptQueries naNil
      { speedRestriction := SPEED_RESTRICT_MACH }).1 rfl,
   (speed_cstr_unit sampleLegQueries sampleWayptQueries naNil
      { speedRestriction := RESTRICT_AT }).2.2.2.1 rfl,
   (speed_cstr_unit sampleLegQueries sampleWayptQueries naNil {}).2.2.2.2.2.2.2.2.2
      (by
        intro h
        rcases h with h | h <;> exact naRef.noConfusion (Option.some.inj h))⟩

/-- C20, counterexample. With a `setFlag` that changes the named flag only, a waypoint
without owner that carries the flag Departure carries both Arrival and Departure after
`wp_role = "star"` was assigned, and reads `wp_role` as "sid", not as "star": the binding
calls `setFlag(WPT_ARRIVAL, true)` and clears no flag itself.  A waypoint that carries the
flag Pseudo reads "pseudo" after `wp_role = "sid"`, since `wayptFlagToNasal` tests Pseudo
first. -/
theorem wp_role_star_keeps_departure :
    (waypointGhostSetMember specWayptMethods { flags := [WPT_DEPARTURE] } "wp_role"
        (.string "star")).1.isOk = true ∧
    (waypointGhostSetMember specWayptMethods { flags := [WPT_DEPARTURE] } "wp_role"
        (.string "star")).2.flags = [WPT_ARRIVAL, WPT_DEPARTURE] ∧
    wayptGhostGetMember sampleWayptQueries
        (waypointGhostSetMember specWayptMethods { flags := [WPT_DEPARTURE] } "wp_role"
          (.string "star")).2 "wp_role"
      = some (.string "sid") ∧
    (waypointGhostSetMember specWayptMethods { flags := [WPT_PSEUDO] } "wp_role"
        (.string "sid")).2.flags = [WPT_DEPARTURE, WPT_PSEUDO] ∧
    wayptGhostGetMember sampleWayptQueries
        (waypointGhostSetMember specWayptMethods { flags := [WPT_PSEUDO] } "wp_role"
          (.string "sid")).2 "wp_role"
      = some (.string "pseudo") :=
  ⟨rfl, by decide, rfl, by decide, rfl⟩

/-- C20, amended. Assigning `wp_role` = r, for r one of "sid", "star", "approach",
"missed", to a waypoint without an owner succeeds, and the waypoint afterwards is the result
of the one call `setFlag(f, true)` with f the flag of r (Departure, Arrival, Approach,
Missed): the binding clears no flag itself.  With a `setFlag` that sets the named flag and
changes no other, each of the other three role flags is set afterwards exactly if it was set
before; reading `wp_role` returns r if the waypoint carried neither Pseudo nor one of the
other three role flags, and "pseudo" if it carried Pseudo. -/
theorem wp_role_sets_one_flag (W : WayptMethods) (Q : WayptQueries) (w : Waypt) (r : String)
    (hr : r = "sid" ∨ r = "star" ∨ r = "approach" ∨ r = "missed") (ho : w.owner = none) :
    let f := if r = "sid" then WPT_DEPARTURE else if r = "star" then WPT_ARRIVAL
      else if r = "approach" then WPT_APPROACH else WPT_MISS
    let a := waypointGhostSetMember W w "wp_role" (.string r)
    a = (.ok (), W.setFlag w f true) ∧
    ((∀ g : WayptFlag, g ∈ (W.setFlag w f true).flags ↔ g = f ∨ g ∈ w.flags) →
      (∀ g : WayptFlag, g.isRole = true → g ≠ f → (g ∈ a.2.flags ↔ g ∈ w.flags)) ∧
      ((∀ g : WayptFlag, g.isRole = true → g ≠ f → g ∉ w.flags) → WPT_PSEUDO ∉ w.flags →
        wayptGhostGetMember Q a.2 "wp_role" = some (.string r)) ∧
      (WPT_PSEUDO ∈ w.flags →
        wayptGhostGetMember Q a.2 "wp_role" = some (.string "pseudo"))) := by
  intro f a
  have hf : wayptFlagFromString r = some f := by
    rcases hr with rfl | rfl | rfl | rfl <;> decide
  have ha : a = (.ok (), W.setFlag w f true) := by
    simp [a, waypointGhostSetMember, waypointCommonSetMember, naIsString, ho, naStr_data, hf]
  refine ⟨ha, fun hset => ⟨?_, ?_, ?_⟩⟩
  · intro g _ hne
    rw [ha]
    simp [hset, hne]
  · intro hothers hp
    rw [ha]
    have h1 := hothers WPT_DEPARTURE rfl
    have h2 := hothers WPT_ARRIVAL rfl
    have h3 := hothers WPT_APPROACH rfl
    have h4 := hothers WPT_MISS rfl
    rcases hr with rfl | rfl | rfl | rfl <;>
      simp [f] at h1 h2 h3 h4 hset ⊢ <;>
      simp [wayptGhostGetMember, waypointCommonGetMember, wayptFlagToNasal, hset, hp,
        h1, h2, h3, h4, stringToNasal]
  · intro hp
    rw [ha]
    simp [wayptGhostGetMember, waypointCommonGetMember, wayptFlagToNasal, hset, hp,
      stringToNasal]

/-- Witness of C20, amended: with a `setFlag` that changes the named flag only, a waypoint
that carries Overflight carries Arrival and Overflight after `wp_role = "star"` was assigned
and reads `wp_role` as "star". -/
theorem wp_role_sets_one_flag_witness :
    waypointGhostSetMember specWayptMethods { flags := [WPT_OVERFLIGHT] } "wp_role"
        (.string "star")
      = (.ok (), { flags := [WPT_ARRIVAL, WPT_OVERFLIGHT] }) ∧
    wayptGhostGetMember sampleWayptQueries
        (waypointGhostSetMember specWayptMethods { flags := [WPT_OVERFLIGHT] } "wp_role"
          (.string "star")).2 "wp_role"
      = some (.string "star") :=
  have h := wp_role_sets_one_flag specWayptMethods sampleWayptQueries
    { flags := [WPT_OVERFLIGHT] } "star" (Or.inr (Or.inl rfl)) rfl
  ⟨h.1, (h.2 (by intro g; cases g <;> decide)).2.1
    (by intro g; cases g <;> decide) (by decide)⟩

/-- C22, the code at the failing input. On a flight plan without departure and destination
airport, assigning a string to `sid`, `star` or `approach` calls a member function through
the null airport pointer: the assignment does not complete and no setter is called. -/
theorem procedure_by_name_without_airport :
    planOfTwo.departureAirport = none ∧ planOfTwo.destinationAirport = none ∧
    flightplanGhostSetMember specFlightPlanMethods emptyAirportMethods planOfTwo "sid"
        (.string "BERGI1S")
      = (.fault "member call through a null FGAirport pointer", planOfTwo) ∧
    flightplanGhostSetMember specFlightPlanMethods emptyAirportMethods planOfTwo "star"
        (.string "EEL1A")
      = (.fault "member call through a null FGAirport pointer", planOfTwo) ∧
    flightplanGhostSetMember specFlightPlanMethods emptyAirportMethods planOfTwo "approach"
        (.string "ILS06")
      = (.fault "member call through a null FGAirport pointer", planOfTwo) :=
  ⟨rfl, rfl, rfl, rfl, rfl⟩

/-- With the airport set, assigning a string to `sid`, `star` or `approach` completes: the
transition or procedure found, or a null procedure, is passed to the setter. -/
theorem procedure_by_name_with_airport (M : FlightPlanMethods) (A : AirportMethods)
    (fp : FlightPlan) (s : String) :
    (∀ apt, fp.departureAirport = some apt →
      flightplanGhostSetMember M A fp "sid" (.string s)
        = match A.selectSIDByTransition apt s with
          | some tr => (.ok (), M.setSID_transition fp tr)
          | none => (.ok (), M.setSID fp (A.findSIDWithIdent apt s))) ∧
    (∀ apt, fp.destinationAirport = some apt →
      flightplanGhostSetMember M A fp "star" (.string s)
        = (match A.selectSTARByTransition apt s with
          | some tr => (.ok (), M.setSTAR_transition fp tr)
          | none => (.ok (), M.setSTAR fp (A.findSTARWithIdent apt s))) ∧
      flightplanGhostSetMember M A fp "approach" (.string s)
        = (.ok (), M.setApproach fp (A.findApproachWithIdent apt s))) := by
  refine ⟨?_, ?_⟩
  · intro apt h
    simp [flightplanGhostSetMember, procedureGhost, h]
  · intro apt h
    constructor <;> simp [flightplanGhostSetMember, procedureGhost, h]

/-- On a waypoint that is no Hold, `waypointCommonSetMember` returns false and leaves the
waypoint as it was for every field name other than `wp_role` and `fly_type`. -/
theorem waypointCommonSetMember_unhandled (W : WayptMethods) (wpt : Waypt)
    (fieldName : String) (value : naRef) (h1 : fieldName ≠ "wp_role")
    (h2 : fieldName ≠ "fly_type") (hty : wpt.type ≠ "hold") :
    waypointCommonSetMember W wpt fieldName value = (.ok false, wpt) := by
  simp [waypointCommonSetMember, h1, h2, hty]

/-- C23, the code at the failing input. On a leg whose waypoint is a Hold, assigning a
member that `waypointCommonSetMember` does not handle (here `hold_is_distance`) returns
true with the waypoint as it was, and the leg is marked dirty although nothing of the
waypoint was written. -/
theorem unhandled_member_on_hold_marks_dirty :
    waypointCommonSetMember specWayptMethods holdLeg.waypoint "hold_is_distance"
        (naNum (Dbl.ofInt 1))
      = (.ok true, holdLeg.waypoint) ∧
    legGhostSetMember specLegMethods specWayptMethods holdLeg "hold_is_distance"
        (naNum (Dbl.ofInt 1))
      = (.ok (), { holdLeg with dirty := true }) ∧
    holdLeg.dirty = false := by
  exact ⟨rfl, rfl, rfl⟩

/-- C24. For every procedure type the member `tp_type` is "sid" for a SID, "star" for a STAR,
"IAP" for each of the four approach types and nil for every other type; the member `radio`
is "VOR", "ILS", "RNAV" or "NDB" after the approach type, and it is other than nil if and
only if `tp_type` is "IAP". -/
theorem procedure_type_members (PQ : ProcedureQueries) (procedurePrototype : naRef)
    (proc : Procedure) :
    procedureGhostGetMember PQ procedurePrototype proc "tp_type"
      = some (procedureTpType proc.type) ∧
    procedureGhostGetMember PQ procedurePrototype proc "radio"
      = some (procedureRadioType proc.type) ∧
    procedureTpType PROCEDURE_SID = .string "sid" ∧
    procedureTpType PROCEDURE_STAR = .string "star" ∧
    (∀ ty, Approach.isApproach ty = true → procedureTpType ty = .string "IAP") ∧
    (∀ ty, ty ≠ PROCEDURE_SID → ty ≠ PROCEDURE_STAR → Approach.isApproach ty = false →
      procedureTpType ty = .nil) ∧
    procedureRadioType PROCEDURE_APPROACH_VOR = .string "VOR" ∧
    procedureRadioType PROCEDURE_APPROACH_ILS = .string "ILS" ∧
    procedureRadioType PROCEDURE_APPROACH_RNAV = .string "RNAV" ∧
    procedureRadioType PROCEDURE_APPROACH_NDB = .string "NDB" ∧
    (∀ ty, naIsNil (procedureRadioType ty) = false ↔ procedureTpType ty = .string "IAP") := by
  refine ⟨?_, ?_, rfl, rfl, ?_, ?_, rfl, rfl, rfl, rfl, ?_⟩
  · simp [procedureGhostGetMember]
  · simp [procedureGhostGetMember]
  · intro ty h
    cases ty <;> simp_all [Approach.isApproach, procedureTpType, stringToNasal]
  · intro ty h1 h2 h3
    cases ty <;> simp_all [Approach.isApproach, procedureTpType, naNil]
  · intro ty
    cases ty <;> simp [procedureRadioType, procedureTpType, stringToNasal, naNil, naIsNil]

/-- Witness of C24: an ILS approach reads `tp_type` as "IAP", and a transition reads it as
nil. -/
theorem procedure_type_members_witness :
    procedureTpType approachILS06.type = .string "IAP" ∧
    procedureTpType transRIVER.type = .nil :=
  ⟨(procedure_type_members sampleProcedureQueries naNil approachILS06).2.2.2.2.1
      approachILS06.type rfl,
   (procedure_type_members sampleProcedureQueries naNil transRIVER).2.2.2.2.2.1
      transRIVER.type (by decide) (by decide) rfl⟩

/-- C25, the code at the failing input. The kinds Above and Below do not come back from
their script names: `routeRestrictionFromArg` has no case for "above" and "below" and
returns None for them.  The other six kinds do come back. -/
theorem restriction_above_below_not_read :
    routeRestrictionToNasal RESTRICT_ABOVE = .string "above" ∧
    routeRestrictionFromArg (routeRestrictionToNasal RESTRICT_ABOVE) = RESTRICT_NONE ∧
    routeRestrictionToNasal RESTRICT_BELOW = .string "below" ∧
    routeRestrictionFromArg (routeRestrictionToNasal RESTRICT_BELOW) = RESTRICT_NONE ∧
    (∀ k : RouteRestriction, k ≠ RESTRICT_ABOVE → k ≠ RESTRICT_BELOW →
      routeRestrictionFromArg (routeRestrictionToNasal k) = k) := by
  refine ⟨rfl, by decide, rfl, by decide, ?_⟩
  intro k h1 h2
  cases k <;> first | contradiction | decide

/-- A string that is none of the five role names has no flag. -/
theorem role_names_none (s : String) (hs : s ∉ roleNames) : wayptFlagFromString s = none := by
  simp only [roleNames, List.mem_cons, List.mem_singleton, List.not_mem_nil, or_false,
    not_or] at hs
  simp [wayptFlagFromString, hs]

/-- C26. Each of the five role names comes back from the flag `wayptFlagFromString` gives
for it, and every other string gives no flag.  On a flag word `wayptFlagToNasal` reports
the first flag set in the order pseudo, sid, star, missed, approach, and it is nil if and
only if none of the five is set. -/
theorem role_names_round_trip :
    (∀ s, s ∈ roleNames → wayptFlagToNasal (flagWord (wayptFlagFromString s)) = .string s) ∧
    (∀ s, s ∉ roleNames → wayptFlagFromString s = none) ∧
    (∀ flags : List WayptFlag,
      (WPT_PSEUDO ∈ flags → wayptFlagToNasal flags = .string "pseudo") ∧
      (WPT_PSEUDO ∉ flags → WPT_DEPARTURE ∈ flags → wayptFlagToNasal flags = .string "sid") ∧
      (WPT_PSEUDO ∉ flags → WPT_DEPARTURE ∉ flags → WPT_ARRIVAL ∈ flags →
        wayptFlagToNasal flags = .string "star") ∧
      (WPT_PSEUDO ∉ flags → WPT_DEPARTURE ∉ flags → WPT_ARRIVAL ∉ flags → WPT_MISS ∈ flags →
        wayptFlagToNasal flags = .string "missed") ∧
      (WPT_PSEUDO ∉ flags → WPT_DEPARTURE ∉ flags → WPT_ARRIVAL ∉ flags → WPT_MISS ∉ flags →
        WPT_APPROACH ∈ flags → wayptFlagToNasal flags = .string "approach") ∧
      (naIsNil (wayptFlagToNasal flags) = true ↔
        (WPT_PSEUDO ∉ flags ∧ WPT_DEPARTURE ∉ flags ∧ WPT_ARRIVAL ∉ flags ∧
          WPT_MISS ∉ flags ∧ WPT_APPROACH ∉ flags))) := by
  refine ⟨?_, ?_, ?_⟩
  · intro s hs
    simp only [roleNames, List.mem_cons, List.mem_singleton, List.not_mem_nil, or_false] at hs
    rcases hs with rfl | rfl | rfl | rfl | rfl <;> rfl
  · exact role_names_none
  · intro flags
    refine ⟨?_, ?_, ?_, ?_, ?_, ?_⟩
    · intro h; simp [wayptFlagToNasal, h, stringToNasal]
    · intro h0 h; simp [wayptFlagToNasal, h0, h, stringToNasal]
    · intro h0 h1 h; simp [wayptFlagToNasal, h0, h1, h, stringToNasal]
    · intro h0 h1 h2 h; simp [wayptFlagToNasal, h0, h1, h2, h, stringToNasal]
    · intro h0 h1 h2 h3 h; simp [wayptFlagToNasal, h0, h1, h2, h3, h, stringToNasal]
    · simp only [wayptFlagToNasal, stringToNasal, naNil]
      split_ifs <;> simp_all [naIsNil]

/-- Witness of C26: "missed" comes back from its flag, "climb" gives no flag, and a word
with the flags Approach, Arrival and Departure reads as "sid". -/
theorem role_names_round_trip_witness :
    wayptFlagToNasal (flagWord (wayptFlagFromString "missed")) = .string "missed" ∧
    wayptFlagFromString "climb" = none ∧
    wayptFlagToNasal [WPT_APPROACH, WPT_ARRIVAL, WPT_DEPARTURE] = .string "sid" :=
  ⟨role_names_round_trip.1 "missed" (by decide),
   role_names_round_trip.2.1 "climb" (by decide),
   (role_names_round_trip.2.2 [WPT_APPROACH, WPT_ARRIVAL, WPT_DEPARTURE]).2.1
      (by decide) (by decide)⟩

/-- C27. Assigning `wp_role`: if the value is no string, if the waypoint has an owner, or
if the string is none of the five role names, a script error is raised and the waypoint is
as it was; in the one remaining case `setFlag(f, true)` is called with the flag `f` of the
name, which is never the value 0. -/
theorem wp_role_assignment_guarded (W : WayptMethods) (wpt : Waypt) (value : naRef) :
    let r := waypointCommonSetMember W wpt "wp_role" value
    (naIsString value = false → r = (.error "wp_role must be a string", wpt)) ∧
    (naIsString value = true → wpt.owner ≠ none →
      r = (.error "cannot override wp_role on waypoint with parent", wpt)) ∧
    (∀ s, value = .string s → wpt.owner = none → s ∉ roleNames →
      r = (.error "unrecognized wp_role value %s", wpt)) ∧
    (∀ s, value = .string s → wpt.owner = none → s ∈ roleNames →
      ∃ f, wayptFlagFromString s = some f ∧ r = (.ok true, W.setFlag wpt f true)) ∧
    (r.1.isOk = true →
      ∃ s f, value = .string s ∧ wpt.owner = none ∧ s ∈ roleNames ∧
        wayptFlagFromString s = some f ∧ r = (.ok true, W.setFlag wpt f true)) := by
  intro r
  have hnone : ∀ s, s ∉ roleNames → wayptFlagFromString s = none :=
    role_names_none
  have hsome : ∀ s, s ∈ roleNames → ∃ f, wayptFlagFromString s = some f := by
    intro s hs
    simp only [roleNames, List.mem_cons, List.mem_singleton, List.not_mem_nil, or_false] at hs
    rcases hs with rfl | rfl | rfl | rfl | rfl
    · exact ⟨WPT_DEPARTURE, rfl⟩
    · exact ⟨WPT_ARRIVAL, rfl⟩
    · exact ⟨WPT_APPROACH, rfl⟩
    · exact ⟨WPT_MISS, rfl⟩
    · exact ⟨WPT_PSEUDO, rfl⟩
  have h1 : naIsString value = false → r = (.error "wp_role must be a string", wpt) := by
    intro h
    simp [r, waypointCommonSetMember, h]
  have h2 : naIsString value = true → wpt.owner ≠ none →
      r = (.error "cannot override wp_role on waypoint with parent", wpt) := by
    intro h ho
    simp [r, waypointCommonSetMember, h, ho]
  have h3 : ∀ s, value = .string s → wpt.owner = none → s ∉ roleNames →
      r = (.error "unrecognized wp_role value %s", wpt) := by
    intro s hv ho hs
    simp [r, waypointCommonSetMember, hv, naIsString, ho, naStr_data, hnone s hs]
  have h4 : ∀ s, value = .string s → wpt.owner = none → s ∈ roleNames →
      ∃ f, wayptFlagFromString s = some f ∧ r = (.ok true, W.setFlag wpt f true) := by
    intro s hv ho hs
    obtain ⟨f, hf⟩ := hsome s hs
    exact ⟨f, hf, by simp [r, waypointCommonSetMember, hv, naIsString, ho, naStr_data, hf]⟩
  refine ⟨h1, h2, h3, h4, ?_⟩
  intro hok
  cases hs : naIsString value with
  | false => rw [h1 hs] at hok; simp [Outcome.isOk] at hok
  | true =>
    cases hv : value <;> simp [hv, naIsString] at hs
    rename_i s
    by_cases ho : wpt.owner = none
    · by_cases hr : s ∈ roleNames
      · obtain ⟨f, hf, hrf⟩ := h4 s hv ho hr
        exact ⟨s, f, rfl, ho, hr, hf, hrf⟩
      · rw [h3 s hv ho hr] at hok; simp [Outcome.isOk] at hok
    · rw [h2 (by simp [hv, naIsString]) ho] at hok; simp [Outcome.isOk] at hok

/-- Witness of C27: with `setFlag` as the specification describes it, `wp_role = "star"` on a
plain waypoint sets Arrival, and on a waypoint with an owning procedure it raises the script
error and leaves the waypoint as it was. -/
theorem wp_role_assignment_guarded_witness :
    (∃ f, wayptFlagFromString "star" = some f ∧
      waypointCommonSetMember specWayptMethods plainLeg.waypoint "wp_role" (.string "star")
        = (.ok true, specWayptMethods.setFlag plainLeg.waypoint f true)) ∧
    waypointCommonSetMember specWayptMethods procedureLeg.waypoint "wp_role"
        (.string "star")
      = (.error "cannot override wp_role on waypoint with parent", procedureLeg.waypoint) :=
  ⟨(wp_role_assignment_guarded specWayptMethods plainLeg.waypoint (.string "star")).2.2.2.1
      "star" rfl rfl (by decide),
   (wp_role_assignment_guarded specWayptMethods procedureLeg.waypoint
      (.string "star")).2.1 rfl (by decide)⟩

/-- Past the ghost cases `geodFromArgs` reads a hash, then two numbers. -/
theorem geodFromArgs_not_ghost (tonum : String → Option Dbl) (isGeoCoordClass : naRef → Bool)
    (args : Nat → naRef) (offset argc : Nat) (result : SGGeod) (hlt : offset < argc)
    (hg : isPositionGhost (args offset) = false) :
    geodFromArgs tonum isGeoCoordClass args offset argc result =
      match geodFromHash tonum isGeoCoordClass (args offset) with
      | some g => (1, g)
      | none =>
        if (((argc : Int) - offset) ≥ 2) ∧ naIsNum (args offset) ∧ naIsNum (args (offset + 1))
        then (2, SGGeod.fromDeg (naNumValue tonum (args 1)).num (naNumValue tonum (args 0)).num)
        else (0, result) := by
  have hge : ¬ offset ≥ argc := by omega
  simp only [geodFromArgs, hge, if_false]
  cases ha : args offset with
  | ghost g => cases g <;> simp_all [isPositionGhost]
  | _ => rfl

/-- A value that is no hash gives no position. -/
theorem geodFromHash_not_hash (tonum : String → Option Dbl) (isGeoCoordClass : naRef → Bool)
    (ref : naRef) (h : naIsHash ref = false) :
    geodFromHash tonum isGeoCoordClass ref = none := by
  simp [geodFromHash, h]

/-- C30, counterexample. With an offset past the arguments, here `offset = 1` and
`argc = 0`, `geodFromArgs` returns 0, and `offset + 0 ≤ argc` does not hold. -/
theorem geodFromArgs_offset_past_argc :
    geodFromArgs sampleTonum (fun _ => false) (argsOf []) 1 0 SGGeod.zero = (0, SGGeod.zero) ∧
    ¬ (1 + (geodFromArgs sampleTonum (fun _ => false) (argsOf []) 1 0 SGGeod.zero).1 ≤ 0) := by
  constructor <;> decide

/-- C30, amended. `geodFromArgs(args, offset, argc)` returns a value `r` in {0, 1, 2} with
`offset + r ≤ argc` whenever `offset ≤ argc`.  It returns 0, with the result position as it
was, when `offset ≥ argc`, and whenever it returns 0 the result position is as it was.  It
returns 1 exactly when an argument remains and `args[offset]` is a ghost it takes a position
from, or a hash that `geodFromHash` reads; it returns 2 exactly when two arguments remain
and both are numbers. -/
theorem geodFromArgs_count (tonum : String → Option Dbl) (isGeoCoordClass : naRef → Bool)
    (args : Nat → naRef) (offset argc : Nat) (result : SGGeod) :
    let r := geodFromArgs tonum isGeoCoordClass args offset argc result
    (r.1 = 0 ∨ r.1 = 1 ∨ r.1 = 2) ∧
    (offset ≤ argc → offset + r.1 ≤ argc) ∧
    (offset ≥ argc → r = (0, result)) ∧
    (r.1 = 0 → r.2 = result) ∧
    (r.1 = 1 ↔ (offset < argc ∧ (isPositionGhost (args offset) = true ∨
      (geodFromHash tonum isGeoCoordClass (args offset)).isSome = true))) ∧
    (r.1 = 2 ↔ (offset + 2 ≤ argc ∧ naIsNum (args offset) = true ∧
      naIsNum (args (offset + 1)) = true)) := by
  intro r
  by_cases hge : offset ≥ argc
  · have hr : r = (0, result) := by simp [r, geodFromArgs, hge]
    rw [hr]
    refine ⟨Or.inl rfl, fun _ => by omega, fun _ => rfl, fun _ => rfl, ?_, ?_⟩
    · constructor
      · intro h; simp at h
      · rintro ⟨h, -⟩; omega
    · constructor
      · intro h; simp at h
      · rintro ⟨h, -⟩; omega
  · have hlt : offset < argc := by omega
    cases hg : isPositionGhost (args offset) with
    | true =>
      have hr : r.1 = 1 := by
        have hle : ¬ argc ≤ offset := by omega
        cases ha : args offset with
        | ghost g =>
          cases g <;> simp [ha, isPositionGhost] at hg <;>
            simp [r, geodFromArgs, ha, hle]
        | _ => simp [ha, isPositionGhost] at hg
      have hnum : naIsNum (args offset) = false := by
        cases ha : args offset <;> simp_all [isPositionGhost, naIsNum]
      rw [hr]
      refine ⟨Or.inr (Or.inl rfl), fun _ => by omega, fun h => absurd h hge,
        fun h => by omega, ?_, ?_⟩
      · exact ⟨fun _ => ⟨hlt, Or.inl rfl⟩, fun _ => rfl⟩
      · constructor
        · intro h; omega
        · rintro ⟨-, h, -⟩; simp [hnum] at h
    | false =>
      have hr := geodFromArgs_not_ghost tonum isGeoCoordClass args offset argc result hlt hg
      cases hh : geodFromHash tonum isGeoCoordClass (args offset) with
      | some g =>
        have hnum : naIsNum (args offset) = false := by
          cases ha : args offset <;> simp_all [geodFromHash, naIsHash, naIsNum]
        have hr' : r = (1, g) := by simp only [r, hr, hh]
        rw [hr']
        refine ⟨Or.inr (Or.inl rfl), fun _ => by simp; omega, fun h => absurd h hge,
          fun h => by simp at h, ?_, ?_⟩
        · exact ⟨fun _ => ⟨hlt, Or.inr rfl⟩, fun _ => rfl⟩
        · constructor
          · intro h; simp at h
          · rintro ⟨-, h, -⟩; simp [hnum] at h
      | none =>
        by_cases hc : (((argc : Int) - offset) ≥ 2) ∧ naIsNum (args offset) ∧
            naIsNum (args (offset + 1))
        · have hr' : r = (2, SGGeod.fromDeg (naNumValue tonum (args 1)).num
              (naNumValue tonum (args 0)).num) := by
            simp only [r, hr, hh]
            rw [if_pos hc]
          rw [hr']
          have h2 : offset + 2 ≤ argc := by omega
          refine ⟨Or.inr (Or.inr rfl), fun _ => by simp; omega, fun h => absurd h hge,
            fun h => by simp at h, ?_, ?_⟩
          · constructor
            · intro h; simp at h
            · rintro ⟨-, h⟩
              rcases h with h | h
              · simp [hg] at h
              · simp at h
          · exact ⟨fun _ => ⟨h2, hc.2.1, hc.2.2⟩, fun _ => rfl⟩
        · have hr' : r = (0, result) := by
            simp only [r, hr, hh]
            rw [if_neg hc]
          rw [hr']
          refine ⟨Or.inl rfl, fun _ => by simp; omega, fun _ => rfl, fun _ => rfl, ?_, ?_⟩
          · constructor
            · intro h; simp at h
            · rintro ⟨-, h⟩
              rcases h with h | h
              · simp [hg] at h
              · simp at h
          · constructor
            · intro h; simp at h
            · rintro ⟨h2, h3, h4⟩
              exact absurd ⟨by omega, h3, h4⟩ hc

/-- Witness of C30, amended: of the three arguments (navaid, 52, 4) the call at offset 0
consumes one and the call at offset 1 consumes two, which is all that remain. -/
theorem geodFromArgs_count_witness :
    (geodFromArgs sampleTonum (fun _ => false)
      (argsOf [.ghost (.navaid navSPY), naNum (Dbl.ofInt 52), naNum (Dbl.ofInt 4)])
      0 3 SGGeod.zero).1 = 1 ∧
    (geodFromArgs sampleTonum (fun _ => false)
      (argsOf [.ghost (.navaid navSPY), naNum (Dbl.ofInt 52), naNum (Dbl.ofInt 4)])
      1 3 SGGeod.zero).1 = 2 :=
  ⟨(geodFromArgs_count sampleTonum (fun _ => false)
      (argsOf [.ghost (.navaid navSPY), naNum (Dbl.ofInt 52), naNum (Dbl.ofInt 4)])
      0 3 SGGeod.zero).2.2.2.2.1.2 ⟨by decide, Or.inl rfl⟩,
   (geodFromArgs_count sampleTonum (fun _ => false)
      (argsOf [.ghost (.navaid navSPY), naNum (Dbl.ofInt 52), naNum (Dbl.ofInt 4)])
      1 3 SGGeod.zero).2.2.2.2.2.2 ⟨by decide, rfl, rfl⟩⟩

/-- When two arguments remain at `offset` and both are numbers, `geodFromArgs` returns 2 and
the position it produces is made of `args[0]` and `args[1]`, whatever the offset is. -/
theorem geodFromArgs_two_numbers (tonum : String → Option Dbl)
    (isGeoCoordClass : naRef → Bool) (args : Nat → naRef) (offset argc : Nat)
    (result : SGGeod) (h2 : offset + 2 ≤ argc) (ha : naIsNum (args offset) = true)
    (hb : naIsNum (args (offset + 1)) = true) :
    geodFromArgs tonum isGeoCoordClass args offset argc result
      = (2, SGGeod.fromDeg (naNumValue tonum (args 1)).num (naNumValue tonum (args 0)).num) := by
  have hg : isPositionGhost (args offset) = false := by
    cases hx : args offset <;> simp_all [isPositionGhost, naIsNum]
  have hh : geodFromHash tonum isGeoCoordClass (args offset) = none := by
    apply geodFromHash_not_hash
    cases hx : args offset <;> simp_all [naIsHash, naIsNum]
  have hc : (((argc : Int) - offset) ≥ 2) ∧ naIsNum (args offset) ∧
      naIsNum (args (offset + 1)) := ⟨by omega, ha, hb⟩
  rw [geodFromArgs_not_ghost tonum isGeoCoordClass args offset argc result (by omega) hg, hh]
  simp only
  rw [if_pos hc]

/-- C21, the code at the failing input. `courseAndDistance(52, 4, 48, 11)`: the call of
`geodFromArgs` at offset 2 returns 2 but produces the position of latitude 52 and longitude
4, which is made of `args[0]` and `args[1]`, not of `args[2]` and `args[3]`.  So the TO
position handed to the geodesy is (52, 4), the FROM position, and not (48, 11): the probe
reports the latitude 52 and the longitude 4. -/
theorem courseAndDistance_to_is_from :
    geodFromArgs sampleTonum (fun _ => false)
        (argsOf [naNum (Dbl.ofInt 52), naNum (Dbl.ofInt 4), naNum (Dbl.ofInt 48),
                 naNum (Dbl.ofInt 11)]) 2 4 SGGeod.zero
      = (2, SGGeod.fromDeg (Dbl.ofInt 4) (Dbl.ofInt 52)) ∧
    f_courseAndDistance probeGeodesy sampleTonum (fun _ => false) SGGeod.zero 4
        (argsOf [naNum (Dbl.ofInt 52), naNum (Dbl.ofInt 4), naNum (Dbl.ofInt 48),
                 naNum (Dbl.ofInt 11)])
      = .ok (.vector [naNum (Dbl.ofInt 52), naNum (Dbl.ofInt 4)]) :=
  ⟨by decide, rfl⟩

/-- With a runway as selector and with no selector, `getApproachList` keeps the approaches
whose type is the one named, or all of them when no type is named. -/
theorem approaches_filtered_for_runway (AQ : AirportQueries) (PQ : ProcedureQueries)
    (apt : FGAirport) (argc : Nat) (args : Nat → naRef) :
    (∀ rwy, argc > 0 → runwayGhost (args 0) = some rwy →
      f_airport_approaches AQ PQ (.ghost (.airport apt)) argc args
        = .ok (.vector (((AQ.runwayApproaches rwy).filter
            (fun s => decide (approachTypeArg argc args = PROCEDURE_INVALID) ||
              decide (s.type = approachTypeArg argc args))).map
            (fun s => .string s.ident)))) ∧
    (argc = 0 →
      f_airport_approaches AQ PQ (.ghost (.airport apt)) argc args
        = .ok (.vector (((AQ.approaches apt).filter
            (fun s => decide (approachTypeArg argc args = PROCEDURE_INVALID) ||
              decide (s.type = approachTypeArg argc args))).map
            (fun s => .string s.ident)))) := by
  have hf : ∀ ty : ProcedureType,
      (fun s : Procedure => !(decide (ty ≠ PROCEDURE_INVALID) && decide (s.type ≠ ty)))
        = (fun s => decide (ty = PROCEDURE_INVALID) || decide (s.type = ty)) := by
    intro ty
    funext s
    by_cases h1 : ty = PROCEDURE_INVALID <;> by_cases h2 : s.type = ty <;> simp [h1, h2]
  refine ⟨?_, ?_⟩
  · intro rwy hc hr
    simp only [f_airport_approaches, airportGhost, hc, hr, hf]
    simp [stringToNasal]
  · intro hc
    simp only [f_airport_approaches, airportGhost, hc, hf]
    simp [stringToNasal]

/-- C28, the code at the failing input. At the example airport, whose runway 06 has the
approaches VOR06 and ILS06 and is served by the STAR EEL1A:
`getApproachList(runway, "ils")`, `getApproachList("06", "ils")` and
`getApproachList(nil, "ils")` hold ILS06 alone, but `getApproachList(star, "ils")` holds
VOR06 as well, an approach of the type VOR. -/
theorem approaches_of_star_ignore_type :
    approachTypeArg 2 (argsOf [.ghost (.procedure starEEL), .string "ils"])
      = PROCEDURE_APPROACH_ILS ∧
    approachVOR06.type = PROCEDURE_APPROACH_VOR ∧
    f_airport_approaches sampleAirportQueries starProcedureQueries (.ghost (.airport aptEHAM)) 2
        (argsOf [.ghost (.procedure starEEL), .string "ils"])
      = .ok (.vector [.string "ILS06", .string "VOR06"]) ∧
    f_airport_approaches sampleAirportQueries starProcedureQueries (.ghost (.airport aptEHAM)) 2
        (argsOf [.ghost (.runway rwy06), .string "ils"])
      = .ok (.vector [.string "ILS06"]) ∧
    f_airport_approaches sampleAirportQueries starProcedureQueries (.ghost (.airport aptEHAM)) 2
        (argsOf [.string "06", .string "ils"])
      = .ok (.vector [.string "ILS06"]) ∧
    f_airport_approaches sampleAirportQueries starProcedureQueries (.ghost (.airport aptEHAM)) 2
        (argsOf [.nil, .string "ils"])
      = .ok (.vector [.string "ILS06"]) :=
  ⟨by decide, rfl, rfl, rfl, rfl, rfl⟩

/-- Two argument arrays that hold the same arguments give the same values at every index
below the number of arguments. -/
theorem argsOnStack_below (l : List naRef) (stale stale' : naRef) (i : Nat)
    (h : i < l.length) : argsOnStack l stale i = argsOnStack l stale' i := by
  simp [argsOnStack, List.getD_eq_getElem?_getD, List.getElem?_eq_getElem h]

/-- C29, the code at the failing input. Each of the eight search functions, called with no
argument or with a position alone, reads the slot of the argument array after the last
argument: with nil in that slot it raises its script error, and with a number (for the two
searches by ident: a string) in that slot it takes the slot for the missing argument and
returns a result.  The calls of each pair have the same arguments. -/
theorem searches_read_past_argc :
    (f_findAirportsWithinRange emptyNavDatabase sampleTonum (fun _ => false) 0
        (argsOnStack [] naNil) = .error "findAirportsWithinRange expected range (in nm) as arg %d" ∧
      f_findAirportsWithinRange emptyNavDatabase sampleTonum (fun _ => false) 0
        (argsOnStack [] (naNum (Dbl.ofInt 10))) = .ok (.vector [])) ∧
    (f_findAirportsWithinRange emptyNavDatabase sampleTonum (fun _ => false) 1
        (argsOnStack [.ghost (.navaid navSPY)] naNil) = .error "findAirportsWithinRange expected range (in nm) as arg %d" ∧
      f_findAirportsWithinRange emptyNavDatabase sampleTonum (fun _ => false) 1
        (argsOnStack [.ghost (.navaid navSPY)] (naNum (Dbl.ofInt 10))) = .ok (.vector [])) ∧
    (f_findNavaidsWithinRange emptyNavDatabase sampleTonum (fun _ => false) 0
        (argsOnStack [] naNil) = .error "findNavaidsWithinRange expected range (in nm) as arg %d" ∧
      f_findNavaidsWithinRange emptyNavDatabase sampleTonum (fun _ => false) 0
        (argsOnStack [] (naNum (Dbl.ofInt 10))) = .ok (.vector [])) ∧
    (f_findNavaidsWithinRange emptyNavDatabase sampleTonum (fun _ => false) 1
        (argsOnStack [.ghost (.navaid navSPY)] naNil) = .error "findNavaidsWithinRange expected range (in nm) as arg %d" ∧
      f_findNavaidsWithinRange emptyNavDatabase sampleTonum (fun _ => false) 1
        (argsOnStack [.ghost (.navaid navSPY)] (naNum (Dbl.ofInt 10))) = .ok (.vector [])) ∧
    (f_findNDBByFrequency emptyNavDatabase sampleTonum (fun _ => false) 0
        (argsOnStack [] naNil) = .error "findNDBByFrquency expectes frequency (in kHz) as arg %d" ∧
      f_findNDBByFrequency emptyNavDatabase sampleTonum (fun _ => false) 0
        (argsOnStack [] (naNum (Dbl.ofInt 10))) = .ok naNil) ∧
    (f_findNDBByFrequency emptyNavDatabase sampleTonum (fun _ => false) 1
        (argsOnStack [.ghost (.navaid navSPY)] naNil) = .error "findNDBByFrquency expectes frequency (in kHz) as arg %d" ∧
      f_findNDBByFrequency emptyNavDatabase sampleTonum (fun _ => false) 1
        (argsOnStack [.ghost (.navaid navSPY)] (naNum (Dbl.ofInt 10))) = .ok naNil) ∧
    (f_findNDBsByFrequency emptyNavDatabase sampleTonum (fun _ => false) 0
        (argsOnStack [] naNil) = .error "findNDBsByFrquency expectes frequency (in kHz) as arg %d" ∧
      f_findNDBsByFrequency emptyNavDatabase sampleTonum (fun _ => false) 0
        (argsOnStack [] (naNum (Dbl.ofInt 10))) = .ok naNil) ∧
    (f_findNDBsByFrequency emptyNavDatabase sampleTonum (fun _ => false) 1
        (argsOnStack [.ghost (.navaid navSPY)] naNil) = .error "findNDBsByFrquency expectes frequency (in kHz) as arg %d" ∧
      f_findNDBsByFrequency emptyNavDatabase sampleTonum (fun _ => false) 1
        (argsOnStack [.ghost (.navaid navSPY)] (naNum (Dbl.ofInt 10))) = .ok naNil) ∧
    (f_findNavaidByFrequency emptyNavDatabase sampleTonum (fun _ => false) 0
        (argsOnStack [] naNil) = .error "findNavaidByFrequency expectes frequency (in Mhz) as arg %d" ∧
      f_findNavaidByFrequency emptyNavDatabase sampleTonum (fun _ => false) 0
        (argsOnStack [] (naNum (Dbl.ofInt 10))) = .ok naNil) ∧
    (f_findNavaidByFrequency emptyNavDatabase sampleTonum (fun _ => false) 1
        (argsOnStack [.ghost (.navaid navSPY)] naNil) = .error "findNavaidByFrequency expectes frequency (in Mhz) as arg %d" ∧
      f_findNavaidByFrequency emptyNavDatabase sampleTonum (fun _ => false) 1
        (argsOnStack [.ghost (.navaid navSPY)] (naNum (Dbl.ofInt 10))) = .ok naNil) ∧
    (f_findNavaidsByFrequency emptyNavDatabase sampleTonum (fun _ => false) 0
        (argsOnStack [] naNil) = .error "findNavaidsByFrequency expectes frequency (in Mhz) as arg %d" ∧
      f_findNavaidsByFrequency emptyNavDatabase sampleTonum (fun _ => false) 0
        (argsOnStack [] (naNum (Dbl.ofInt 10))) = .ok (.vector [])) ∧
    (f_findNavaidsByFrequency emptyNavDatabase sampleTonum (fun _ => false) 1
        (argsOnStack [.ghost (.navaid navSPY)] naNil) = .error "findNavaidsByFrequency expectes frequency (in Mhz) as arg %d" ∧
      f_findNavaidsByFrequency emptyNavDatabase sampleTonum (fun _ => false) 1
        (argsOnStack [.ghost (.navaid navSPY)] (naNum (Dbl.ofInt 10))) = .ok (.vector [])) ∧
    (f_findNavaidsByIdent emptyNavDatabase sampleTonum (fun _ => false) 0
        (argsOnStack [] naNil) = .error "findNavaidsByIdent expectes ident string as arg %d" ∧
      f_findNavaidsByIdent emptyNavDatabase sampleTonum (fun _ => false) 0
        (argsOnStack [] (.string "SPY")) = .ok (.vector [])) ∧
    (f_findNavaidsByIdent emptyNavDatabase sampleTonum (fun _ => false) 1
        (argsOnStack [.ghost (.navaid navSPY)] naNil) = .error "findNavaidsByIdent expectes ident string as arg %d" ∧
      f_findNavaidsByIdent emptyNavDatabase sampleTonum (fun _ => false) 1
        (argsOnStack [.ghost (.navaid navSPY)] (.string "SPY")) = .ok (.vector [])) ∧
    (f_findFixesByIdent emptyNavDatabase sampleTonum (fun _ => false) 0
        (argsOnStack [] naNil) = .error "findFixesByIdent expectes ident string as arg %d" ∧
      f_findFixesByIdent emptyNavDatabase sampleTonum (fun _ => false) 0
        (argsOnStack [] (.string "SPY")) = .ok (.vector [])) ∧
    (f_findFixesByIdent emptyNavDatabase sampleTonum (fun _ => false) 1
        (argsOnStack [.ghost (.navaid navSPY)] naNil) = .error "findFixesByIdent expectes ident string as arg %d" ∧
      f_findFixesByIdent emptyNavDatabase sampleTonum (fun _ => false) 1
        (argsOnStack [.ghost (.navaid navSPY)] (.string "SPY")) = .ok (.vector [])) :=
  ⟨⟨rfl, rfl⟩, ⟨rfl, rfl⟩, ⟨rfl, rfl⟩, ⟨rfl, rfl⟩, ⟨rfl, rfl⟩, ⟨rfl, rfl⟩, ⟨rfl, rfl⟩, ⟨rfl,
   rfl⟩, ⟨rfl, rfl⟩, ⟨rfl, rfl⟩, ⟨rfl, rfl⟩, ⟨rfl, rfl⟩, ⟨rfl, rfl⟩, ⟨rfl, rfl⟩, ⟨rfl, rfl⟩,
   ⟨rfl, rfl⟩⟩

end NasalPositioned
